import Mathlib

/-!
# LED strip configuration codec and grid geometry (`src/main/io/ledstrip.c`)

A shallow embedding of the descriptor parser `parseLedStripConfig`, the
serialiser `generateLedConfig`, the geometry functions
`updateLedCount` / `determineLedStripDimensions` /
`determineOrientationLimits`, the colour parser `parseColor`, the layers
`applyLedModeLayer`, `applyLedThrottleLayer`, `applyLedWarningLayer`,
`applyLedIndicatorLayer` and the scheduler `updateLedStrip`.

Conventions.
* Machine integers are `Nat` with an explicit reduction modulo `2^8`,
  `2^16` or `2^32` wherever the C code stores into a `uint8_t`, `uint16_t`
  or `uint32_t`; values of type `int` and `int16_t` are `Int`.
* A C string argument is a `List Char`; the byte read through a pointer
  that stands at the end of the list is the terminating NUL.
* A `char` array on the stack is the list of bytes written into it, padded
  with NUL up to its capacity.  Where the C code hands such an array to a
  routine that reads up to a terminating NUL (`atoi`, `sprintf "%s"`) the
  bytes that happen to follow the array in memory are an explicit argument
  of the model: they are read exactly when the array is full.
-/

namespace Ledstrip

/-! ## Constants and types of the missing headers -/

/-- Modelled from the spec: `MAX_LED_STRIP_LENGTH` of `io/ledstrip.h` (the
header is not part of the sources at hand), the fixed capacity of the LED
configuration array ("at most `MAX_LED` entries"); the storage comment of
`ledstrip.c` counts 32 LEDs. -/
def MAX_LED_STRIP_LENGTH : Nat := 32

/-- Modelled from the spec: `LED_XY_MASK` of `io/ledstrip.h`; a coordinate
is "packed into a small fixed-width field", four bits wide. -/
def LED_XY_MASK : Nat := 0x0F

/-- Modelled from the spec: `LED_X_BIT_OFFSET` of `io/ledstrip.h`, the
position of the x field inside the packed byte. -/
def LED_X_BIT_OFFSET : Nat := 4

/-- Modelled from the spec: `LED_Y_BIT_OFFSET` of `io/ledstrip.h`, the
position of the y field inside the packed byte. -/
def LED_Y_BIT_OFFSET : Nat := 0

/-- Modelled from the spec: direction bit N of `ledFlag_e` (`io/ledstrip.h`),
first of the "6 direction bits (N, E, S, W, Up, Down)". -/
def LED_DIRECTION_NORTH : Nat := 1 <<< 0
/-- Modelled from the spec: direction bit E of `ledFlag_e`. -/
def LED_DIRECTION_EAST : Nat := 1 <<< 1
/-- Modelled from the spec: direction bit S of `ledFlag_e`. -/
def LED_DIRECTION_SOUTH : Nat := 1 <<< 2
/-- Modelled from the spec: direction bit W of `ledFlag_e`. -/
def LED_DIRECTION_WEST : Nat := 1 <<< 3
/-- Modelled from the spec: direction bit Up of `ledFlag_e`. -/
def LED_DIRECTION_UP : Nat := 1 <<< 4
/-- Modelled from the spec: direction bit Down of `ledFlag_e`. -/
def LED_DIRECTION_DOWN : Nat := 1 <<< 5
/-- Modelled from the spec: function bit Indicator of `ledFlag_e`, first of
the "5 function bits (Indicator, Warning, FlightMode, ArmState, Throttle)". -/
def LED_FUNCTION_INDICATOR : Nat := 1 <<< 6
/-- Modelled from the spec: function bit Warning of `ledFlag_e`. -/
def LED_FUNCTION_WARNING : Nat := 1 <<< 7
/-- Modelled from the spec: function bit FlightMode of `ledFlag_e`. -/
def LED_FUNCTION_FLIGHT_MODE : Nat := 1 <<< 8
/-- Modelled from the spec: function bit ArmState of `ledFlag_e`. -/
def LED_FUNCTION_ARM_STATE : Nat := 1 <<< 9
/-- Modelled from the spec: function bit Throttle of `ledFlag_e`. -/
def LED_FUNCTION_THROTTLE : Nat := 1 <<< 10

/-- Modelled from the spec: `ledConfig_t` of `io/ledstrip.h`, "LedConfig:
{position, flags}"; `xy` is a `uint8_t`, `flags` a `uint16_t`. -/
structure ledConfig_t where
  xy : Nat
  flags : Nat
deriving DecidableEq, Repr

/-- Modelled from the spec: macro `GET_LED_X` of `io/ledstrip.h`, the x
coordinate unpacked from the position byte. -/
def GET_LED_X (ledConfig : ledConfig_t) : Nat :=
  (ledConfig.xy >>> LED_X_BIT_OFFSET) &&& LED_XY_MASK

/-- Modelled from the spec: macro `GET_LED_Y` of `io/ledstrip.h`, the y
coordinate unpacked from the position byte. -/
def GET_LED_Y (ledConfig : ledConfig_t) : Nat :=
  (ledConfig.xy >>> LED_Y_BIT_OFFSET) &&& LED_XY_MASK

/-- Modelled from the spec: macro `CALCULATE_LED_X` of `io/ledstrip.h`, the
x coordinate masked and moved to its place in the position byte. -/
def CALCULATE_LED_X (x : Nat) : Nat := (x &&& LED_XY_MASK) <<< LED_X_BIT_OFFSET

/-- Modelled from the spec: macro `CALCULATE_LED_Y` of `io/ledstrip.h`, the
y coordinate masked and moved to its place in the position byte. -/
def CALCULATE_LED_Y (y : Nat) : Nat := (y &&& LED_XY_MASK) <<< LED_Y_BIT_OFFSET

/-- Modelled from the spec: macro `CALCULATE_LED_XY` of `io/ledstrip.h`. -/
def CALCULATE_LED_XY (x y : Nat) : Nat := CALCULATE_LED_X x ||| CALCULATE_LED_Y y

/-- Modelled from the spec: `HSV_HUE_MAX` of `common/color.h` (not part of
the sources at hand), the bound of the hue component ("HUE_MAX"), in
degrees. -/
def HSV_HUE_MAX : Nat := 359
/-- Modelled from the spec: `HSV_SATURATION_MAX` of `common/color.h`
("S/V: 0..255"). -/
def HSV_SATURATION_MAX : Nat := 255
/-- Modelled from the spec: `HSV_VALUE_MAX` of `common/color.h`
("S/V: 0..255"). -/
def HSV_VALUE_MAX : Nat := 255
/-- Modelled from the spec: `HSV_COLOR_COMPONENT_COUNT` of `common/color.h`,
the three components H, S, V. -/
def HSV_COLOR_COMPONENT_COUNT : Nat := 3

/-- Modelled from the spec: `hsvColor_t` of `common/color.h`, "HsvColor:
hue, saturation, value"; `h` is a `uint16_t`, `s` and `v` are `uint8_t`. -/
structure hsvColor_t where
  h : Nat
  s : Nat
  v : Nat
deriving DecidableEq, Repr

/-! ## C library routines -/

/-- The NUL byte that terminates a C string. -/
def NUL : Char := Char.ofNat 0

/-- The byte `*p` of a pointer into a C string: the head of what is left, the
terminating NUL at the end. -/
def peek : List Char → Char
  | [] => NUL
  | c :: _ => c

/-- The C string that starts at the first byte of a memory image: the bytes
before the first NUL. -/
def cString (mem : List Char) : List Char := mem.takeWhile (fun c => c != NUL)

/-- The memory image of a `char` array of capacity `cap` that was zeroed by
`memset` and then received the bytes `written` from index 0 on. -/
def charArray (cap : Nat) (written : List Char) : List Char :=
  written ++ List.replicate (cap - written.length) NUL

/-- The `isspace` of the C locale. -/
def isspace (c : Char) : Bool :=
  c == ' ' || c == '\t' || c == '\n' || c == '\x0b' || c == '\x0c' || c == '\r'

/-- The `isdigit` of the C library. -/
def isdigit (c : Char) : Bool := decide ('0'.toNat ≤ c.toNat ∧ c.toNat ≤ '9'.toNat)

/-- Value of the leading run of decimal digits, continuing from `acc`. -/
def digitsValue : Nat → List Char → Nat
  | acc, [] => acc
  | acc, c :: s => if isdigit c then digitsValue (acc * 10 + (c.toNat - '0'.toNat)) s else acc

/-- The saturation of `strtol`: a value beyond the range of a `long` of 64
bits is replaced by `LONG_MAX` or `LONG_MIN`. -/
def saturateLong (v : Int) : Int :=
  if v > 9223372036854775807 then 9223372036854775807
  else if v < -9223372036854775808 then -9223372036854775808
  else v

/-- Conversion of a `long` to `int`: the low 32 bits, read as two's
complement. -/
def longToInt (v : Int) : Int := (v + 2147483648) % 4294967296 - 2147483648

/-- The `atoi` of the C library: leading white space, an optional sign, and the
leading run of decimal digits.  A value within the range of `int` is returned
as it is.  For a value beyond that range the C standard leaves the result
undefined; the model gives what the C library's definition of `atoi` as
`(int) strtol (s, NULL, 10)` gives: the value saturated to the range of
`long`, of which the low 32 bits are kept. -/
def atoi (s : List Char) : Int :=
  longToInt (saturateLong
    (match s.dropWhile isspace with
     | [] => 0
     | c :: r =>
       if c = '-' then - (digitsValue 0 r : Int)
       else if c = '+' then (digitsValue 0 r : Int)
       else (digitsValue 0 (c :: r) : Int)))

/-- Conversion of an `int` to `uint8_t`. -/
def toUint8 (i : Int) : Nat := (i % 256).toNat

/-- Conversion of an `int` to `uint16_t`. -/
def toUint16 (i : Int) : Nat := (i % 65536).toNat

/-- The `strstr (s, ",")` of the C library followed by the `++` of the caller:
`none` is the null pointer, otherwise what follows the first comma. -/
def afterComma : List Char → Option (List Char)
  | [] => none
  | c :: s => if c = ',' then some s else afterComma s

/-! ## Global state of `ledstrip.c` -/

/-- The configuration array behind `ledConfigs` and the derived geometry:
`ledCount`, `ledGridWidth`, `ledGridHeight` and the four grid offsets
(all `uint8_t`). -/
structure LedState where
  ledConfigs : Nat → ledConfig_t
  ledCount : Nat
  ledGridWidth : Nat
  ledGridHeight : Nat
  highestYValueForNorth : Nat
  lowestYValueForSouth : Nat
  highestXValueForWest : Nat
  lowestXValueForEast : Nat

/-- The six derived geometry values of a state, in the order count, width,
height, north, south, west, east. -/
def LedState.geometry (st : LedState) : Nat × Nat × Nat × Nat × Nat × Nat × Nat :=
  (st.ledCount, st.ledGridWidth, st.ledGridHeight, st.highestYValueForNorth,
   st.lowestYValueForSouth, st.highestXValueForWest, st.lowestXValueForEast)

/-- Store into one element of an array. -/
def setEntry {α : Type} (a : Nat → α) (i : Nat) (v : α) : Nat → α :=
  fun j => if j = i then v else a j

/-! ## Grid topology -/

/-- Loop of `determineLedStripDimensions`: `n` iterations are left, the next
index is `ledIndex`, the pair is (`ledGridWidth`, `ledGridHeight`). -/
def determineLedStripDimensionsLoop (ledConfigs : Nat → ledConfig_t) :
    Nat → Nat → Nat × Nat → Nat × Nat
  | 0, _, wh => wh
  | n + 1, ledIndex, (w, h) =>
    let ledConfig := ledConfigs ledIndex
    let w1 := if GET_LED_X ledConfig ≥ w then (GET_LED_X ledConfig + 1) % 256 else w
    let h1 := if GET_LED_Y ledConfig ≥ h then (GET_LED_Y ledConfig + 1) % 256 else h
    determineLedStripDimensionsLoop ledConfigs n (ledIndex + 1) (w1, h1)

/-- `determineLedStripDimensions`: width and height start at 0 and are raised
by every LED with index below `ledCount`. -/
def determineLedStripDimensions (st : LedState) : LedState :=
  let wh := determineLedStripDimensionsLoop st.ledConfigs st.ledCount 0 (0, 0)
  { st with ledGridWidth := wh.1, ledGridHeight := wh.2 }

/-- `determineOrientationLimits`: the four grid offsets, each stored into a
`uint8_t`. -/
def determineOrientationLimits (st : LedState) : LedState :=
  let isOddHeight : Bool := st.ledGridHeight &&& 1 != 0
  let isOddWidth : Bool := st.ledGridWidth &&& 1 != 0
  let heightModifier : Nat := if isOddHeight then 1 else 0
  let widthModifier : Nat := if isOddWidth then 1 else 0
  { st with
    highestYValueForNorth := toUint8 ((st.ledGridHeight / 2 : Nat) - 1)
    lowestYValueForSouth := toUint8 ((st.ledGridHeight / 2 : Nat) + heightModifier)
    highestXValueForWest := toUint8 ((st.ledGridWidth / 2 : Nat) - 1)
    lowestXValueForEast := toUint8 ((st.ledGridWidth / 2 : Nat) + widthModifier) }

/-- Loop of `updateLedCount`: `n` iterations are left, the next index is
`ledIndex`; the loop stops at the first entry with `flags == 0 && xy == 0`. -/
def updateLedCountLoop (ledConfigs : Nat → ledConfig_t) : Nat → Nat → Nat → Nat
  | 0, _, ledCount => ledCount
  | n + 1, ledIndex, ledCount =>
    if (ledConfigs ledIndex).flags = 0 ∧ (ledConfigs ledIndex).xy = 0 then ledCount
    else updateLedCountLoop ledConfigs n (ledIndex + 1) ((ledCount + 1) % 256)

/-- `updateLedCount`. -/
def updateLedCount (st : LedState) : LedState :=
  { st with ledCount := updateLedCountLoop st.ledConfigs MAX_LED_STRIP_LENGTH 0 0 }

/-- `reevalulateLedConfig`: count, then dimensions, then orientation limits. -/
def reevalulateLedConfig (st : LedState) : LedState :=
  determineOrientationLimits (determineLedStripDimensions (updateLedCount st))

/-! ## Descriptor codec -/

/-- `CHUNK_BUFFER_SIZE`. -/
def CHUNK_BUFFER_SIZE : Nat := 10

/-- `PARSE_STATE_COUNT`. -/
def PARSE_STATE_COUNT : Nat := 4

/-- `X_COORDINATE` of `parseState_e`. -/
def X_COORDINATE : Nat := 0
/-- `Y_COORDINATE` of `parseState_e`. -/
def Y_COORDINATE : Nat := 1
/-- `DIRECTIONS` of `parseState_e`. -/
def DIRECTIONS : Nat := 2
/-- `FUNCTIONS` of `parseState_e`. -/
def FUNCTIONS : Nat := 3

/-- `chunkSeparators[parseState]`. -/
def chunkSeparators (parseState : Nat) : Char :=
  [',', ':', ':', NUL].getD parseState NUL

/-- `directionCodes`. -/
def directionCodes : List Char := ['N', 'E', 'S', 'W', 'U', 'D']

/-- `DIRECTION_COUNT`. -/
def DIRECTION_COUNT : Nat := directionCodes.length

/-- `directionMappings`. -/
def directionMappings : List Nat :=
  [LED_DIRECTION_NORTH, LED_DIRECTION_EAST, LED_DIRECTION_SOUTH,
   LED_DIRECTION_WEST, LED_DIRECTION_UP, LED_DIRECTION_DOWN]

/-- `functionCodes`. -/
def functionCodes : List Char := ['I', 'W', 'F', 'A', 'T']

/-- `FUNCTION_COUNT`. -/
def FUNCTION_COUNT : Nat := functionCodes.length

/-- `functionMappings`. -/
def functionMappings : List Nat :=
  [LED_FUNCTION_INDICATOR, LED_FUNCTION_WARNING, LED_FUNCTION_FLIGHT_MODE,
   LED_FUNCTION_ARM_STATE, LED_FUNCTION_THROTTLE]

/-- The copy loop
`while (*config && chunkIndex < CHUNK_BUFFER_SIZE && *config != chunkSeparator)`
of `parseLedStripConfig`: `chunk` holds the bytes copied so far
(`chunkIndex` is its length); the result is the chunk and the rest of the
text. -/
def fillChunk (chunkSeparator : Char) : List Char → List Char → List Char × List Char
  | chunk, [] => (chunk, [])
  | chunk, c :: config =>
    if c ≠ NUL ∧ chunk.length < CHUNK_BUFFER_SIZE ∧ c ≠ chunkSeparator then
      fillChunk chunkSeparator (chunk ++ [c]) config
    else (chunk, c :: config)

/-- The inner mapping loop of the `DIRECTIONS` and `FUNCTIONS` cases: the
first code equal to the letter ORs its mapping into the flags (a
`uint16_t`) and ends the loop. -/
def applyMapping : List Char → List Nat → Char → Nat → Nat
  | code :: codes, mapping :: mappings, c, flags =>
    if code = c then (flags ||| mapping) % 65536 else applyMapping codes mappings c flags
  | _, _, _, flags => flags

/-- The letters visited by
`for (chunkIndex = 0; chunk[chunkIndex] && chunkIndex < CHUNK_BUFFER_SIZE; chunkIndex++)`:
the bytes of the array before its first NUL. -/
def chunkLetters (chunkArray : List Char) : List Char :=
  cString (chunkArray.take CHUNK_BUFFER_SIZE)

/-- The `switch` of `parseLedStripConfig`: what one chunk does to the entry.
`adjacent` are the bytes stored after `chunk` in memory, which `atoi`
reaches when all ten bytes of the array are in use. -/
def applyChunk (adjacent : List Char) (parseState : Nat) (chunk : List Char)
    (ledConfig : ledConfig_t) : ledConfig_t :=
  let chunkArray := charArray CHUNK_BUFFER_SIZE chunk
  if parseState = X_COORDINATE then
    let val := toUint8 (atoi (cString (chunkArray ++ adjacent)))
    { ledConfig with xy := (ledConfig.xy ||| CALCULATE_LED_X val) % 256 }
  else if parseState = Y_COORDINATE then
    let val := toUint8 (atoi (cString (chunkArray ++ adjacent)))
    { ledConfig with xy := (ledConfig.xy ||| CALCULATE_LED_Y val) % 256 }
  else if parseState = DIRECTIONS then
    { ledConfig with
      flags := (chunkLetters chunkArray).foldl
        (fun flags c => applyMapping directionCodes directionMappings c flags) ledConfig.flags }
  else if parseState = FUNCTIONS then
    { ledConfig with
      flags := (chunkLetters chunkArray).foldl
        (fun flags c => applyMapping functionCodes functionMappings c flags) ledConfig.flags }
  else ledConfig

/-- The `while (ok)` loop of `parseLedStripConfig` with room for `n`
iterations: the result is `ok` and the entry.  The loop leaves through one of
its two `break`s within `PARSE_STATE_COUNT` iterations (`parseLoop_enough`).
`adjacent parseState` are the bytes found after `chunk` while the chunk of
`parseState` is evaluated. -/
def parseLoop (adjacent : Nat → List Char) :
    Nat → Nat → List Char → ledConfig_t → Bool × ledConfig_t
  | 0, _, _, ledConfig => (true, ledConfig)
  | n + 1, parseState, config, ledConfig =>
    let chunkSeparator := chunkSeparators parseState
    let filled := fillChunk chunkSeparator [] config
    if peek filled.2 ≠ chunkSeparator then (false, ledConfig)
    else
      let ledConfig1 := applyChunk (adjacent parseState) parseState filled.1 ledConfig
      if parseState + 1 ≥ PARSE_STATE_COUNT then (true, ledConfig1)
      else parseLoop adjacent n (parseState + 1) filled.2.tail ledConfig1

/-- `parseLedStripConfig (ledIndex, config)`: the returned flag and the state
after the call. -/
def parseLedStripConfig (adjacent : Nat → List Char) (st : LedState) (ledIndex : Nat)
    (config : List Char) : Bool × LedState :=
  if ledIndex ≥ MAX_LED_STRIP_LENGTH then (false, st)
  else
    let r := parseLoop adjacent PARSE_STATE_COUNT X_COORDINATE config ⟨0, 0⟩
    let ledConfig : ledConfig_t := if r.1 then r.2 else ⟨0, 0⟩
    (r.1, reevalulateLedConfig { st with ledConfigs := setEntry st.ledConfigs ledIndex ledConfig })

/-- The collecting loops of `generateLedConfig`: the codes of the mappings
that have a bit in common with the flags, in table order. -/
def collectCodes (flags : Nat) : List Char → List Nat → List Char
  | code :: codes, mapping :: mappings =>
    if flags &&& mapping ≠ 0 then code :: collectCodes flags codes mappings
    else collectCodes flags codes mappings
  | _, _ => []

/-- `generateLedConfig (ledIndex, ledConfigBuffer, bufferSize)`: the text that
`sprintf` writes for the format `%u,%u:%s:%s` (the buffer is taken to be
large enough).  `afterDirections` and `afterFunctions` are the bytes stored
after the arrays `directions` and `functions`, which `%s` reaches when
every element of the array holds a letter. -/
def generateLedConfig (afterDirections afterFunctions : List Char)
    (ledConfigs : Nat → ledConfig_t) (ledIndex : Nat) : List Char :=
  let ledConfig := ledConfigs ledIndex
  let functions := charArray FUNCTION_COUNT (collectCodes ledConfig.flags functionCodes functionMappings)
  let directions := charArray DIRECTION_COUNT (collectCodes ledConfig.flags directionCodes directionMappings)
  Nat.toDigits 10 (GET_LED_X ledConfig) ++ [','] ++ Nat.toDigits 10 (GET_LED_Y ledConfig) ++ [':']
    ++ cString (directions ++ afterDirections) ++ [':'] ++ cString (functions ++ afterFunctions)

/-! ## Colour codec -/

/-- The `for` loop of `parseColor`, `n` iterations being left: the result is
`ok` and the palette entry `colors[index]`.  `val` is a `uint16_t`. -/
def parseColorLoop : Nat → Nat → List Char → hsvColor_t → Bool × hsvColor_t
  | 0, _, _, color => (true, color)
  | n + 1, componentIndex, remainingCharacters, color =>
    let val := toUint16 (atoi remainingCharacters)
    if componentIndex = 0 ∧ val > HSV_HUE_MAX then (false, color)
    else if componentIndex = 1 ∧ val > HSV_SATURATION_MAX then (false, color)
    else if componentIndex = 2 ∧ val > HSV_VALUE_MAX then (false, color)
    else
      let color1 : hsvColor_t :=
        if componentIndex = 0 then { color with h := val }
        else if componentIndex = 1 then { color with s := val % 256 }
        else if componentIndex = 2 then { color with v := val % 256 }
        else color
      match afterComma remainingCharacters with
      | some rest => parseColorLoop n (componentIndex + 1) rest color1
      | none =>
        if componentIndex < 2 then (false, color1)
        -- the pointer is null now and is not read again: this was the last component
        else parseColorLoop n (componentIndex + 1) [] color1

/-- `parseColor (index, colorConfig)`: the returned flag and the palette after
the call. -/
def parseColor (colors : Nat → hsvColor_t) (index : Nat) (colorConfig : List Char) :
    Bool × (Nat → hsvColor_t) :=
  let r := parseColorLoop HSV_COLOR_COMPONENT_COUNT 0 (cString colorConfig) (colors index)
  (r.1, setEntry colors index (if r.1 then r.2 else ⟨0, 0, 0⟩))

/-! ## Mode layer -/

/-- `hsv_black`. -/
def hsv_black : hsvColor_t := ⟨0, 0, 0⟩
/-- `hsv_green`. -/
def hsv_green : hsvColor_t := ⟨120, 0, 255⟩
/-- `hsv_blue`. -/
def hsv_blue : hsvColor_t := ⟨240, 0, 255⟩

/-- `COLOR_BLACK` of `colorIds`. -/
def COLOR_BLACK : Nat := 0
/-- `COLOR_WHITE` of `colorIds`. -/
def COLOR_WHITE : Nat := 1
/-- `COLOR_RED` of `colorIds`. -/
def COLOR_RED : Nat := 2
/-- `COLOR_ORANGE` of `colorIds`. -/
def COLOR_ORANGE : Nat := 3
/-- `COLOR_YELLOW` of `colorIds`. -/
def COLOR_YELLOW : Nat := 4
/-- `COLOR_LIME_GREEN` of `colorIds`. -/
def COLOR_LIME_GREEN : Nat := 5
/-- `COLOR_GREEN` of `colorIds`. -/
def COLOR_GREEN : Nat := 6
/-- `COLOR_MINT_GREEN` of `colorIds`. -/
def COLOR_MINT_GREEN : Nat := 7
/-- `COLOR_CYAN` of `colorIds`. -/
def COLOR_CYAN : Nat := 8
/-- `COLOR_LIGHT_BLUE` of `colorIds`. -/
def COLOR_LIGHT_BLUE : Nat := 9
/-- `COLOR_BLUE` of `colorIds`. -/
def COLOR_BLUE : Nat := 10
/-- `COLOR_DARK_VIOLET` of `colorIds`. -/
def COLOR_DARK_VIOLET : Nat := 11
/-- `COLOR_MAGENTA` of `colorIds`. -/
def COLOR_MAGENTA : Nat := 12
/-- `COLOR_DEEP_PINK` of `colorIds`. -/
def COLOR_DEEP_PINK : Nat := 13

/-- `modeColorIndexes_t`: one palette index for each direction. -/
structure modeColorIndexes_t where
  north : Nat
  east : Nat
  south : Nat
  west : Nat
  up : Nat
  down : Nat
deriving DecidableEq, Repr

/-- `orientationModeColors`. -/
def orientationModeColors : modeColorIndexes_t :=
  ⟨COLOR_WHITE, COLOR_DARK_VIOLET, COLOR_RED, COLOR_DEEP_PINK, COLOR_BLUE, COLOR_ORANGE⟩
/-- `headfreeModeColors`. -/
def headfreeModeColors : modeColorIndexes_t :=
  ⟨COLOR_LIME_GREEN, COLOR_DARK_VIOLET, COLOR_ORANGE, COLOR_DEEP_PINK, COLOR_BLUE, COLOR_ORANGE⟩
/-- `horizonModeColors`. -/
def horizonModeColors : modeColorIndexes_t :=
  ⟨COLOR_BLUE, COLOR_DARK_VIOLET, COLOR_YELLOW, COLOR_DEEP_PINK, COLOR_BLUE, COLOR_ORANGE⟩
/-- `angleModeColors`. -/
def angleModeColors : modeColorIndexes_t :=
  ⟨COLOR_CYAN, COLOR_DARK_VIOLET, COLOR_YELLOW, COLOR_DEEP_PINK, COLOR_BLUE, COLOR_ORANGE⟩
/-- `magModeColors`. -/
def magModeColors : modeColorIndexes_t :=
  ⟨COLOR_MINT_GREEN, COLOR_DARK_VIOLET, COLOR_ORANGE, COLOR_DEEP_PINK, COLOR_BLUE, COLOR_ORANGE⟩
/-- `baroModeColors`. -/
def baroModeColors : modeColorIndexes_t :=
  ⟨COLOR_LIGHT_BLUE, COLOR_DARK_VIOLET, COLOR_RED, COLOR_DEEP_PINK, COLOR_BLUE, COLOR_ORANGE⟩

/-- Modelled from the spec: the flight modes that `FLIGHT_MODE (...)` of
`config/runtime_config.h` (not part of the sources at hand) is asked about,
the "per-mode active flags" among the flight-state inputs. -/
inductive flightModeFlags_e where
  | ANGLE_MODE
  | HORIZON_MODE
  | MAG_MODE
  | BARO_MODE
  | HEADFREE_MODE
deriving DecidableEq, Repr

/-- What the mode layer reads from outside `ledstrip.c`: the build options
`MAG` and `BARO` (the two `#ifdef` branches of `applyLedModeLayer`), the
result of `ARMING_FLAG (ARMED)`, the result of `FLIGHT_MODE (...)` for each
mode, and the palette behind `colors`. -/
structure ModeInputs where
  MAG : Bool
  BARO : Bool
  ARMED : Bool
  FLIGHT_MODE : flightModeFlags_e → Bool
  colors : Nat → hsvColor_t

/-- Modelled from the spec: `setLedHsv` of the LED driver
(`drivers/light_ws2811strip.c`, not part of the sources at hand),
"setColor(index, HsvColor)": the colour buffer with the colour of one LED
replaced. -/
def setLedHsv (leds : Nat → hsvColor_t) (index : Nat) (color : hsvColor_t) : Nat → hsvColor_t :=
  setEntry leds index color

/-- `applyDirectionalModeColor (ledIndex, ledConfig, modeColors)`: six
conditional stores, in the order up, down, west, east, north, south. -/
def applyDirectionalModeColor (st : LedState) (colors : Nat → hsvColor_t)
    (leds : Nat → hsvColor_t) (ledIndex : Nat) (ledConfig : ledConfig_t)
    (modeColors : modeColorIndexes_t) : Nat → hsvColor_t :=
  let leds1 := if ledConfig.flags &&& LED_DIRECTION_UP ≠ 0
    then setLedHsv leds ledIndex (colors modeColors.up) else leds
  let leds2 := if ledConfig.flags &&& LED_DIRECTION_DOWN ≠ 0
    then setLedHsv leds1 ledIndex (colors modeColors.down) else leds1
  let leds3 :=
    if ledConfig.flags &&& LED_DIRECTION_WEST ≠ 0 ∧ GET_LED_X ledConfig ≤ st.highestXValueForWest
    then setLedHsv leds2 ledIndex (colors modeColors.west) else leds2
  let leds4 :=
    if ledConfig.flags &&& LED_DIRECTION_EAST ≠ 0 ∧ GET_LED_X ledConfig ≥ st.lowestXValueForEast
    then setLedHsv leds3 ledIndex (colors modeColors.east) else leds3
  let leds5 :=
    if ledConfig.flags &&& LED_DIRECTION_NORTH ≠ 0 ∧ GET_LED_Y ledConfig ≤ st.highestYValueForNorth
    then setLedHsv leds4 ledIndex (colors modeColors.north) else leds4
  if ledConfig.flags &&& LED_DIRECTION_SOUTH ≠ 0 ∧ GET_LED_Y ledConfig ≥ st.lowestYValueForSouth
  then setLedHsv leds5 ledIndex (colors modeColors.south) else leds5

/-- The body of the loop of `applyLedModeLayer` for one LED. -/
def applyLedModeLayerStep (inp : ModeInputs) (st : LedState) (leds : Nat → hsvColor_t)
    (ledIndex : Nat) : Nat → hsvColor_t :=
  let ledConfig := st.ledConfigs ledIndex
  let leds0 := setLedHsv leds ledIndex hsv_black
  if ¬ (ledConfig.flags &&& LED_FUNCTION_FLIGHT_MODE ≠ 0) then
    if ledConfig.flags &&& LED_FUNCTION_ARM_STATE ≠ 0 then
      if ¬ inp.ARMED then setLedHsv leds0 ledIndex hsv_green
      else setLedHsv leds0 ledIndex hsv_blue
    else leds0
  else
    let leds1 := applyDirectionalModeColor st inp.colors leds0 ledIndex ledConfig orientationModeColors
    if inp.FLIGHT_MODE .HEADFREE_MODE then
      applyDirectionalModeColor st inp.colors leds1 ledIndex ledConfig headfreeModeColors
    else if inp.MAG ∧ inp.FLIGHT_MODE .MAG_MODE then
      applyDirectionalModeColor st inp.colors leds1 ledIndex ledConfig magModeColors
    else if inp.BARO ∧ inp.FLIGHT_MODE .BARO_MODE then
      applyDirectionalModeColor st inp.colors leds1 ledIndex ledConfig baroModeColors
    else if inp.FLIGHT_MODE .HORIZON_MODE then
      applyDirectionalModeColor st inp.colors leds1 ledIndex ledConfig horizonModeColors
    else if inp.FLIGHT_MODE .ANGLE_MODE then
      applyDirectionalModeColor st inp.colors leds1 ledIndex ledConfig angleModeColors
    else leds1

/-- The loop of `applyLedModeLayer`: `n` iterations are left, the next index
is `ledIndex`. -/
def applyLedModeLayerLoop (inp : ModeInputs) (st : LedState) :
    Nat → Nat → (Nat → hsvColor_t) → (Nat → hsvColor_t)
  | 0, _, leds => leds
  | n + 1, ledIndex, leds =>
    applyLedModeLayerLoop inp st n (ledIndex + 1) (applyLedModeLayerStep inp st leds ledIndex)

/-- `applyLedModeLayer`: the colour buffer after the layer ran over the LEDs
with index below `ledCount`. -/
def applyLedModeLayer (inp : ModeInputs) (st : LedState) (leds : Nat → hsvColor_t) :
    Nat → hsvColor_t :=
  applyLedModeLayerLoop inp st st.ledCount 0 leds

/-! ## Warning, indicator and throttle layers -/

/-- `hsv_red`. -/
def hsv_red : hsvColor_t := ⟨0, 0, 255⟩
/-- `hsv_orange`. -/
def hsv_orange : hsvColor_t := ⟨30, 0, 255⟩
/-- `hsv_yellow`. -/
def hsv_yellow : hsvColor_t := ⟨60, 0, 255⟩
/-- `hsv_limeGreen`. -/
def hsv_limeGreen : hsvColor_t := ⟨90, 0, 255⟩
/-- `hsv_lightBlue`. -/
def hsv_lightBlue : hsvColor_t := ⟨210, 0, 255⟩

/-- Modelled from the spec: `getLedHsv` of the LED driver
(`drivers/light_ws2811strip.c`, not part of the sources at hand),
"getColor(index) -> HsvColor": the colour last stored for the LED. -/
def getLedHsv (leds : Nat → hsvColor_t) (index : Nat) : hsvColor_t := leds index

/-- A `for (ledIndex = first; ...; ledIndex++)` loop over LEDs with `n`
iterations left, `body leds ledIndex` being the colour buffer after the body
ran for `ledIndex`. -/
def forEachLed (body : (Nat → hsvColor_t) → Nat → (Nat → hsvColor_t)) :
    Nat → Nat → (Nat → hsvColor_t) → (Nat → hsvColor_t)
  | 0, _, leds => leds
  | n + 1, ledIndex, leds => forEachLed body n (ledIndex + 1) (body leds ledIndex)

/-- `quadrant_e`. -/
inductive quadrant_e where
  | QUADRANT_NORTH_EAST
  | QUADRANT_SOUTH_EAST
  | QUADRANT_SOUTH_WEST
  | QUADRANT_NORTH_WEST
deriving DecidableEq, Repr

/-- `applyQuadrantColor (ledIndex, ledConfig, quadrant, color)`. -/
def applyQuadrantColor (st : LedState) (leds : Nat → hsvColor_t) (ledIndex : Nat)
    (ledConfig : ledConfig_t) (quadrant : quadrant_e) (color : hsvColor_t) : Nat → hsvColor_t :=
  match quadrant with
  | .QUADRANT_NORTH_EAST =>
    if GET_LED_Y ledConfig ≤ st.highestYValueForNorth ∧ GET_LED_X ledConfig ≥ st.lowestXValueForEast
    then setLedHsv leds ledIndex color else leds
  | .QUADRANT_SOUTH_EAST =>
    if GET_LED_Y ledConfig ≥ st.lowestYValueForSouth ∧ GET_LED_X ledConfig ≥ st.lowestXValueForEast
    then setLedHsv leds ledIndex color else leds
  | .QUADRANT_SOUTH_WEST =>
    if GET_LED_Y ledConfig ≥ st.lowestYValueForSouth ∧ GET_LED_X ledConfig ≤ st.highestXValueForWest
    then setLedHsv leds ledIndex color else leds
  | .QUADRANT_NORTH_WEST =>
    if GET_LED_Y ledConfig ≤ st.highestYValueForNorth ∧ GET_LED_X ledConfig ≤ st.highestXValueForWest
    then setLedHsv leds ledIndex color else leds

/-- `WARNING_FLAG_NONE` of `warningFlags_e`. -/
def WARNING_FLAG_NONE : Nat := 0
/-- `WARNING_FLAG_LOW_BATTERY` of `warningFlags_e`. -/
def WARNING_FLAG_LOW_BATTERY : Nat := 1 <<< 0
/-- `WARNING_FLAG_FAILSAFE` of `warningFlags_e`. -/
def WARNING_FLAG_FAILSAFE : Nat := 1 <<< 1
/-- `WARNING_FLAG_ARMING_DISABLED` of `warningFlags_e`. -/
def WARNING_FLAG_ARMING_DISABLED : Nat := 1 <<< 2

/-- The first statement of `applyLedWarningLayer`: the static
`warningFlashCounter` (a `uint8_t`) after `if (warningState) { ... }`. -/
def advanceWarningFlashCounter (warningFlashCounter warningState : Nat) : Nat :=
  if warningState ≠ 0 then ((warningFlashCounter + 1) % 256) % 4 else warningFlashCounter

/-- The body of the loop of `applyLedWarningLayer` for one LED;
`warningFlashCounter` is the counter as the loop finds it. -/
def applyLedWarningLayerStep (st : LedState) (warningFlashCounter warningState warningFlags : Nat)
    (leds : Nat → hsvColor_t) (ledIndex : Nat) : Nat → hsvColor_t :=
  let ledConfig := st.ledConfigs ledIndex
  if ¬ (ledConfig.flags &&& LED_FUNCTION_WARNING ≠ 0) then leds
  else if warningState = 0 then
    let leds1 :=
      if warningFlashCounter = 0 ∧ warningFlags &&& WARNING_FLAG_ARMING_DISABLED ≠ 0
      then setLedHsv leds ledIndex hsv_yellow else leds
    let leds2 :=
      if warningFlashCounter = 1 ∧ warningFlags &&& WARNING_FLAG_LOW_BATTERY ≠ 0
      then setLedHsv leds1 ledIndex hsv_red else leds1
    if warningFlashCounter > 1 ∧ warningFlags &&& WARNING_FLAG_FAILSAFE ≠ 0
    then setLedHsv leds2 ledIndex hsv_lightBlue else leds2
  else
    let leds1 :=
      if warningFlashCounter = 0 ∧ warningFlags &&& WARNING_FLAG_ARMING_DISABLED ≠ 0
      then setLedHsv leds ledIndex hsv_black else leds
    let leds2 :=
      if warningFlashCounter = 1 ∧ warningFlags &&& WARNING_FLAG_LOW_BATTERY ≠ 0
      then setLedHsv leds1 ledIndex hsv_black else leds1
    if warningFlashCounter > 1 ∧ warningFlags &&& WARNING_FLAG_FAILSAFE ≠ 0
    then setLedHsv leds2 ledIndex hsv_limeGreen else leds2

/-- `applyLedWarningLayer (warningState, warningFlags)`: the colour buffer and
the static `warningFlashCounter` after the call. -/
def applyLedWarningLayer (st : LedState) (leds : Nat → hsvColor_t) (warningFlashCounter : Nat)
    (warningState warningFlags : Nat) : (Nat → hsvColor_t) × Nat :=
  let counter := advanceWarningFlashCounter warningFlashCounter warningState
  (forEachLed (applyLedWarningLayerStep st counter warningState warningFlags) st.ledCount 0 leds,
   counter)

/-- The body of the loop of `applyLedIndicatorLayer` for one LED; `roll` and
`pitch` are `rcCommand[ROLL]` and `rcCommand[PITCH]`. -/
def applyLedIndicatorLayerStep (st : LedState) (roll pitch : Int) (flashColor : hsvColor_t)
    (leds : Nat → hsvColor_t) (ledIndex : Nat) : Nat → hsvColor_t :=
  let ledConfig := st.ledConfigs ledIndex
  if ¬ (ledConfig.flags &&& LED_FUNCTION_INDICATOR ≠ 0) then leds
  else
    let leds1 :=
      if roll > 50 then
        applyQuadrantColor st
          (applyQuadrantColor st leds ledIndex ledConfig .QUADRANT_NORTH_EAST flashColor)
          ledIndex ledConfig .QUADRANT_SOUTH_EAST flashColor
      else leds
    let leds2 :=
      if roll < -50 then
        applyQuadrantColor st
          (applyQuadrantColor st leds1 ledIndex ledConfig .QUADRANT_NORTH_WEST flashColor)
          ledIndex ledConfig .QUADRANT_SOUTH_WEST flashColor
      else leds1
    let leds3 :=
      if pitch > 50 then
        applyQuadrantColor st
          (applyQuadrantColor st leds2 ledIndex ledConfig .QUADRANT_NORTH_EAST flashColor)
          ledIndex ledConfig .QUADRANT_NORTH_WEST flashColor
      else leds2
    if pitch < -50 then
      applyQuadrantColor st
        (applyQuadrantColor st leds3 ledIndex ledConfig .QUADRANT_SOUTH_EAST flashColor)
        ledIndex ledConfig .QUADRANT_SOUTH_WEST flashColor
    else leds3

/-- `applyLedIndicatorLayer (indicatorFlashState)`.  The static pointer
`flashColor` is assigned at every call before it is read, so it is a local
value here. -/
def applyLedIndicatorLayer (st : LedState) (roll pitch : Int) (leds : Nat → hsvColor_t)
    (indicatorFlashState : Nat) : Nat → hsvColor_t :=
  let flashColor := if indicatorFlashState = 0 then hsv_orange else hsv_black
  forEachLed (applyLedIndicatorLayerStep st roll pitch flashColor) st.ledCount 0 leds

/-- Modelled from the spec: `PWM_RANGE_MIN` of `rx/rx.h` (not part of the
sources at hand), the lower end of "the throttle input's full range", in
microseconds of pulse width. -/
def PWM_RANGE_MIN : Int := 1000
/-- Modelled from the spec: `PWM_RANGE_MAX` of `rx/rx.h`, the upper end of
"the throttle input's full range". -/
def PWM_RANGE_MAX : Int := 2000

/-- Modelled from the spec: `scaleRange` of `common/maths.c` (not part of the
sources at hand), which is to "linearly remap" `x` from the range
`srcMin..srcMax` to the range `destMin..destMax`; the quotient of the
integer division is truncated as in C. -/
def scaleRange (x srcMin srcMax destMin destMax : Int) : Int :=
  let a := (destMax - destMin) * (x - srcMin)
  let b := srcMax - srcMin
  (Int.tdiv a b - (destMax - destMin)) + destMax

/-- The body of the loop of `applyLedThrottleLayer` for one LED; `throttle` is
`rcData[THROTTLE]`.  `scaled` is an `int`, `color.h` a `uint16_t`. -/
def applyLedThrottleLayerStep (st : LedState) (throttle : Int) (leds : Nat → hsvColor_t)
    (ledIndex : Nat) : Nat → hsvColor_t :=
  let ledConfig := st.ledConfigs ledIndex
  if ¬ (ledConfig.flags &&& LED_FUNCTION_THROTTLE ≠ 0) then leds
  else
    let color := getLedHsv leds ledIndex
    let scaled := scaleRange throttle PWM_RANGE_MIN PWM_RANGE_MAX (-60) 60
    let scaled1 := scaled + (HSV_HUE_MAX : Int)
    setLedHsv leds ledIndex { color with h := toUint16 (Int.tmod scaled1 (HSV_HUE_MAX : Int)) }

/-- `applyLedThrottleLayer`. -/
def applyLedThrottleLayer (st : LedState) (throttle : Int) (leds : Nat → hsvColor_t) :
    Nat → hsvColor_t :=
  forEachLed (applyLedThrottleLayerStep st throttle) st.ledCount 0 leds

/-! ## Update scheduler -/

/-- `LED_STRIP_20HZ`, in microseconds. -/
def LED_STRIP_20HZ : Nat := (1000 * 1000) / 20
/-- `LED_STRIP_10HZ`, in microseconds. -/
def LED_STRIP_10HZ : Nat := (1000 * 1000) / 10
/-- `LED_STRIP_5HZ`, in microseconds. -/
def LED_STRIP_5HZ : Nat := (1000 * 1000) / 5

/-- Conversion of an integer to `uint32_t`. -/
def toUint32 (i : Int) : Nat := (i % 4294967296).toNat

/-- Conversion of a `uint32_t` to `int32_t`. -/
def toInt32 (u : Nat) : Int :=
  if u % 4294967296 < 2147483648 then (u % 4294967296 : Nat) else (u % 4294967296 : Nat) - 4294967296

/-- The comparison `(int32_t)(now - deadline) >= 0L` of `updateLedStrip` on
two `uint32_t` values. -/
def deadlineElapsed (now deadline : Nat) : Bool :=
  decide (toInt32 (toUint32 ((now : Int) - (deadline : Int))) ≥ 0)

/-- The variables of `ledstrip.c` that `updateLedStrip` works on, with
the colour buffer of the driver: the configuration and geometry, the flag
`ledStripInitialised`, the three deadlines (`uint32_t`), the statics
`indicatorFlashState`, `warningState`, `warningFlags` of `updateLedStrip`,
the static `warningFlashCounter` of `applyLedWarningLayer`, the animation
variables (all `uint8_t`), and the number of times `ws2811UpdateStrip` was
called. -/
structure StripState where
  led : LedState
  leds : Nat → hsvColor_t
  ledStripInitialised : Bool
  nextAnimationUpdateAt : Nat
  nextIndicatorFlashAt : Nat
  nextWarningFlashAt : Nat
  indicatorFlashState : Nat
  warningState : Nat
  warningFlags : Nat
  warningFlashCounter : Nat
  frameCounter : Nat
  previousRow : Nat
  currentRow : Nat
  nextRow : Nat
  transmitCount : Nat

/-- What one call of `updateLedStrip` reads from outside `ledstrip.c`: the
result of `isWS2811LedStripReady ()`, of `micros ()`, the inputs of the mode
layer, `ARMING_FLAG (OK_TO_ARM)`, `rcCommand[ROLL]`, `rcCommand[PITCH]`,
`rcData[THROTTLE]` (`int16_t`), `feature (FEATURE_VBAT)`,
`shouldSoundBatteryAlarm ()` and `failsafe->vTable->hasTimerElapsed ()`. -/
structure FrameInputs where
  isWS2811LedStripReady : Bool
  micros : Nat
  mode : ModeInputs
  OK_TO_ARM : Bool
  rcCommandRoll : Int
  rcCommandPitch : Int
  rcDataThrottle : Int
  featureVBAT : Bool
  shouldSoundBatteryAlarm : Bool
  failsafeHasTimerElapsed : Bool

/-- `updateLedAnimationState`: `none` when `animationFrames` is 0, where the C
code takes a remainder by zero, which has no defined result. -/
def updateLedAnimationState (s : StripState) : Option StripState :=
  let animationFrames := s.led.ledGridHeight
  if animationFrames = 0 then none
  else some
    { s with
      previousRow := ((s.frameCounter + animationFrames - 1) % animationFrames) % 256
      currentRow := s.frameCounter
      nextRow := ((s.frameCounter + 1) % animationFrames) % 256
      frameCounter := ((s.frameCounter + 1) % animationFrames) % 256 }

/-- The warning conditions that `updateLedStrip` samples when `warningState`
goes from 0 to 1. -/
def sampleWarningFlags (inp : FrameInputs) : Nat :=
  let flags0 := WARNING_FLAG_NONE
  let flags1 := if inp.featureVBAT ∧ inp.shouldSoundBatteryAlarm
    then flags0 ||| WARNING_FLAG_LOW_BATTERY else flags0
  let flags2 := if inp.failsafeHasTimerElapsed then flags1 ||| WARNING_FLAG_FAILSAFE else flags1
  if ¬ inp.mode.ARMED ∧ ¬ inp.OK_TO_ARM then flags2 ||| WARNING_FLAG_ARMING_DISABLED else flags2

/-- The interval `LED_STRIP_5HZ / max (1, scale)` of `updateLedStrip`, with the
`uint8_t` variables `rollScale`, `pitchScale` and `scale`. -/
def indicatorInterval (roll pitch : Int) : Nat :=
  let rollScale := (roll.natAbs / 50) % 256
  let pitchScale := (pitch.natAbs / 50) % 256
  let scale := max rollScale pitchScale
  LED_STRIP_5HZ / max 1 scale

/-- `updateLedStrip`: the state after the call, `none` when the call runs into
the remainder by zero of `updateLedAnimationState`.  Every variable that the
function assigns is named after the C variable and holds its value at the
end of the layer that assigns it.  The animation layer is not compiled
(`USE_LED_ANIMATION` is not defined). -/
def updateLedStrip (inp : FrameInputs) (s : StripState) : Option StripState :=
  if ¬ (s.ledStripInitialised ∧ inp.isWS2811LedStripReady) then some s
  else
    let now := inp.micros
    let animationUpdateNow := deadlineElapsed now s.nextAnimationUpdateAt
    let indicatorFlashNow := deadlineElapsed now s.nextIndicatorFlashAt
    let warningFlashNow := deadlineElapsed now s.nextWarningFlashAt
    if ¬ (warningFlashNow ∨ indicatorFlashNow ∨ animationUpdateNow) then some s
    else
      -- LAYER 1
      let leds1 := applyLedModeLayer inp.mode s.led s.leds
      let leds2 := applyLedThrottleLayer s.led inp.rcDataThrottle leds1
      -- LAYER 2
      let nextWarningFlashAt :=
        if warningFlashNow then (now + LED_STRIP_10HZ) % 4294967296 else s.nextWarningFlashAt
      let warningState :=
        if warningFlashNow then (if s.warningState = 0 then 1 else 0) else s.warningState
      let warningFlags :=
        if warningFlashNow ∧ s.warningState = 0 then sampleWarningFlags inp else s.warningFlags
      let warned :=
        if warningFlags ≠ 0 then
          applyLedWarningLayer s.led leds2 s.warningFlashCounter warningState warningFlags
        else (leds2, s.warningFlashCounter)
      -- LAYER 3
      let nextIndicatorFlashAt :=
        if indicatorFlashNow
        then (now + indicatorInterval inp.rcCommandRoll inp.rcCommandPitch) % 4294967296
        else s.nextIndicatorFlashAt
      let indicatorFlashState :=
        if indicatorFlashNow then (if s.indicatorFlashState = 0 then 1 else 0)
        else s.indicatorFlashState
      let leds4 := applyLedIndicatorLayer s.led inp.rcCommandRoll inp.rcCommandPitch warned.1
        indicatorFlashState
      let s3 : StripState :=
        { s with
          leds := leds4
          nextWarningFlashAt := nextWarningFlashAt
          warningState := warningState
          warningFlags := warningFlags
          warningFlashCounter := warned.2
          nextIndicatorFlashAt := nextIndicatorFlashAt
          indicatorFlashState := indicatorFlashState }
      let s4 : Option StripState :=
        if animationUpdateNow then
          updateLedAnimationState
            { s3 with nextAnimationUpdateAt := (now + LED_STRIP_20HZ) % 4294967296 }
        else some s3
      s4.map fun s5 => { s5 with transmitCount := s5.transmitCount + 1 }

/-! ## Specification-side notions and sample data -/

/-- Field of a descriptor as the specification words it: a state "consumes
characters up to its required separator into a bounded scratch buffer (≤10
characters)".  The field is the longest run of at most ten leading characters
that are neither the separator nor the end of the string; the result is
`none` when the character after the field is not the separator ("missing the
state's required separator"), otherwise the field and the text after the
separator. -/
def splitField (separator : Char) (text : List Char) : Option (List Char × List Char) :=
  let field := (text.takeWhile (fun c => c != NUL && c != separator)).take CHUNK_BUFFER_SIZE
  let rest := text.drop field.length
  if peek rest = separator then some (field, rest.tail) else none

/-- The four fields `X`, `Y`, `DIRS`, `FUNCS` of a descriptor text
`X,Y:DIRS:FUNCS`; `none` when one of them is not followed by its separator
(`,` after `X`, `:` after `Y`, `:` after `DIRS`, end of string after
`FUNCS`). -/
def descriptorFields (text : List Char) :
    Option (List Char × List Char × List Char × List Char) :=
  (splitField ',' text).bind fun fx =>
  (splitField ':' fx.2).bind fun fy =>
  (splitField ':' fy.2).bind fun fd =>
  (splitField NUL fd.2).map fun ff => (fx.1, fy.1, fd.1, ff.1)

/-- The number that a string of decimal digits denotes. -/
def decimalValue (digits : List Char) : Nat :=
  digits.foldl (fun acc c => acc * 10 + (c.toNat - '0'.toNat)) 0

/-- The letter to bit table of the DIRS field as the specification gives it:
the letters N, E, S, W, U, D stand for the direction bits 0 to 5. -/
def directionBit (c : Char) : Option Nat :=
  if c = 'N' then some 0 else if c = 'E' then some 1 else if c = 'S' then some 2
  else if c = 'W' then some 3 else if c = 'U' then some 4 else if c = 'D' then some 5
  else none

/-- The letter to bit table of the FUNCS field as the specification gives
it: the letters I, W, F, A, T stand for the function bits 6 to 10. -/
def functionBit (c : Char) : Option Nat :=
  if c = 'I' then some 6 else if c = 'W' then some 7 else if c = 'F' then some 8
  else if c = 'A' then some 9 else if c = 'T' then some 10
  else none

/-- The colour set of the first active mode in the order headfree, mag, baro,
horizon, angle; the orientation colour set when none of them is active. -/
def firstActiveModeColors (FLIGHT_MODE : flightModeFlags_e → Bool) : modeColorIndexes_t :=
  if FLIGHT_MODE .HEADFREE_MODE then headfreeModeColors
  else if FLIGHT_MODE .MAG_MODE then magModeColors
  else if FLIGHT_MODE .BARO_MODE then baroModeColors
  else if FLIGHT_MODE .HORIZON_MODE then horizonModeColors
  else if FLIGHT_MODE .ANGLE_MODE then angleModeColors
  else orientationModeColors

/-- `defaultLedStripConfig`: the twelve LEDs of the default strip. -/
def defaultLedStripConfig : List ledConfig_t :=
  [ ⟨CALCULATE_LED_XY 2 2, LED_DIRECTION_SOUTH ||| LED_DIRECTION_EAST ||| LED_FUNCTION_INDICATOR ||| LED_FUNCTION_ARM_STATE⟩,
    ⟨CALCULATE_LED_XY 2 1, LED_DIRECTION_EAST ||| LED_FUNCTION_FLIGHT_MODE ||| LED_FUNCTION_WARNING⟩,
    ⟨CALCULATE_LED_XY 2 0, LED_DIRECTION_NORTH ||| LED_DIRECTION_EAST ||| LED_FUNCTION_INDICATOR ||| LED_FUNCTION_ARM_STATE⟩,
    ⟨CALCULATE_LED_XY 1 0, LED_DIRECTION_NORTH ||| LED_FUNCTION_FLIGHT_MODE⟩,
    ⟨CALCULATE_LED_XY 0 0, LED_DIRECTION_NORTH ||| LED_DIRECTION_WEST ||| LED_FUNCTION_INDICATOR ||| LED_FUNCTION_ARM_STATE⟩,
    ⟨CALCULATE_LED_XY 0 1, LED_DIRECTION_WEST ||| LED_FUNCTION_FLIGHT_MODE ||| LED_FUNCTION_WARNING⟩,
    ⟨CALCULATE_LED_XY 0 2, LED_DIRECTION_SOUTH ||| LED_DIRECTION_WEST ||| LED_FUNCTION_INDICATOR ||| LED_FUNCTION_ARM_STATE⟩,
    ⟨CALCULATE_LED_XY 1 2, LED_DIRECTION_SOUTH ||| LED_FUNCTION_FLIGHT_MODE ||| LED_FUNCTION_WARNING⟩,
    ⟨CALCULATE_LED_XY 1 1, LED_DIRECTION_UP ||| LED_FUNCTION_FLIGHT_MODE ||| LED_FUNCTION_WARNING⟩,
    ⟨CALCULATE_LED_XY 1 1, LED_DIRECTION_UP ||| LED_FUNCTION_FLIGHT_MODE ||| LED_FUNCTION_WARNING⟩,
    ⟨CALCULATE_LED_XY 1 1, LED_DIRECTION_DOWN ||| LED_FUNCTION_FLIGHT_MODE ||| LED_FUNCTION_WARNING⟩,
    ⟨CALCULATE_LED_XY 1 1, LED_DIRECTION_DOWN ||| LED_FUNCTION_FLIGHT_MODE ||| LED_FUNCTION_WARNING⟩ ]

/-- The state right after `ledStripInit` was handed an array holding the
strip of `defaultLedStripConfig`: the array is in place, the geometry
variables still hold the zeros of their static initialisation. -/
def stateAfterInit : LedState :=
  { ledConfigs := fun i => defaultLedStripConfig.getD i ⟨0, 0⟩
    ledCount := 0, ledGridWidth := 0, ledGridHeight := 0
    highestYValueForNorth := 0, lowestYValueForSouth := 0
    highestXValueForWest := 0, lowestXValueForEast := 0 }

/-- The state after `ledStripEnable` on the default strip. -/
def defaultState : LedState := reevalulateLedConfig stateAfterInit

/-- A strip of one row: a single LED at (0,0) that carries a flag. -/
def oneRowState : LedState :=
  reevalulateLedConfig
    { stateAfterInit with
      ledConfigs := fun i => if i = 0 then ⟨0, LED_FUNCTION_WARNING⟩ else ⟨0, 0⟩ }

/-- Memory in which a NUL byte follows every array. -/
def noAdjacent : Nat → List Char := fun _ => []

/-- `defaultColors`: the palette that `applyDefaultColors` installs (H, S, V). -/
def defaultColors : Nat → hsvColor_t := fun i =>
  [ (⟨0, 0, 0⟩ : hsvColor_t), ⟨0, 255, 255⟩, ⟨0, 0, 255⟩, ⟨30, 0, 255⟩, ⟨60, 0, 255⟩,
    ⟨90, 0, 255⟩, ⟨120, 0, 255⟩, ⟨150, 0, 255⟩, ⟨180, 0, 255⟩, ⟨210, 0, 255⟩,
    ⟨240, 0, 255⟩, ⟨270, 0, 255⟩, ⟨300, 0, 255⟩, ⟨330, 0, 255⟩ ].getD i ⟨0, 0, 0⟩

/-- Inputs of the mode layer with headfree and mag both active, in a build
with `MAG` and `BARO`, disarmed, default palette. -/
def headfreeAndMagInputs : ModeInputs :=
  { MAG := true, BARO := true, ARMED := false
    FLIGHT_MODE := fun m => m = .HEADFREE_MODE || m = .MAG_MODE
    colors := defaultColors }

/-- The state right after `ledStripEnable` on the default strip: the geometry
is evaluated, `ledStripInitialised` is set, every deadline and every static
variable still holds the zero of its initialisation, the colour buffer is
black, nothing was transmitted. -/
def enabledStripState : StripState :=
  { led := defaultState
    leds := fun _ => ⟨0, 0, 0⟩
    ledStripInitialised := true
    nextAnimationUpdateAt := 0, nextIndicatorFlashAt := 0, nextWarningFlashAt := 0
    indicatorFlashState := 0, warningState := 0, warningFlags := 0
    warningFlashCounter := 0
    frameCounter := 0, previousRow := 0, currentRow := 0, nextRow := 0
    transmitCount := 0 }

/-- Inputs of a frame at time `now`: driver ready, armed, no flight mode active,
sticks centred, throttle at minimum, the battery alarm sounding, no
failsafe. -/
def lowBatteryFrame (now : Nat) : FrameInputs :=
  { isWS2811LedStripReady := true
    micros := now
    mode := { MAG := true, BARO := true, ARMED := true, FLIGHT_MODE := fun _ => false,
              colors := defaultColors }
    OK_TO_ARM := false
    rcCommandRoll := 0, rcCommandPitch := 0, rcDataThrottle := 1000
    featureVBAT := true, shouldSoundBatteryAlarm := true, failsafeHasTimerElapsed := false }

/-- The six rules of the directional colouring in the order of the sequence up,
down, west, east, north, south: whether the condition of the direction
holds for the LED, and the palette index of the direction in the colour
set. -/
def directionalRules (st : LedState) (ledConfig : ledConfig_t) (modeColors : modeColorIndexes_t) :
    List (Bool × Nat) :=
  [ (decide (ledConfig.flags &&& LED_DIRECTION_UP ≠ 0), modeColors.up),
    (decide (ledConfig.flags &&& LED_DIRECTION_DOWN ≠ 0), modeColors.down),
    (decide (ledConfig.flags &&& LED_DIRECTION_WEST ≠ 0 ∧
        GET_LED_X ledConfig ≤ st.highestXValueForWest), modeColors.west),
    (decide (ledConfig.flags &&& LED_DIRECTION_EAST ≠ 0 ∧
        GET_LED_X ledConfig ≥ st.lowestXValueForEast), modeColors.east),
    (decide (ledConfig.flags &&& LED_DIRECTION_NORTH ≠ 0 ∧
        GET_LED_Y ledConfig ≤ st.highestYValueForNorth), modeColors.north),
    (decide (ledConfig.flags &&& LED_DIRECTION_SOUTH ≠ 0 ∧
        GET_LED_Y ledConfig ≥ st.lowestYValueForSouth), modeColors.south) ]

/-- The palette index of the last rule of a sequence whose condition holds,
`none` when no condition holds. -/
def lastMatching (rules : List (Bool × Nat)) : Option Nat :=
  ((rules.filter fun r => r.1).getLast?).map fun r => r.2

/-- The warning table of the specification: the colour written for a phase of
the 4-phase counter in the on half or the off half, `none` where nothing is
written.  Phase 0 belongs to the arming-disabled condition, phase 1 to low
battery, phases 2 and 3 to failsafe. -/
def warningColor (onHalf : Bool) (phase warningFlags : Nat) : Option hsvColor_t :=
  if phase = 0 then
    if warningFlags &&& WARNING_FLAG_ARMING_DISABLED ≠ 0
    then some (if onHalf then hsv_yellow else hsv_black) else none
  else if phase = 1 then
    if warningFlags &&& WARNING_FLAG_LOW_BATTERY ≠ 0
    then some (if onHalf then hsv_red else hsv_black) else none
  else if phase = 2 ∨ phase = 3 then
    if warningFlags &&& WARNING_FLAG_FAILSAFE ≠ 0
    then some (if onHalf then hsv_lightBlue else hsv_limeGreen) else none
  else none

/-- Quadrant membership as the specification gives it. -/
def inQuadrant (st : LedState) (ledConfig : ledConfig_t) : quadrant_e → Bool
  | .QUADRANT_NORTH_EAST =>
    decide (GET_LED_Y ledConfig ≤ st.highestYValueForNorth ∧
      GET_LED_X ledConfig ≥ st.lowestXValueForEast)
  | .QUADRANT_SOUTH_EAST =>
    decide (GET_LED_Y ledConfig ≥ st.lowestYValueForSouth ∧
      GET_LED_X ledConfig ≥ st.lowestXValueForEast)
  | .QUADRANT_SOUTH_WEST =>
    decide (GET_LED_Y ledConfig ≥ st.lowestYValueForSouth ∧
      GET_LED_X ledConfig ≤ st.highestXValueForWest)
  | .QUADRANT_NORTH_WEST =>
    decide (GET_LED_Y ledConfig ≤ st.highestYValueForNorth ∧
      GET_LED_X ledConfig ≤ st.highestXValueForWest)

/-- The quadrants that a stick deflection selects: roll > 50 selects NE and SE,
roll < -50 selects NW and SW, pitch > 50 selects NE and NW, pitch < -50
selects SE and SW. -/
def quadrantSelected (roll pitch : Int) : quadrant_e → Bool
  | .QUADRANT_NORTH_EAST => decide (roll > 50 ∨ pitch > 50)
  | .QUADRANT_SOUTH_EAST => decide (roll > 50 ∨ pitch < -50)
  | .QUADRANT_SOUTH_WEST => decide (roll < -50 ∨ pitch < -50)
  | .QUADRANT_NORTH_WEST => decide (roll < -50 ∨ pitch > 50)

/-- The LED lies in at least one selected quadrant. -/
def inSelectedQuadrant (st : LedState) (ledConfig : ledConfig_t) (roll pitch : Int) : Bool :=
  [quadrant_e.QUADRANT_NORTH_EAST, .QUADRANT_SOUTH_EAST, .QUADRANT_SOUTH_WEST,
    .QUADRANT_NORTH_WEST].any fun q => quadrantSelected roll pitch q && inQuadrant st ledConfig q

/-- The hue offset of the throttle layer: the throttle remapped from the input
range to -60..+60. -/
def throttleHueOffset (throttle : Int) : Int :=
  scaleRange throttle PWM_RANGE_MIN PWM_RANGE_MAX (-60) 60

/-- The indicator deadline that the specification gives for a frame at time
`now`: `now + baseInterval / max (1, scale)` with `baseInterval` = 200000
microseconds and `scale = max (|roll|, |pitch|) / 50`, the sum modulo
2^32. -/
def specIndicatorDeadline (now : Nat) (roll pitch : Int) : Nat :=
  (now + 200000 / max 1 (max roll.natAbs pitch.natAbs / 50)) % 4294967296

/-- A state in the middle of a run on the default strip: the next animation
tick is due at 51000, the next indicator flash at 201000, the next warning
flash at 101000 microseconds. -/
def runningStripState : StripState :=
  { enabledStripState with
    nextAnimationUpdateAt := 51000, nextIndicatorFlashAt := 201000, nextWarningFlashAt := 101000
    indicatorFlashState := 1, warningState := 1, warningFlags := WARNING_FLAG_LOW_BATTERY
    warningFlashCounter := 1, frameCounter := 1, currentRow := 0, nextRow := 1, previousRow := 2
    transmitCount := 1 }

/-- A strip of one LED at (0,0) that carries the Throttle and the Warning
flag. -/
def throttleStripState : LedState :=
  reevalulateLedConfig
    { stateAfterInit with
      ledConfigs := fun i =>
        if i = 0 then ⟨0, LED_FUNCTION_THROTTLE ||| LED_FUNCTION_WARNING⟩ else ⟨0, 0⟩ }

/-- The characters of a field before its separator or the end of the string,
without the bound of the scratch buffer. -/
def fieldRun (separator : Char) (text : List Char) : List Char :=
  text.takeWhile fun c => c != NUL && c != separator

/-- One of the fields that belong to the given separators, the fields before
it being followed by their separators, holds more than
`CHUNK_BUFFER_SIZE` characters before its separator. -/
def overlongFieldFrom : List Char → List Char → Bool
  | [], _ => false
  | separator :: separators, text =>
    decide (CHUNK_BUFFER_SIZE < (fieldRun separator text).length) ||
    match splitField separator text with
    | none => false
    | some fr => overlongFieldFrom separators fr.2

/-- A descriptor text with an over-long field. -/
def hasOverlongField (text : List Char) : Bool :=
  overlongFieldFrom [',', ':', ':', NUL] text

/-- An entry of the configuration array is all zero: `flags == 0 && xy == 0`. -/
def isZeroEntry (ledConfig : ledConfig_t) : Prop := ledConfig.flags = 0 ∧ ledConfig.xy = 0

instance (ledConfig : ledConfig_t) : Decidable (isZeroEntry ledConfig) := by
  unfold isZeroEntry; infer_instance

/-- The state after `ledStripInit` was handed an array of all-zero entries and
`ledStripEnable` was called: no LED is active, the grid has width 0 and
height 0, every deadline and every static variable holds the zero of its
initialisation. -/
def enabledEmptyStripState : StripState :=
  { enabledStripState with
    led := reevalulateLedConfig { stateAfterInit with ledConfigs := fun _ => ⟨0, 0⟩ } }

/-- The colour set of the first mode, in the order headfree, mag, baro,
horizon, angle, that is active and whose branch is part of the build (mag
with `MAG`, baro with `BARO`); the orientation colour set when there is
none. -/
def firstCompiledActiveModeColors (inp : ModeInputs) : modeColorIndexes_t :=
  if inp.FLIGHT_MODE .HEADFREE_MODE then headfreeModeColors
  else if inp.MAG ∧ inp.FLIGHT_MODE .MAG_MODE then magModeColors
  else if inp.BARO ∧ inp.FLIGHT_MODE .BARO_MODE then baroModeColors
  else if inp.FLIGHT_MODE .HORIZON_MODE then horizonModeColors
  else if inp.FLIGHT_MODE .ANGLE_MODE then angleModeColors
  else orientationModeColors

/-- Inputs of the mode layer with mag and angle both active in a build without
`MAG`, disarmed, default palette. -/
def magAndAngleWithoutMagInputs : ModeInputs :=
  { MAG := false, BARO := true, ARMED := false
    FLIGHT_MODE := fun m => m = .MAG_MODE || m = .ANGLE_MODE
    colors := defaultColors }

/-- The default strip with one more entry, at index 13 behind the all-zero
entry 12: position (1,0), direction north, FlightMode.  The entry is not
active: the active count is 12. -/
def inactiveEntryState : LedState :=
  reevalulateLedConfig
    { stateAfterInit with
      ledConfigs := setEntry stateAfterInit.ledConfigs 13
        ⟨CALCULATE_LED_XY 1 0, LED_DIRECTION_NORTH ||| LED_FUNCTION_FLIGHT_MODE⟩ }

/-! ## Geometry is a function of the configuration array -/

theorem reevalulateLedConfig_ledConfigs (st : LedState) :
    (reevalulateLedConfig st).ledConfigs = st.ledConfigs := rfl

theorem reevalulateLedConfig_geometry_congr (st1 st2 : LedState)
    (h : st1.ledConfigs = st2.ledConfigs) :
    (reevalulateLedConfig st1).geometry = (reevalulateLedConfig st2).geometry := by
  simp [reevalulateLedConfig, determineOrientationLimits, determineLedStripDimensions,
    updateLedCount, LedState.geometry, h]

/-! ## Dimensions and orientation limits -/

theorem and_mask_lt (n : Nat) : n &&& LED_XY_MASK < 16 := by
  have : n &&& LED_XY_MASK = n % 16 := Nat.and_pow_two_sub_one_eq_mod n 4
  omega

theorem GET_LED_X_lt (c : ledConfig_t) : GET_LED_X c < 16 := and_mask_lt _
theorem GET_LED_Y_lt (c : ledConfig_t) : GET_LED_Y c < 16 := and_mask_lt _

theorem determineLedStripDimensionsLoop_spec (ledConfigs : Nat → ledConfig_t) :
    ∀ (n i w h : Nat),
      (w ≤ (determineLedStripDimensionsLoop ledConfigs n i (w, h)).1 ∧
       (∀ k, k < n → GET_LED_X (ledConfigs (i + k)) + 1 ≤
          (determineLedStripDimensionsLoop ledConfigs n i (w, h)).1) ∧
       ((determineLedStripDimensionsLoop ledConfigs n i (w, h)).1 = w ∨
         ∃ k, k < n ∧ (determineLedStripDimensionsLoop ledConfigs n i (w, h)).1 =
           GET_LED_X (ledConfigs (i + k)) + 1)) ∧
      (h ≤ (determineLedStripDimensionsLoop ledConfigs n i (w, h)).2 ∧
       (∀ k, k < n → GET_LED_Y (ledConfigs (i + k)) + 1 ≤
          (determineLedStripDimensionsLoop ledConfigs n i (w, h)).2) ∧
       ((determineLedStripDimensionsLoop ledConfigs n i (w, h)).2 = h ∨
         ∃ k, k < n ∧ (determineLedStripDimensionsLoop ledConfigs n i (w, h)).2 =
           GET_LED_Y (ledConfigs (i + k)) + 1)) := by
  intro n
  induction n with
  | zero => intro i w h; simp [determineLedStripDimensionsLoop]
  | succ n ih =>
    intro i w h
    have hx := GET_LED_X_lt (ledConfigs i)
    have hy := GET_LED_Y_lt (ledConfigs i)
    simp only [determineLedStripDimensionsLoop]
    have hxm : (GET_LED_X (ledConfigs i) + 1) % 256 = GET_LED_X (ledConfigs i) + 1 := by omega
    have hym : (GET_LED_Y (ledConfigs i) + 1) % 256 = GET_LED_Y (ledConfigs i) + 1 := by omega
    rw [hxm, hym]
    have hW : w ≤ (if GET_LED_X (ledConfigs i) ≥ w then GET_LED_X (ledConfigs i) + 1 else w) ∧
        GET_LED_X (ledConfigs i) + 1 ≤
          (if GET_LED_X (ledConfigs i) ≥ w then GET_LED_X (ledConfigs i) + 1 else w) ∧
        ((if GET_LED_X (ledConfigs i) ≥ w then GET_LED_X (ledConfigs i) + 1 else w) = w ∨
         (if GET_LED_X (ledConfigs i) ≥ w then GET_LED_X (ledConfigs i) + 1 else w) =
           GET_LED_X (ledConfigs i) + 1) := by
      split <;> omega
    have hH : h ≤ (if GET_LED_Y (ledConfigs i) ≥ h then GET_LED_Y (ledConfigs i) + 1 else h) ∧
        GET_LED_Y (ledConfigs i) + 1 ≤
          (if GET_LED_Y (ledConfigs i) ≥ h then GET_LED_Y (ledConfigs i) + 1 else h) ∧
        ((if GET_LED_Y (ledConfigs i) ≥ h then GET_LED_Y (ledConfigs i) + 1 else h) = h ∨
         (if GET_LED_Y (ledConfigs i) ≥ h then GET_LED_Y (ledConfigs i) + 1 else h) =
           GET_LED_Y (ledConfigs i) + 1) := by
      split <;> omega
    generalize (if GET_LED_X (ledConfigs i) ≥ w then GET_LED_X (ledConfigs i) + 1 else w) = W at hW ⊢
    generalize (if GET_LED_Y (ledConfigs i) ≥ h then GET_LED_Y (ledConfigs i) + 1 else h) = H at hH ⊢
    obtain ⟨⟨a1, a2, a3⟩, ⟨b1, b2, b3⟩⟩ := ih (i + 1) W H
    have shift : ∀ k, 0 < k → i + 1 + (k - 1) = i + k := by intro k hk; omega
    refine ⟨⟨by omega, ?_, ?_⟩, ⟨by omega, ?_, ?_⟩⟩
    · intro k hk
      rcases Nat.eq_zero_or_pos k with rfl | hpos
      · simp only [Nat.add_zero]; omega
      · have := a2 (k - 1) (by omega)
        rw [shift k hpos] at this
        exact this
    · rcases a3 with a3 | ⟨k, hk, a3⟩
      · rcases hW.2.2 with e | e
        · left; omega
        · right; exact ⟨0, by omega, by simp only [Nat.add_zero]; omega⟩
      · right
        refine ⟨k + 1, by omega, ?_⟩
        rw [a3]
        have e : i + 1 + k = i + (k + 1) := by omega
        rw [e]
    · intro k hk
      rcases Nat.eq_zero_or_pos k with rfl | hpos
      · simp only [Nat.add_zero]; omega
      · have := b2 (k - 1) (by omega)
        rw [shift k hpos] at this
        exact this
    · rcases b3 with b3 | ⟨k, hk, b3⟩
      · rcases hH.2.2 with e | e
        · left; omega
        · right; exact ⟨0, by omega, by simp only [Nat.add_zero]; omega⟩
      · right
        refine ⟨k + 1, by omega, ?_⟩
        rw [b3]
        have e : i + 1 + k = i + (k + 1) := by omega
        rw [e]

/-! ## The descriptor parser against the field grammar -/

theorem fillChunk_eq (sep : Char) : ∀ (text chunk : List Char),
    fillChunk sep chunk text =
      (chunk ++ (text.takeWhile (fun c => c != NUL && c != sep)).take
          (CHUNK_BUFFER_SIZE - chunk.length),
       text.drop ((text.takeWhile (fun c => c != NUL && c != sep)).take
          (CHUNK_BUFFER_SIZE - chunk.length)).length) := by
  intro text
  induction text with
  | nil => intro chunk; simp [fillChunk]
  | cons c t ih =>
    intro chunk
    unfold fillChunk
    by_cases hc : c ≠ NUL ∧ chunk.length < CHUNK_BUFFER_SIZE ∧ c ≠ sep
    · rw [if_pos hc, ih]
      obtain ⟨h1, h2, h3⟩ := hc
      have key : List.takeWhile (fun c => c != NUL && c != sep) (c :: t) =
          c :: List.takeWhile (fun c => c != NUL && c != sep) t := by
        simp [List.takeWhile_cons, h1, h3]
      have hl : CHUNK_BUFFER_SIZE - chunk.length =
          (CHUNK_BUFFER_SIZE - (chunk ++ [c]).length) + 1 := by
        simp only [List.length_append, List.length_singleton]; omega
      rw [key, hl, List.take_succ_cons]
      simp
    · rw [if_neg hc]
      by_cases hp : (c != NUL && c != sep) = true
      · have hlen : CHUNK_BUFFER_SIZE - chunk.length = 0 := by
          simp only [Bool.and_eq_true, bne_iff_ne, ne_eq] at hp
          have : ¬ chunk.length < CHUNK_BUFFER_SIZE := fun h => hc ⟨hp.1, h, hp.2⟩
          omega
        rw [hlen]; simp
      · have key : List.takeWhile (fun c => c != NUL && c != sep) (c :: t) = [] := by
          rw [List.takeWhile_cons]; simp only [hp]; rfl
        rw [key]; simp

theorem fillChunk_nil (sep : Char) (text : List Char) :
    fillChunk sep [] text =
      ((text.takeWhile (fun c => c != NUL && c != sep)).take CHUNK_BUFFER_SIZE,
       text.drop ((text.takeWhile (fun c => c != NUL && c != sep)).take
          CHUNK_BUFFER_SIZE).length) := by
  rw [fillChunk_eq]; rfl

theorem parseLoop_succ (adjacent : Nat → List Char) (n parseState : Nat) (config : List Char)
    (ledConfig : ledConfig_t) :
    parseLoop adjacent (n + 1) parseState config ledConfig =
      match splitField (chunkSeparators parseState) config with
      | none => (false, ledConfig)
      | some fr =>
        if parseState + 1 ≥ PARSE_STATE_COUNT then
          (true, applyChunk (adjacent parseState) parseState fr.1 ledConfig)
        else parseLoop adjacent n (parseState + 1) fr.2
          (applyChunk (adjacent parseState) parseState fr.1 ledConfig) := by
  rw [parseLoop, fillChunk_nil]
  unfold splitField
  by_cases h : peek (List.drop (List.take CHUNK_BUFFER_SIZE
      (List.takeWhile (fun c => c != NUL && c != chunkSeparators parseState) config)).length config)
        = chunkSeparators parseState
  · simp only [h, not_true_eq_false, if_false, if_true, ne_eq]
  · simp only [h, not_false_eq_true, if_false, if_true, ne_eq]

theorem parseLoop_descriptor (adjacent : Nat → List Char) (config : List Char) :
    parseLoop adjacent PARSE_STATE_COUNT X_COORDINATE config ⟨0, 0⟩ =
      match descriptorFields config with
      | none => (false, (parseLoop adjacent PARSE_STATE_COUNT X_COORDINATE config ⟨0, 0⟩).2)
      | some (x, y, d, f) =>
        (true, applyChunk (adjacent FUNCTIONS) FUNCTIONS f
          (applyChunk (adjacent DIRECTIONS) DIRECTIONS d
            (applyChunk (adjacent Y_COORDINATE) Y_COORDINATE y
              (applyChunk (adjacent X_COORDINATE) X_COORDINATE x ⟨0, 0⟩)))) := by
  have e0 : chunkSeparators 0 = ',' := rfl
  have e1 : chunkSeparators 1 = ':' := rfl
  have e2 : chunkSeparators 2 = ':' := rfl
  have e3 : chunkSeparators 3 = NUL := rfl
  simp only [PARSE_STATE_COUNT, X_COORDINATE, Y_COORDINATE, DIRECTIONS, FUNCTIONS,
    parseLoop_succ, descriptorFields, e0, e1, e2, e3]
  rcases h0 : splitField ',' config with _ | fx
  · simp
  rcases h1 : splitField ':' fx.2 with _ | fy
  · simp [h1]
  rcases h2 : splitField ':' fy.2 with _ | fd
  · simp [h1, h2]
  rcases h3 : splitField NUL fd.2 with _ | ff
  · simp [h1, h2, h3]
  · simp [h1, h2, h3]

/-! ## Mode layer -/

theorem ite_setLedHsv_other (c : Prop) [Decidable c] (leds : Nat → hsvColor_t) (i : Nat)
    (v : hsvColor_t) (j : Nat) (h : j ≠ i) :
    (if c then setLedHsv leds i v else leds) j = leds j := by
  split
  · simp [setLedHsv, setEntry, h]
  · rfl

theorem applyDirectionalModeColor_other (st : LedState) (colors leds : Nat → hsvColor_t)
    (i : Nat) (c : ledConfig_t) (m : modeColorIndexes_t) (j : Nat) (h : j ≠ i) :
    applyDirectionalModeColor st colors leds i c m j = leds j := by
  simp only [applyDirectionalModeColor, ite_setLedHsv_other _ _ _ _ _ h]

theorem ite_setLedHsv_self (c : Prop) [Decidable c] (leds : Nat → hsvColor_t) (i : Nat)
    (v : hsvColor_t) :
    (if c then setLedHsv leds i v else leds) i = if c then v else leds i := by
  split
  · simp [setLedHsv, setEntry]
  · rfl

theorem applyDirectionalModeColor_self (st : LedState) (colors leds : Nat → hsvColor_t)
    (i : Nat) (c : ledConfig_t) (m : modeColorIndexes_t) :
    applyDirectionalModeColor st colors leds i c m i =
      if c.flags &&& LED_DIRECTION_SOUTH ≠ 0 ∧ GET_LED_Y c ≥ st.lowestYValueForSouth
        then colors m.south
      else if c.flags &&& LED_DIRECTION_NORTH ≠ 0 ∧ GET_LED_Y c ≤ st.highestYValueForNorth
        then colors m.north
      else if c.flags &&& LED_DIRECTION_EAST ≠ 0 ∧ GET_LED_X c ≥ st.lowestXValueForEast
        then colors m.east
      else if c.flags &&& LED_DIRECTION_WEST ≠ 0 ∧ GET_LED_X c ≤ st.highestXValueForWest
        then colors m.west
      else if c.flags &&& LED_DIRECTION_DOWN ≠ 0 then colors m.down
      else if c.flags &&& LED_DIRECTION_UP ≠ 0 then colors m.up
      else leds i := by
  simp only [applyDirectionalModeColor, ite_setLedHsv_self]

theorem applyDirectionalModeColor_twice (st : LedState) (colors leds : Nat → hsvColor_t)
    (i : Nat) (c : ledConfig_t) (m0 m : modeColorIndexes_t) :
    applyDirectionalModeColor st colors (applyDirectionalModeColor st colors leds i c m0) i c m i =
      applyDirectionalModeColor st colors leds i c m i := by
  rw [applyDirectionalModeColor_self, applyDirectionalModeColor_self,
    applyDirectionalModeColor_self]
  split_ifs <;> rfl

theorem applyDirectionalModeColor_congr (st : LedState) (colors leds leds2 : Nat → hsvColor_t)
    (i : Nat) (c : ledConfig_t) (m : modeColorIndexes_t) (h : leds i = leds2 i) :
    applyDirectionalModeColor st colors leds i c m i =
      applyDirectionalModeColor st colors leds2 i c m i := by
  rw [applyDirectionalModeColor_self, applyDirectionalModeColor_self, h]

theorem applyLedModeLayerStep_other (inp : ModeInputs) (st : LedState) (leds : Nat → hsvColor_t)
    (i j : Nat) (h : j ≠ i) : applyLedModeLayerStep inp st leds i j = leds j := by
  have hb : ∀ v, setLedHsv leds i v j = leds j := by
    intro v; simp [setLedHsv, setEntry, h]
  have hb2 : ∀ v w, setLedHsv (setLedHsv leds i v) i w j = leds j := by
    intro v w; simp [setLedHsv, setEntry, h]
  unfold applyLedModeLayerStep
  repeat' split
  all_goals simp only [applyDirectionalModeColor_other _ _ _ _ _ _ _ h, hb, hb2]

theorem applyLedModeLayerStep_flightMode (inp : ModeInputs) (st : LedState)
    (leds : Nat → hsvColor_t) (i : Nat)
    (hMAG : inp.FLIGHT_MODE .MAG_MODE = true → inp.MAG = true)
    (hBARO : inp.FLIGHT_MODE .BARO_MODE = true → inp.BARO = true)
    (hf : (st.ledConfigs i).flags &&& LED_FUNCTION_FLIGHT_MODE ≠ 0) :
    applyLedModeLayerStep inp st leds i i =
      applyDirectionalModeColor st inp.colors (setLedHsv leds i hsv_black) i (st.ledConfigs i)
        (firstActiveModeColors inp.FLIGHT_MODE) i := by
  unfold applyLedModeLayerStep firstActiveModeColors
  rw [if_neg (not_not_intro hf)]
  by_cases h1 : inp.FLIGHT_MODE .HEADFREE_MODE = true
  · simp [h1, applyDirectionalModeColor_twice]
  by_cases h2 : inp.FLIGHT_MODE .MAG_MODE = true
  · simp [h1, h2, hMAG h2, applyDirectionalModeColor_twice]
  by_cases h3 : inp.FLIGHT_MODE .BARO_MODE = true
  · simp [h1, h2, h3, hBARO h3, applyDirectionalModeColor_twice]
  by_cases h4 : inp.FLIGHT_MODE .HORIZON_MODE = true
  · simp [h1, h2, h3, h4, applyDirectionalModeColor_twice]
  by_cases h5 : inp.FLIGHT_MODE .ANGLE_MODE = true
  · simp [h1, h2, h3, h4, h5, applyDirectionalModeColor_twice]
  · simp [h1, h2, h3, h4, h5]

theorem applyLedModeLayerStep_compiledMode (inp : ModeInputs) (st : LedState)
    (leds : Nat → hsvColor_t) (i : Nat)
    (hf : (st.ledConfigs i).flags &&& LED_FUNCTION_FLIGHT_MODE ≠ 0) :
    applyLedModeLayerStep inp st leds i i =
      applyDirectionalModeColor st inp.colors (setLedHsv leds i hsv_black) i (st.ledConfigs i)
        (firstCompiledActiveModeColors inp) i := by
  unfold applyLedModeLayerStep firstCompiledActiveModeColors
  rw [if_neg (not_not_intro hf)]
  by_cases h1 : inp.FLIGHT_MODE .HEADFREE_MODE = true
  · simp [h1, applyDirectionalModeColor_twice]
  by_cases h2 : inp.MAG = true ∧ inp.FLIGHT_MODE .MAG_MODE = true
  · simp [h1, h2, applyDirectionalModeColor_twice]
  by_cases h3 : inp.BARO = true ∧ inp.FLIGHT_MODE .BARO_MODE = true
  · simp only [h1, h2, h3, if_true, if_false]
    simp [applyDirectionalModeColor_twice]
  by_cases h4 : inp.FLIGHT_MODE .HORIZON_MODE = true
  · simp only [h1, h2, h3, h4, if_true, if_false]
    simp [applyDirectionalModeColor_twice]
  by_cases h5 : inp.FLIGHT_MODE .ANGLE_MODE = true
  · simp only [h1, h2, h3, h4, h5, if_true, if_false]
    simp [applyDirectionalModeColor_twice]
  · simp only [h1, h2, h3, h4, h5, if_false]
    simp

theorem firstCompiledActiveModeColors_eq (inp : ModeInputs)
    (hMAG : inp.FLIGHT_MODE .MAG_MODE = true → inp.MAG = true)
    (hBARO : inp.FLIGHT_MODE .BARO_MODE = true → inp.BARO = true) :
    firstCompiledActiveModeColors inp = firstActiveModeColors inp.FLIGHT_MODE := by
  unfold firstCompiledActiveModeColors firstActiveModeColors
  by_cases h2 : inp.FLIGHT_MODE .MAG_MODE = true
  · simp [h2, hMAG h2]
  by_cases h3 : inp.FLIGHT_MODE .BARO_MODE = true
  · simp [h2, h3, hBARO h3]
  · simp [h2, h3]

theorem applyLedModeLayerStep_congr (inp : ModeInputs) (st : LedState)
    (leds leds2 : Nat → hsvColor_t) (i : Nat) :
    applyLedModeLayerStep inp st leds i i = applyLedModeLayerStep inp st leds2 i i := by
  have hb : setLedHsv leds i hsv_black i = setLedHsv leds2 i hsv_black i := by
    simp [setLedHsv, setEntry]
  have hd : ∀ m, applyDirectionalModeColor st inp.colors (setLedHsv leds i hsv_black) i
      (st.ledConfigs i) m i = applyDirectionalModeColor st inp.colors
        (setLedHsv leds2 i hsv_black) i (st.ledConfigs i) m i :=
    fun m => applyDirectionalModeColor_congr _ _ _ _ _ _ _ hb
  have hd2 : ∀ m0 m, applyDirectionalModeColor st inp.colors
      (applyDirectionalModeColor st inp.colors (setLedHsv leds i hsv_black) i
        (st.ledConfigs i) m0) i (st.ledConfigs i) m i =
      applyDirectionalModeColor st inp.colors
      (applyDirectionalModeColor st inp.colors (setLedHsv leds2 i hsv_black) i
        (st.ledConfigs i) m0) i (st.ledConfigs i) m i :=
    fun m0 m => applyDirectionalModeColor_congr _ _ _ _ _ _ _ (hd m0)
  unfold applyLedModeLayerStep
  by_cases hf : (st.ledConfigs i).flags &&& LED_FUNCTION_FLIGHT_MODE ≠ 0
  · rw [if_neg (not_not_intro hf), if_neg (not_not_intro hf)]
    by_cases h1 : inp.FLIGHT_MODE .HEADFREE_MODE = true
    · rw [if_pos h1, if_pos h1]; exact hd2 _ _
    rw [if_neg h1, if_neg h1]
    by_cases h2 : inp.MAG = true ∧ inp.FLIGHT_MODE .MAG_MODE = true
    · rw [if_pos h2, if_pos h2]; exact hd2 _ _
    rw [if_neg h2, if_neg h2]
    by_cases h3 : inp.BARO = true ∧ inp.FLIGHT_MODE .BARO_MODE = true
    · rw [if_pos h3, if_pos h3]; exact hd2 _ _
    rw [if_neg h3, if_neg h3]
    by_cases h4 : inp.FLIGHT_MODE .HORIZON_MODE = true
    · rw [if_pos h4, if_pos h4]; exact hd2 _ _
    rw [if_neg h4, if_neg h4]
    by_cases h5 : inp.FLIGHT_MODE .ANGLE_MODE = true
    · rw [if_pos h5, if_pos h5]; exact hd2 _ _
    rw [if_neg h5, if_neg h5]
    exact hd _
  · rw [if_pos hf, if_pos hf]
    by_cases ha : (st.ledConfigs i).flags &&& LED_FUNCTION_ARM_STATE ≠ 0
    · rw [if_pos ha, if_pos ha]
      by_cases hr : ¬ inp.ARMED = true
      · rw [if_pos hr, if_pos hr]; simp [setLedHsv, setEntry]
      · rw [if_neg hr, if_neg hr]; simp [setLedHsv, setEntry]
    · rw [if_neg ha, if_neg ha]; exact hb

theorem applyLedModeLayerLoop_spec (inp : ModeInputs) (st : LedState) :
    ∀ (n k : Nat) (leds : Nat → hsvColor_t) (i : Nat),
      applyLedModeLayerLoop inp st n k leds i =
        if k ≤ i ∧ i < k + n then applyLedModeLayerStep inp st leds i i else leds i := by
  intro n
  induction n with
  | zero =>
    intro k leds i
    have : ¬ (k ≤ i ∧ i < k + 0) := by omega
    rw [applyLedModeLayerLoop, if_neg this]
  | succ n ih =>
    intro k leds i
    rw [applyLedModeLayerLoop, ih]
    by_cases hk : i = k
    · subst hk
      have h1 : ¬ (i + 1 ≤ i ∧ i < i + 1 + n) := by omega
      have h2 : i ≤ i ∧ i < i + (n + 1) := by omega
      rw [if_neg h1, if_pos h2]
    · rw [applyLedModeLayerStep_other inp st leds k i hk]
      by_cases hr : k + 1 ≤ i ∧ i < k + 1 + n
      · have h2 : k ≤ i ∧ i < k + (n + 1) := by omega
        rw [if_pos hr, if_pos h2]
        exact applyLedModeLayerStep_congr _ _ _ _ _
      · have h2 : ¬ (k ≤ i ∧ i < k + (n + 1)) := by omega
        rw [if_neg hr, if_neg h2]

/-! ## Extent of the codec properties -/

/-! ### C strings in arrays -/

theorem cString_append_NUL (s rest : List Char) (h : ∀ c ∈ s, c ≠ NUL) :
    cString (s ++ NUL :: rest) = s := by
  unfold cString
  rw [List.takeWhile_append_of_pos (by intro a ha; simpa using h a ha)]
  simp [List.takeWhile_cons]

theorem cString_self (s : List Char) (h : ∀ c ∈ s, c ≠ NUL) : cString s = s := by
  unfold cString
  rw [List.takeWhile_eq_self_iff]
  intro a ha; simpa using h a ha

theorem charArray_of_lt (cap : Nat) (written : List Char) (h : written.length < cap) :
    charArray cap written = written ++ NUL :: List.replicate (cap - written.length - 1) NUL := by
  unfold charArray
  have : cap - written.length = (cap - written.length - 1) + 1 := by omega
  rw [this, List.replicate_succ]
  simp

theorem cString_charArray_of_lt (cap : Nat) (written adj : List Char)
    (h : written.length < cap) (hn : ∀ c ∈ written, c ≠ NUL) :
    cString (charArray cap written ++ adj) = written := by
  rw [charArray_of_lt cap written h, List.append_assoc, List.cons_append]
  exact cString_append_NUL _ _ hn

theorem chunkLetters_charArray (written : List Char) (h : written.length ≤ CHUNK_BUFFER_SIZE)
    (hn : ∀ c ∈ written, c ≠ NUL) :
    chunkLetters (charArray CHUNK_BUFFER_SIZE written) = written := by
  unfold chunkLetters
  rcases Nat.lt_or_ge written.length CHUNK_BUFFER_SIZE with hlt | hge
  · rw [charArray_of_lt _ _ hlt]
    have hl : (written ++ NUL :: List.replicate (CHUNK_BUFFER_SIZE - written.length - 1) NUL).length
        = CHUNK_BUFFER_SIZE := by
      simp only [List.length_append, List.length_cons, List.length_replicate]; omega
    rw [List.take_of_length_le (Nat.le_of_eq hl)]
    exact cString_append_NUL _ _ hn
  · have hz : CHUNK_BUFFER_SIZE - written.length = 0 := by omega
    have hl : written.length = CHUNK_BUFFER_SIZE := by omega
    unfold charArray
    rw [hz, List.replicate_zero, List.append_nil, ← hl, List.take_length]
    exact cString_self _ hn

/-! ### Fields -/

theorem splitField_some (sep : Char) (text field rest : List Char)
    (h : splitField sep text = some (field, rest)) :
    field.length ≤ CHUNK_BUFFER_SIZE ∧ ∀ c ∈ field, c ≠ NUL ∧ c ≠ sep := by
  unfold splitField at h
  simp only at h
  split at h
  · simp only [Option.some.injEq, Prod.mk.injEq] at h
    obtain ⟨h1, _⟩ := h
    subst h1
    refine ⟨by simp [List.length_take], ?_⟩
    intro c hc
    have := List.mem_takeWhile_imp (List.mem_of_mem_take hc)
    simpa using this
  · simp at h

theorem descriptorFields_some (text x y d f : List Char)
    (h : descriptorFields text = some (x, y, d, f)) :
    (x.length ≤ CHUNK_BUFFER_SIZE ∧ ∀ c ∈ x, c ≠ NUL ∧ c ≠ ',') ∧
    (y.length ≤ CHUNK_BUFFER_SIZE ∧ ∀ c ∈ y, c ≠ NUL ∧ c ≠ ':') ∧
    (d.length ≤ CHUNK_BUFFER_SIZE ∧ ∀ c ∈ d, c ≠ NUL ∧ c ≠ ':') ∧
    (f.length ≤ CHUNK_BUFFER_SIZE ∧ ∀ c ∈ f, c ≠ NUL ∧ c ≠ NUL) := by
  unfold descriptorFields at h
  rcases h0 : splitField ',' text with _ | ⟨fx, r0⟩
  · simp [h0] at h
  rcases h1 : splitField ':' r0 with _ | ⟨fy, r1⟩
  · simp [h0, h1] at h
  rcases h2 : splitField ':' r1 with _ | ⟨fd, r2⟩
  · simp [h0, h1, h2] at h
  rcases h3 : splitField NUL r2 with _ | ⟨ff, r3⟩
  · simp [h0, h1, h2, h3] at h
  simp only [h0, h1, h2, h3, Option.some_bind, Option.map_some', Option.some.injEq,
    Prod.mk.injEq] at h
  obtain ⟨rfl, rfl, rfl, rfl⟩ := h
  exact ⟨splitField_some _ _ _ _ h0, splitField_some _ _ _ _ h1, splitField_some _ _ _ _ h2,
    splitField_some _ _ _ _ h3⟩

/-! ### Decimal numbers -/

theorem digitsValue_of_digits : ∀ (s : List Char) (acc : Nat), (∀ c ∈ s, isdigit c = true) →
    digitsValue acc s = s.foldl (fun acc c => acc * 10 + (c.toNat - '0'.toNat)) acc := by
  intro s
  induction s with
  | nil => intro acc _; rfl
  | cons c t ih =>
    intro acc h
    have hc : isdigit c = true := h c (List.mem_cons_self _ _)
    simp only [digitsValue, hc, if_true, List.foldl_cons]
    exact ih _ (fun a ha => h a (List.mem_cons_of_mem _ ha))

theorem isspace_of_isdigit (c : Char) (h : isdigit c = true) : isspace c = false := by
  unfold isdigit at h
  simp only [decide_eq_true_eq] at h
  unfold isspace
  simp only [Bool.or_eq_false_iff, beq_eq_false_iff_ne, ne_eq]
  refine ⟨⟨⟨⟨⟨?_, ?_⟩, ?_⟩, ?_⟩, ?_⟩, ?_⟩ <;>
  · intro e; subst e; revert h; decide

theorem longToInt_saturateLong (n : Nat) (h : n < 2147483648) :
    longToInt (saturateLong (n : Int)) = (n : Int) := by
  unfold longToInt saturateLong
  rw [if_neg (by omega), if_neg (by omega)]
  omega

theorem atoi_of_digits (s : List Char) (hne : s ≠ []) (h : ∀ c ∈ s, isdigit c = true)
    (hv : decimalValue s < 2147483648) :
    atoi s = (decimalValue s : Int) := by
  cases s with
  | nil => exact absurd rfl hne
  | cons c t =>
    have hc : isdigit c = true := h c (List.mem_cons_self _ _)
    have hs : isspace c = false := isspace_of_isdigit c hc
    have hm : c ≠ '-' := by intro e; subst e; revert hc; decide
    have hp : c ≠ '+' := by intro e; subst e; revert hc; decide
    unfold atoi
    rw [List.dropWhile_cons_of_neg (by simp [hs])]
    simp only [hm, hp, if_false]
    rw [digitsValue_of_digits _ _ h]
    exact longToInt_saturateLong _ hv


/-! ### Flags -/

theorem applyMapping_directions (c : Char) (flags : Nat) :
    applyMapping directionCodes directionMappings c flags =
      match directionBit c with
      | some k => (flags ||| 2 ^ k) % 65536
      | none => flags := by
  unfold directionBit
  by_cases h0 : c = 'N'
  · subst h0; rfl
  by_cases h1 : c = 'E'
  · subst h1; rfl
  by_cases h2 : c = 'S'
  · subst h2; rfl
  by_cases h3 : c = 'W'
  · subst h3; rfl
  by_cases h4 : c = 'U'
  · subst h4; rfl
  by_cases h5 : c = 'D'
  · subst h5; rfl
  simp [applyMapping, directionCodes, h0, h1, h2, h3, h4, h5, Ne.symm h0, Ne.symm h1, Ne.symm h2,
    Ne.symm h3, Ne.symm h4, Ne.symm h5]

theorem applyMapping_functions (c : Char) (flags : Nat) :
    applyMapping functionCodes functionMappings c flags =
      match functionBit c with
      | some k => (flags ||| 2 ^ k) % 65536
      | none => flags := by
  unfold functionBit
  by_cases h0 : c = 'I'
  · subst h0; rfl
  by_cases h1 : c = 'W'
  · subst h1; rfl
  by_cases h2 : c = 'F'
  · subst h2; rfl
  by_cases h3 : c = 'A'
  · subst h3; rfl
  by_cases h4 : c = 'T'
  · subst h4; rfl
  simp [applyMapping, functionCodes, h0, h1, h2, h3, h4, Ne.symm h0, Ne.symm h1, Ne.symm h2,
    Ne.symm h3, Ne.symm h4]

theorem directionBit_lt (c : Char) (k : Nat) (h : directionBit c = some k) : k < 6 := by
  unfold directionBit at h
  repeat' split at h
  all_goals simp at h
  all_goals omega

theorem functionBit_range (c : Char) (k : Nat) (h : functionBit c = some k) :
    6 ≤ k ∧ k < 11 := by
  unfold functionBit at h
  repeat' split at h
  all_goals simp at h
  all_goals omega

theorem foldl_mapping_testBit (step : Nat → Char → Nat) (bit : Char → Option Nat)
    (hstep : ∀ c flags, step flags c =
      match bit c with
      | some k => (flags ||| 2 ^ k) % 65536
      | none => flags)
    (hlt : ∀ c k, bit c = some k → k < 16) :
    ∀ (letters : List Char) (flags : Nat), flags < 65536 →
      letters.foldl step flags < 65536 ∧
      ∀ k, (letters.foldl step flags).testBit k = true ↔
        (flags.testBit k = true ∨ ∃ c ∈ letters, bit c = some k) := by
  intro letters
  induction letters with
  | nil => intro flags hf; simp [hf]
  | cons c t ih =>
    intro flags hf
    rw [List.foldl_cons]
    rcases hb : bit c with _ | j
    · have e : step flags c = flags := by rw [hstep, hb]
      rw [e]
      obtain ⟨i1, i2⟩ := ih flags hf
      refine ⟨i1, fun k => ?_⟩
      rw [i2 k]
      constructor
      · rintro (h | ⟨a, ha, hk⟩)
        · exact Or.inl h
        · exact Or.inr ⟨a, List.mem_cons_of_mem _ ha, hk⟩
      · rintro (h | ⟨a, ha, hk⟩)
        · exact Or.inl h
        · rcases List.mem_cons.mp ha with rfl | ha
          · rw [hb] at hk; cases hk
          · exact Or.inr ⟨a, ha, hk⟩
    · have hj : j < 16 := hlt c j hb
      have h2 : 2 ^ j < 2 ^ 16 := Nat.pow_lt_pow_right (by decide) hj
      have hor : flags ||| 2 ^ j < 2 ^ 16 := Nat.or_lt_two_pow (by simpa using hf) h2
      have e : step flags c = flags ||| 2 ^ j := by
        rw [hstep, hb]
        exact Nat.mod_eq_of_lt hor
      rw [e]
      obtain ⟨i1, i2⟩ := ih (flags ||| 2 ^ j) hor
      refine ⟨i1, fun k => ?_⟩
      rw [i2 k, Nat.testBit_or, Nat.testBit_two_pow]
      constructor
      · rintro (h | ⟨a, ha, hk⟩)
        · simp only [Bool.or_eq_true, decide_eq_true_eq] at h
          rcases h with h | h
          · exact Or.inl h
          · subst h; exact Or.inr ⟨c, List.mem_cons_self _ _, hb⟩
        · exact Or.inr ⟨a, List.mem_cons_of_mem _ ha, hk⟩
      · rintro (h | ⟨a, ha, hk⟩)
        · left; simp [h]
        · rcases List.mem_cons.mp ha with rfl | ha
          · rw [hb] at hk
            left
            simp only [Option.some.injEq] at hk
            simp [hk]
          · exact Or.inr ⟨a, ha, hk⟩

theorem xy_of_nibbles : ∀ p < 16, ∀ q < 16,
    GET_LED_X ⟨(((0 ||| CALCULATE_LED_X p) % 256) ||| CALCULATE_LED_Y q) % 256, 0⟩ = p ∧
    GET_LED_Y ⟨(((0 ||| CALCULATE_LED_X p) % 256) ||| CALCULATE_LED_Y q) % 256, 0⟩ = q := by
  decide

theorem CALCULATE_LED_X_mod (v : Nat) : CALCULATE_LED_X v = CALCULATE_LED_X (v % 16) := by
  unfold CALCULATE_LED_X
  have : v &&& LED_XY_MASK = v % 16 := Nat.and_pow_two_sub_one_eq_mod v 4
  have h2 : (v % 16) &&& LED_XY_MASK = v % 16 % 16 := Nat.and_pow_two_sub_one_eq_mod (v % 16) 4
  rw [this, h2, Nat.mod_mod]

theorem CALCULATE_LED_Y_mod (v : Nat) : CALCULATE_LED_Y v = CALCULATE_LED_Y (v % 16) := by
  unfold CALCULATE_LED_Y
  have : v &&& LED_XY_MASK = v % 16 := Nat.and_pow_two_sub_one_eq_mod v 4
  have h2 : (v % 16) &&& LED_XY_MASK = v % 16 % 16 := Nat.and_pow_two_sub_one_eq_mod (v % 16) 4
  rw [this, h2, Nat.mod_mod]

theorem parsed_position (vx vy : Nat) :
    GET_LED_X ⟨(((0 ||| CALCULATE_LED_X vx) % 256) ||| CALCULATE_LED_Y vy) % 256, 0⟩ = vx % 16 ∧
    GET_LED_Y ⟨(((0 ||| CALCULATE_LED_X vx) % 256) ||| CALCULATE_LED_Y vy) % 256, 0⟩ = vy % 16 := by
  rw [CALCULATE_LED_X_mod vx, CALCULATE_LED_Y_mod vy]
  exact xy_of_nibbles (vx % 16) (Nat.mod_lt _ (by decide)) (vy % 16) (Nat.mod_lt _ (by decide))

/-- The entry that a descriptor with fields `x`, `y`, `d`, `f` produces when
the numeric fields are shorter than the scratch buffer. -/
theorem parseLoop_short_fields (adjacent : Nat → List Char) (config x y d f : List Char)
    (hd : descriptorFields config = some (x, y, d, f))
    (hx : x.length < CHUNK_BUFFER_SIZE) (hy : y.length < CHUNK_BUFFER_SIZE) :
    parseLoop adjacent PARSE_STATE_COUNT X_COORDINATE config ⟨0, 0⟩ =
      (true,
        ⟨(((0 ||| CALCULATE_LED_X (toUint8 (atoi x))) % 256) |||
            CALCULATE_LED_Y (toUint8 (atoi y))) % 256,
         f.foldl (fun flags c => applyMapping functionCodes functionMappings c flags)
          (d.foldl (fun flags c => applyMapping directionCodes directionMappings c flags) 0)⟩) := by
  obtain ⟨⟨_, cx⟩, ⟨_, cy⟩, ⟨ld, cd⟩, ⟨lf, cf⟩⟩ := descriptorFields_some config x y d f hd
  rw [parseLoop_descriptor, hd]
  simp only [applyChunk, X_COORDINATE, Y_COORDINATE, DIRECTIONS, FUNCTIONS]
  simp only [if_true, if_false, OfNat.ofNat_ne_zero, OfNat.ofNat_ne_one, Nat.succ_ne_self,
    one_ne_zero, zero_ne_one, reduceCtorEq, Nat.reduceEqDiff]
  rw [cString_charArray_of_lt _ x _ hx (fun c hc => (cx c hc).1),
    cString_charArray_of_lt _ y _ hy (fun c hc => (cy c hc).1),
    chunkLetters_charArray d ld (fun c hc => (cd c hc).1),
    chunkLetters_charArray f lf (fun c hc => (cf c hc).1)]


theorem toUint8_natCast (n : Nat) : toUint8 (n : Int) = n % 256 := by
  unfold toUint8; omega

theorem GET_LED_X_flags (xy flags : Nat) : GET_LED_X ⟨xy, flags⟩ = GET_LED_X ⟨xy, 0⟩ := rfl
theorem GET_LED_Y_flags (xy flags : Nat) : GET_LED_Y ⟨xy, flags⟩ = GET_LED_Y ⟨xy, 0⟩ := rfl

theorem parsed_flags_testBit (d f : List Char) (k : Nat) :
    (f.foldl (fun flags c => applyMapping functionCodes functionMappings c flags)
      (d.foldl (fun flags c => applyMapping directionCodes directionMappings c flags) 0)).testBit k
        = true ↔
    ((∃ c ∈ d, directionBit c = some k) ∨ (∃ c ∈ f, functionBit c = some k)) := by
  obtain ⟨d1, d2⟩ := foldl_mapping_testBit
    (fun flags c => applyMapping directionCodes directionMappings c flags) directionBit
    (fun c flags => applyMapping_directions c flags)
    (fun c k h => by have := directionBit_lt c k h; omega) d 0 (by decide)
  obtain ⟨_, f2⟩ := foldl_mapping_testBit
    (fun flags c => applyMapping functionCodes functionMappings c flags) functionBit
    (fun c flags => applyMapping_functions c flags)
    (fun c k h => by have := functionBit_range c k h; omega) f _ d1
  rw [f2 k, d2 k]
  simp

/-- Descriptors whose numeric fields leave room for the terminating NUL of
the scratch buffer: for a valid index and a text `X,Y:DIRS:FUNCS` whose
fields `X` and `Y` are decimal numbers within the grid limit of at most nine
digits, and whose fields `DIRS` and `FUNCS` have at most ten characters, the call succeeds, the entry lands on
position (X, Y), and a flag bit is set exactly when one of the letters of
`DIRS` is the direction letter of that bit or one of the letters of `FUNCS`
is the function letter of that bit; other letters are ignored. -/
theorem parseLedStripConfig_short_fields (adjacent : Nat → List Char) (st : LedState)
    (ledIndex : Nat) (config x y d f : List Char) (h : ledIndex < MAX_LED_STRIP_LENGTH)
    (hd : descriptorFields config = some (x, y, d, f))
    (hx : x.length < CHUNK_BUFFER_SIZE) (hy : y.length < CHUNK_BUFFER_SIZE)
    (hxd : x ≠ [] ∧ ∀ c ∈ x, isdigit c = true) (hyd : y ≠ [] ∧ ∀ c ∈ y, isdigit c = true)
    (hxl : decimalValue x ≤ LED_XY_MASK) (hyl : decimalValue y ≤ LED_XY_MASK) :
    (parseLedStripConfig adjacent st ledIndex config).1 = true ∧
    GET_LED_X ((parseLedStripConfig adjacent st ledIndex config).2.ledConfigs ledIndex)
      = decimalValue x ∧
    GET_LED_Y ((parseLedStripConfig adjacent st ledIndex config).2.ledConfigs ledIndex)
      = decimalValue y ∧
    ∀ k, ((parseLedStripConfig adjacent st ledIndex config).2.ledConfigs ledIndex).flags.testBit k
        = true ↔
      ((∃ c ∈ d, directionBit c = some k) ∨ (∃ c ∈ f, functionBit c = some k)) := by
  have hn : ¬ ledIndex ≥ MAX_LED_STRIP_LENGTH := by omega
  have hl := parseLoop_short_fields adjacent config x y d f hd hx hy
  simp only [parseLedStripConfig, hn, if_false, hl, reevalulateLedConfig_ledConfigs, setEntry,
    if_true]
  have hm : LED_XY_MASK = 15 := rfl
  rw [atoi_of_digits x hxd.1 hxd.2 (by omega), atoi_of_digits y hyd.1 hyd.2 (by omega),
    toUint8_natCast, toUint8_natCast]
  obtain ⟨px, py⟩ := parsed_position (decimalValue x % 256) (decimalValue y % 256)
  refine ⟨trivial, ?_, ?_, ?_⟩
  · rw [GET_LED_X_flags, px]; omega
  · rw [GET_LED_Y_flags, py]; omega
  · intro k
    exact parsed_flags_testBit d f k

/-- An instance of `parseLedStripConfig_short_fields`: `1,2:NxE:IWq` puts LED 0
on (1, 2) with the bits of N, E, I and W; the letters x and q are ignored. -/
theorem parseLedStripConfig_short_fields_witness :
    (parseLedStripConfig noAdjacent defaultState 0 "1,2:NxE:IWq".toList).1 = true ∧
    GET_LED_X ((parseLedStripConfig noAdjacent defaultState 0
      "1,2:NxE:IWq".toList).2.ledConfigs 0) = 1 ∧
    GET_LED_Y ((parseLedStripConfig noAdjacent defaultState 0
      "1,2:NxE:IWq".toList).2.ledConfigs 0) = 2 ∧
    ((parseLedStripConfig noAdjacent defaultState 0
      "1,2:NxE:IWq".toList).2.ledConfigs 0).flags = 1 + 2 + 64 + 128 := by
  obtain ⟨h1, h2, h3, _⟩ := parseLedStripConfig_short_fields noAdjacent defaultState 0
    "1,2:NxE:IWq".toList ['1'] ['2'] ['N', 'x', 'E'] ['I', 'W', 'q'] (by decide) (by decide)
    (by decide) (by decide) (by decide) (by decide) (by decide) (by decide)
  exact ⟨h1, h2, h3, by decide⟩

/-! ### Serialiser -/

theorem splitField_append (sep : Char) (field rest : List Char)
    (hl : field.length ≤ CHUNK_BUFFER_SIZE) (hc : ∀ c ∈ field, c ≠ NUL ∧ c ≠ sep) :
    splitField sep (field ++ sep :: rest) = some (field, rest) := by
  have htw : List.takeWhile (fun c => c != NUL && c != sep) (field ++ sep :: rest) = field := by
    rw [List.takeWhile_append_of_pos (by intro a ha; simpa using hc a ha)]
    simp [List.takeWhile_cons]
  unfold splitField
  simp only [htw, List.take_of_length_le hl, List.drop_left, peek, if_true, List.tail_cons]

theorem splitField_end (field : List Char)
    (hl : field.length ≤ CHUNK_BUFFER_SIZE) (hc : ∀ c ∈ field, c ≠ NUL) :
    splitField NUL field = some (field, []) := by
  have htw : List.takeWhile (fun c => c != NUL && c != NUL) field = field := by
    rw [List.takeWhile_eq_self_iff]
    intro a ha; simpa using hc a ha
  unfold splitField
  simp only [htw, List.take_of_length_le hl, List.drop_length, peek, if_true, List.tail_nil]

theorem descriptorFields_of_fields (x y d f : List Char)
    (hx : x.length ≤ CHUNK_BUFFER_SIZE ∧ ∀ c ∈ x, c ≠ NUL ∧ c ≠ ',')
    (hy : y.length ≤ CHUNK_BUFFER_SIZE ∧ ∀ c ∈ y, c ≠ NUL ∧ c ≠ ':')
    (hd : d.length ≤ CHUNK_BUFFER_SIZE ∧ ∀ c ∈ d, c ≠ NUL ∧ c ≠ ':')
    (hf : f.length ≤ CHUNK_BUFFER_SIZE ∧ ∀ c ∈ f, c ≠ NUL) :
    descriptorFields (x ++ [','] ++ y ++ [':'] ++ d ++ [':'] ++ f) = some (x, y, d, f) := by
  have e : x ++ [','] ++ y ++ [':'] ++ d ++ [':'] ++ f
      = x ++ ',' :: (y ++ ':' :: (d ++ ':' :: f)) := by simp
  rw [e]
  unfold descriptorFields
  rw [splitField_append ',' x _ hx.1 hx.2]
  simp only [Option.some_bind]
  rw [splitField_append ':' y _ hy.1 hy.2]
  simp only [Option.some_bind]
  rw [splitField_append ':' d _ hd.1 hd.2]
  simp only [Option.some_bind]
  rw [splitField_end f hf.1 hf.2]
  rfl

theorem mem_collectCodes (flags : Nat) : ∀ (codes : List Char) (mappings : List Nat) (c : Char),
    c ∈ collectCodes flags codes mappings ↔
      ∃ m, (c, m) ∈ List.zip codes mappings ∧ flags &&& m ≠ 0 := by
  intro codes
  induction codes with
  | nil => intro mappings c; simp [collectCodes]
  | cons code codes ih =>
    intro mappings c
    cases mappings with
    | nil => simp [collectCodes]
    | cons mapping mappings =>
      unfold collectCodes
      by_cases hm : flags &&& mapping ≠ 0
      · rw [if_pos hm, List.mem_cons, ih]
        simp only [List.zip_cons_cons, List.mem_cons, Prod.mk.injEq]
        constructor
        · rintro (rfl | ⟨m, h1, h2⟩)
          · exact ⟨mapping, Or.inl ⟨rfl, rfl⟩, hm⟩
          · exact ⟨m, Or.inr h1, h2⟩
        · rintro ⟨m, (⟨rfl, rfl⟩ | h1), h2⟩
          · exact Or.inl rfl
          · exact Or.inr ⟨m, h1, h2⟩
      · rw [if_neg hm, ih]
        simp only [List.zip_cons_cons, List.mem_cons, Prod.mk.injEq]
        constructor
        · rintro ⟨m, h1, h2⟩
          exact ⟨m, Or.inr h1, h2⟩
        · rintro ⟨m, (⟨rfl, rfl⟩ | h1), h2⟩
          · exact absurd h2 hm
          · exact ⟨m, h1, h2⟩

theorem length_collectCodes_le (flags : Nat) : ∀ (codes : List Char) (mappings : List Nat),
    (collectCodes flags codes mappings).length ≤ codes.length := by
  intro codes
  induction codes with
  | nil => intro mappings; simp [collectCodes]
  | cons code codes ih =>
    intro mappings
    cases mappings with
    | nil => simp [collectCodes]
    | cons mapping mappings =>
      unfold collectCodes
      have := ih mappings
      split
      · simp only [List.length_cons]; omega
      · simp only [List.length_cons]; omega

theorem length_collectCodes_lt (flags : Nat) : ∀ (codes : List Char) (mappings : List Nat),
    (∃ c m, (c, m) ∈ List.zip codes mappings ∧ flags &&& m = 0) →
    (collectCodes flags codes mappings).length < codes.length := by
  intro codes
  induction codes with
  | nil => intro mappings h; simp at h
  | cons code codes ih =>
    intro mappings h
    cases mappings with
    | nil => simp at h
    | cons mapping mappings =>
      obtain ⟨c, m, hmem, hz⟩ := h
      simp only [List.zip_cons_cons, List.mem_cons, Prod.mk.injEq] at hmem
      unfold collectCodes
      rcases hmem with ⟨rfl, rfl⟩ | hmem
      · rw [if_neg (by simp [hz])]
        have := length_collectCodes_le flags codes mappings
        simp only [List.length_cons]; omega
      · have := ih mappings ⟨c, m, hmem, hz⟩
        split
        · simp only [List.length_cons]; omega
        · simp only [List.length_cons]; omega

theorem and_two_pow_ne_zero (flags k : Nat) : flags &&& 2 ^ k ≠ 0 ↔ flags.testBit k = true := by
  rw [Nat.and_two_pow]
  cases flags.testBit k <;> simp

theorem zip_directions : List.zip directionCodes directionMappings =
    [('N', 2 ^ 0), ('E', 2 ^ 1), ('S', 2 ^ 2), ('W', 2 ^ 3), ('U', 2 ^ 4), ('D', 2 ^ 5)] := by
  decide

theorem zip_functions : List.zip functionCodes functionMappings =
    [('I', 2 ^ 6), ('W', 2 ^ 7), ('F', 2 ^ 8), ('A', 2 ^ 9), ('T', 2 ^ 10)] := by
  decide

theorem mem_zip_directions (c : Char) (m : Nat) :
    (c, m) ∈ List.zip directionCodes directionMappings ↔
      ∃ k, directionBit c = some k ∧ m = 2 ^ k := by
  rw [zip_directions]
  simp only [List.mem_cons, Prod.mk.injEq, List.mem_singleton, List.not_mem_nil, or_false]
  constructor
  · rintro (⟨rfl, rfl⟩ | ⟨rfl, rfl⟩ | ⟨rfl, rfl⟩ | ⟨rfl, rfl⟩ | ⟨rfl, rfl⟩ | ⟨rfl, rfl⟩)
    exacts [⟨0, rfl, rfl⟩, ⟨1, rfl, rfl⟩, ⟨2, rfl, rfl⟩, ⟨3, rfl, rfl⟩, ⟨4, rfl, rfl⟩,
      ⟨5, rfl, rfl⟩]
  · rintro ⟨k, hk, rfl⟩
    unfold directionBit at hk
    repeat' split at hk
    all_goals simp only [Option.some.injEq, reduceCtorEq] at hk
    all_goals subst hk
    all_goals simp_all

theorem mem_zip_functions (c : Char) (m : Nat) :
    (c, m) ∈ List.zip functionCodes functionMappings ↔
      ∃ k, functionBit c = some k ∧ m = 2 ^ k := by
  rw [zip_functions]
  simp only [List.mem_cons, Prod.mk.injEq, List.mem_singleton, List.not_mem_nil, or_false]
  constructor
  · rintro (⟨rfl, rfl⟩ | ⟨rfl, rfl⟩ | ⟨rfl, rfl⟩ | ⟨rfl, rfl⟩ | ⟨rfl, rfl⟩)
    exacts [⟨6, rfl, rfl⟩, ⟨7, rfl, rfl⟩, ⟨8, rfl, rfl⟩, ⟨9, rfl, rfl⟩, ⟨10, rfl, rfl⟩]
  · rintro ⟨k, hk, rfl⟩
    unfold functionBit at hk
    repeat' split at hk
    all_goals simp only [Option.some.injEq, reduceCtorEq] at hk
    all_goals subst hk
    all_goals simp_all

theorem mem_collect_directions (flags : Nat) (c : Char) :
    c ∈ collectCodes flags directionCodes directionMappings ↔
      ∃ k, directionBit c = some k ∧ flags.testBit k = true := by
  rw [mem_collectCodes]
  constructor
  · rintro ⟨m, hm, hz⟩
    obtain ⟨k, hk, rfl⟩ := (mem_zip_directions c m).mp hm
    exact ⟨k, hk, (and_two_pow_ne_zero flags k).mp hz⟩
  · rintro ⟨k, hk, ht⟩
    exact ⟨2 ^ k, (mem_zip_directions c _).mpr ⟨k, hk, rfl⟩, (and_two_pow_ne_zero flags k).mpr ht⟩

theorem mem_collect_functions (flags : Nat) (c : Char) :
    c ∈ collectCodes flags functionCodes functionMappings ↔
      ∃ k, functionBit c = some k ∧ flags.testBit k = true := by
  rw [mem_collectCodes]
  constructor
  · rintro ⟨m, hm, hz⟩
    obtain ⟨k, hk, rfl⟩ := (mem_zip_functions c m).mp hm
    exact ⟨k, hk, (and_two_pow_ne_zero flags k).mp hz⟩
  · rintro ⟨k, hk, ht⟩
    exact ⟨2 ^ k, (mem_zip_functions c _).mpr ⟨k, hk, rfl⟩, (and_two_pow_ne_zero flags k).mpr ht⟩

theorem directionBit_surj (k : Nat) (h : k < 6) : ∃ c, directionBit c = some k := by
  interval_cases k
  exacts [⟨'N', rfl⟩, ⟨'E', rfl⟩, ⟨'S', rfl⟩, ⟨'W', rfl⟩, ⟨'U', rfl⟩, ⟨'D', rfl⟩]

theorem functionBit_surj (k : Nat) (h1 : 6 ≤ k) (h2 : k < 11) : ∃ c, functionBit c = some k := by
  interval_cases k
  exacts [⟨'I', rfl⟩, ⟨'W', rfl⟩, ⟨'F', rfl⟩, ⟨'A', rfl⟩, ⟨'T', rfl⟩]

theorem directionBit_ne (c : Char) (k : Nat) (h : directionBit c = some k) :
    c ≠ NUL ∧ c ≠ ':' := by
  have h1 : directionBit NUL = none := by decide
  have h2 : directionBit ':' = none := by decide
  constructor
  · rintro rfl; rw [h1] at h; cases h
  · rintro rfl; rw [h2] at h; cases h

theorem functionBit_ne (c : Char) (k : Nat) (h : functionBit c = some k) :
    c ≠ NUL ∧ c ≠ ':' := by
  have h1 : functionBit NUL = none := by decide
  have h2 : functionBit ':' = none := by decide
  constructor
  · rintro rfl; rw [h1] at h; cases h
  · rintro rfl; rw [h2] at h; cases h

theorem digits_of_nibble : ∀ n < 16,
    toUint8 (atoi (Nat.toDigits 10 n)) = n ∧
    (Nat.toDigits 10 n).length < CHUNK_BUFFER_SIZE ∧
    ∀ c ∈ Nat.toDigits 10 n, c ≠ NUL ∧ c ≠ ',' ∧ c ≠ ':' := by
  decide

set_option maxRecDepth 100000 in
theorem xy_of_position : ∀ xy < 256,
    (((0 ||| CALCULATE_LED_X (GET_LED_X ⟨xy, 0⟩)) % 256) |||
      CALCULATE_LED_Y (GET_LED_Y ⟨xy, 0⟩)) % 256 = xy := by
  decide

theorem roundtrip_flags (flags : Nat) (h : flags < 2048) :
    (collectCodes flags functionCodes functionMappings).foldl
      (fun flags c => applyMapping functionCodes functionMappings c flags)
      ((collectCodes flags directionCodes directionMappings).foldl
        (fun flags c => applyMapping directionCodes directionMappings c flags) 0) = flags := by
  apply Nat.eq_of_testBit_eq
  intro k
  rw [Bool.eq_iff_iff, parsed_flags_testBit]
  constructor
  · rintro (⟨c, hc, hk⟩ | ⟨c, hc, hk⟩)
    · obtain ⟨j, hj, ht⟩ := (mem_collect_directions flags c).mp hc
      rw [hk] at hj; cases hj; exact ht
    · obtain ⟨j, hj, ht⟩ := (mem_collect_functions flags c).mp hc
      rw [hk] at hj; cases hj; exact ht
  · intro ht
    have hk : k < 11 := by
      by_contra hge
      have h2 : flags < 2 ^ k :=
        Nat.lt_of_lt_of_le h (by
          have : (2:Nat) ^ 11 ≤ 2 ^ k := Nat.pow_le_pow_right (by decide) (by omega)
          simpa using this)
      rw [Nat.testBit_lt_two_pow h2] at ht
      cases ht
    rcases Nat.lt_or_ge k 6 with h6 | h6
    · obtain ⟨c, hc⟩ := directionBit_surj k h6
      exact Or.inl ⟨c, (mem_collect_directions flags c).mpr ⟨k, hc, ht⟩, hc⟩
    · obtain ⟨c, hc⟩ := functionBit_surj k h6 hk
      exact Or.inr ⟨c, (mem_collect_functions flags c).mpr ⟨k, hc, ht⟩, hc⟩

theorem collect_directions_short (flags : Nat)
    (h : ∃ k, k < 6 ∧ flags.testBit k = false) :
    (collectCodes flags directionCodes directionMappings).length < DIRECTION_COUNT := by
  obtain ⟨k, hk, ht⟩ := h
  obtain ⟨c, hc⟩ := directionBit_surj k hk
  apply length_collectCodes_lt
  refine ⟨c, 2 ^ k, (mem_zip_directions c _).mpr ⟨k, hc, rfl⟩, ?_⟩
  by_contra hne
  rw [(and_two_pow_ne_zero flags k).mp hne] at ht
  cases ht

theorem collect_functions_short (flags : Nat)
    (h : ∃ k, 6 ≤ k ∧ k < 11 ∧ flags.testBit k = false) :
    (collectCodes flags functionCodes functionMappings).length < FUNCTION_COUNT := by
  obtain ⟨k, hk1, hk2, ht⟩ := h
  obtain ⟨c, hc⟩ := functionBit_surj k hk1 hk2
  apply length_collectCodes_lt
  refine ⟨c, 2 ^ k, (mem_zip_functions c _).mpr ⟨k, hc, rfl⟩, ?_⟩
  by_contra hne
  rw [(and_two_pow_ne_zero flags k).mp hne] at ht
  cases ht

/-- Round trip where the arrays of the serialiser keep room for the
terminating NUL: for every entry with an
8-bit position and flags among the 11 known bits that lacks at least one
direction bit and at least one function bit, and for every valid index,
parsing the text that `generateLedConfig` emits returns success and leaves
the parsed entry equal to the entry, whatever the memory after the arrays
holds. -/
theorem generateLedConfig_parse_roundtrip (adjacent : Nat → List Char)
    (afterDirections afterFunctions : List Char) (st : LedState)
    (ledConfigs : Nat → ledConfig_t) (i ledIndex : Nat)
    (h : ledIndex < MAX_LED_STRIP_LENGTH)
    (hxy : (ledConfigs i).xy < 256) (hfl : (ledConfigs i).flags < 2048)
    (hD : ∃ k, k < 6 ∧ (ledConfigs i).flags.testBit k = false)
    (hF : ∃ k, 6 ≤ k ∧ k < 11 ∧ (ledConfigs i).flags.testBit k = false) :
    (parseLedStripConfig adjacent st ledIndex
      (generateLedConfig afterDirections afterFunctions ledConfigs i)).1 = true ∧
    (parseLedStripConfig adjacent st ledIndex
      (generateLedConfig afterDirections afterFunctions ledConfigs i)).2.ledConfigs ledIndex
      = ledConfigs i := by
  have hn : ¬ ledIndex ≥ MAX_LED_STRIP_LENGTH := by omega
  rcases hc : ledConfigs i with ⟨xy, flags⟩
  rw [hc] at hxy hfl hD hF
  simp only at hxy hfl hD hF
  have hdl := collect_directions_short flags hD
  have hfl2 := collect_functions_short flags hF
  have hdc : ∀ c ∈ collectCodes flags directionCodes directionMappings, c ≠ NUL ∧ c ≠ ':' := by
    intro c hc
    obtain ⟨k, hk, _⟩ := (mem_collect_directions flags c).mp hc
    exact directionBit_ne c k hk
  have hfc : ∀ c ∈ collectCodes flags functionCodes functionMappings, c ≠ NUL ∧ c ≠ ':' := by
    intro c hc
    obtain ⟨k, hk, _⟩ := (mem_collect_functions flags c).mp hc
    exact functionBit_ne c k hk
  obtain ⟨vx, lx, cx⟩ := digits_of_nibble (GET_LED_X ⟨xy, flags⟩) (GET_LED_X_lt _)
  obtain ⟨vy, ly, cy⟩ := digits_of_nibble (GET_LED_Y ⟨xy, flags⟩) (GET_LED_Y_lt _)
  have hgen : generateLedConfig afterDirections afterFunctions ledConfigs i =
      Nat.toDigits 10 (GET_LED_X ⟨xy, flags⟩) ++ [','] ++ Nat.toDigits 10 (GET_LED_Y ⟨xy, flags⟩)
        ++ [':'] ++ collectCodes flags directionCodes directionMappings ++ [':']
        ++ collectCodes flags functionCodes functionMappings := by
    unfold generateLedConfig
    simp only [hc]
    rw [cString_charArray_of_lt _ _ _ hdl (fun c hc => (hdc c hc).1),
      cString_charArray_of_lt _ _ _ hfl2 (fun c hc => (hfc c hc).1)]
  have hdf := descriptorFields_of_fields
    (Nat.toDigits 10 (GET_LED_X ⟨xy, flags⟩)) (Nat.toDigits 10 (GET_LED_Y ⟨xy, flags⟩))
    (collectCodes flags directionCodes directionMappings)
    (collectCodes flags functionCodes functionMappings)
    ⟨Nat.le_of_lt lx, fun c hc => ⟨(cx c hc).1, (cx c hc).2.1⟩⟩
    ⟨Nat.le_of_lt ly, fun c hc => ⟨(cy c hc).1, (cy c hc).2.2⟩⟩
    ⟨by have : DIRECTION_COUNT = 6 := rfl
        have : CHUNK_BUFFER_SIZE = 10 := rfl
        omega, hdc⟩
    ⟨by have : FUNCTION_COUNT = 5 := rfl
        have : CHUNK_BUFFER_SIZE = 10 := rfl
        omega, fun c hc => (hfc c hc).1⟩
  rw [← hgen] at hdf
  have hl := parseLoop_short_fields adjacent _ _ _ _ _ hdf lx ly
  simp only [parseLedStripConfig, hn, if_false, hl, reevalulateLedConfig_ledConfigs, setEntry,
    if_true]
  refine ⟨trivial, ?_⟩
  rw [vx, vy, roundtrip_flags flags hfl, GET_LED_X_flags, GET_LED_Y_flags, xy_of_position xy hxy]

/-- An instance of `generateLedConfig_parse_roundtrip`: LED 0 of the default
strip is written as `2,2:ES:IA` and parsed back to itself. -/
theorem generateLedConfig_parse_roundtrip_witness :
    generateLedConfig ['?'] ['?'] defaultState.ledConfigs 0 = "2,2:ES:IA".toList ∧
    (parseLedStripConfig noAdjacent defaultState 5
      (generateLedConfig ['?'] ['?'] defaultState.ledConfigs 0)).1 = true ∧
    (parseLedStripConfig noAdjacent defaultState 5
      (generateLedConfig ['?'] ['?'] defaultState.ledConfigs 0)).2.ledConfigs 5
      = defaultState.ledConfigs 0 :=
  ⟨by decide, generateLedConfig_parse_roundtrip noAdjacent ['?'] ['?'] defaultState
    defaultState.ledConfigs 0 5 (by decide) (by decide) (by decide)
    ⟨0, by decide, by decide⟩ ⟨7, by decide, by decide, by decide⟩⟩

/-! ### The field grammar, declaratively -/

theorem splitField_prefix (sep : Char) (text field rest : List Char)
    (h : splitField sep text = some (field, rest)) :
    ∃ r, text = field ++ r ∧ peek r = sep ∧ rest = r.tail := by
  unfold splitField at h
  simp only at h
  split at h
  · rename_i hp
    simp only [Option.some.injEq, Prod.mk.injEq] at h
    obtain ⟨h1, h2⟩ := h
    have hpre : field <+: text := by
      rw [← h1]
      exact (List.take_prefix _ _).trans (List.takeWhile_prefix _)
    have ht : List.take field.length text = field := (List.prefix_iff_eq_take.mp hpre).symm
    refine ⟨List.drop field.length text, ?_, ?_, ?_⟩
    · conv_lhs => rw [← List.take_append_drop field.length text, ht]
    · rw [← h1]; exact hp
    · rw [← h2, ← h1]
  · simp at h

theorem splitField_iff (sep : Char) (hsep : sep ≠ NUL) (text field rest : List Char) :
    splitField sep text = some (field, rest) ↔
      (text = field ++ sep :: rest ∧ field.length ≤ CHUNK_BUFFER_SIZE ∧
        ∀ c ∈ field, c ≠ NUL ∧ c ≠ sep) := by
  constructor
  · intro h
    obtain ⟨hl, hc⟩ := splitField_some sep text field rest h
    obtain ⟨r, e, hp, hr⟩ := splitField_prefix sep text field rest h
    refine ⟨?_, hl, hc⟩
    cases r with
    | nil => exact absurd hp.symm hsep
    | cons c r' =>
      simp only [peek] at hp
      simp only [List.tail_cons] at hr
      rw [e, hp, hr]
  · rintro ⟨rfl, hl, hc⟩
    exact splitField_append sep field rest hl hc

theorem splitField_NUL_iff (text field rest : List Char) :
    splitField NUL text = some (field, rest) ↔
      ((text = field ∧ rest = [] ∨ text = field ++ NUL :: rest) ∧
        field.length ≤ CHUNK_BUFFER_SIZE ∧ ∀ c ∈ field, c ≠ NUL) := by
  constructor
  · intro h
    obtain ⟨hl, hc⟩ := splitField_some NUL text field rest h
    obtain ⟨r, e, hp, hr⟩ := splitField_prefix NUL text field rest h
    refine ⟨?_, hl, fun c hcm => (hc c hcm).1⟩
    cases r with
    | nil => left; simp only [List.tail_nil] at hr; simp [e, hr]
    | cons c r' =>
      right
      simp only [peek] at hp
      simp only [List.tail_cons] at hr
      rw [e, hp, hr]
  · rintro ⟨(⟨rfl, rfl⟩ | rfl), hl, hc⟩
    · exact splitField_end _ hl hc
    · exact splitField_append NUL field rest hl (fun c hcm => ⟨hc c hcm, hc c hcm⟩)

/-- The field grammar in words: a text has the four fields `x`, `y`, `d`, `f`
exactly when it reads `x,y:d:f`, ends there (or holds a NUL byte there),
every field has at most ten characters, and no field holds its own
separator or a NUL byte. -/
theorem descriptorFields_iff (text x y d f : List Char) :
    descriptorFields text = some (x, y, d, f) ↔
      ((text = x ++ ',' :: (y ++ ':' :: (d ++ ':' :: f)) ∨
        ∃ tail, text = x ++ ',' :: (y ++ ':' :: (d ++ ':' :: (f ++ NUL :: tail)))) ∧
       (x.length ≤ CHUNK_BUFFER_SIZE ∧ ∀ c ∈ x, c ≠ NUL ∧ c ≠ ',') ∧
       (y.length ≤ CHUNK_BUFFER_SIZE ∧ ∀ c ∈ y, c ≠ NUL ∧ c ≠ ':') ∧
       (d.length ≤ CHUNK_BUFFER_SIZE ∧ ∀ c ∈ d, c ≠ NUL ∧ c ≠ ':') ∧
       (f.length ≤ CHUNK_BUFFER_SIZE ∧ ∀ c ∈ f, c ≠ NUL)) := by
  have hcomma : ',' ≠ NUL := by decide
  have hcolon : ':' ≠ NUL := by decide
  constructor
  · intro h
    unfold descriptorFields at h
    rcases h0 : splitField ',' text with _ | ⟨fx, r0⟩
    · simp [h0] at h
    rcases h1 : splitField ':' r0 with _ | ⟨fy, r1⟩
    · simp [h0, h1] at h
    rcases h2 : splitField ':' r1 with _ | ⟨fd, r2⟩
    · simp [h0, h1, h2] at h
    rcases h3 : splitField NUL r2 with _ | ⟨ff, r3⟩
    · simp [h0, h1, h2, h3] at h
    simp only [h0, h1, h2, h3, Option.some_bind, Option.map_some', Option.some.injEq,
      Prod.mk.injEq] at h
    obtain ⟨rfl, rfl, rfl, rfl⟩ := h
    obtain ⟨e0, l0, c0⟩ := (splitField_iff ',' hcomma _ _ _).mp h0
    obtain ⟨e1, l1, c1⟩ := (splitField_iff ':' hcolon _ _ _).mp h1
    obtain ⟨e2, l2, c2⟩ := (splitField_iff ':' hcolon _ _ _).mp h2
    obtain ⟨e3, l3, c3⟩ := (splitField_NUL_iff _ _ _).mp h3
    refine ⟨?_, ⟨l0, c0⟩, ⟨l1, c1⟩, ⟨l2, c2⟩, ⟨l3, c3⟩⟩
    rcases e3 with ⟨e3, _⟩ | e3
    · left; rw [e0, e1, e2, e3]
    · right; exact ⟨r3, by rw [e0, e1, e2, e3]⟩
  · rintro ⟨ht, ⟨l0, c0⟩, ⟨l1, c1⟩, ⟨l2, c2⟩, ⟨l3, c3⟩⟩
    unfold descriptorFields
    rcases ht with rfl | ⟨tail, rfl⟩
    · rw [splitField_append ',' x _ l0 c0]
      simp only [Option.some_bind]
      rw [splitField_append ':' y _ l1 c1]
      simp only [Option.some_bind]
      rw [splitField_append ':' d _ l2 c2]
      simp only [Option.some_bind]
      rw [splitField_end f l3 c3]
      rfl
    · rw [splitField_append ',' x _ l0 c0]
      simp only [Option.some_bind]
      rw [splitField_append ':' y _ l1 c1]
      simp only [Option.some_bind]
      rw [splitField_append ':' d _ l2 c2]
      simp only [Option.some_bind]
      rw [splitField_append NUL f _ l3 (fun c hc => ⟨c3 c hc, c3 c hc⟩)]
      rfl

/-- The loop of `parseLedStripConfig` ends on its own: from the first state,
more than `PARSE_STATE_COUNT` iterations give the result of
`PARSE_STATE_COUNT` iterations. -/
theorem parseLoop_enough (adjacent : Nat → List Char) (m : Nat) (config : List Char)
    (ledConfig : ledConfig_t) :
    parseLoop adjacent (PARSE_STATE_COUNT + m) X_COORDINATE config ledConfig =
      parseLoop adjacent PARSE_STATE_COUNT X_COORDINATE config ledConfig := by
  have e : PARSE_STATE_COUNT + m = m + 3 + 1 := by unfold PARSE_STATE_COUNT; omega
  rw [e]
  simp only [PARSE_STATE_COUNT, X_COORDINATE, parseLoop_succ]
  rcases splitField (chunkSeparators 0) config with _ | f0
  · rfl
  simp only [Nat.reduceAdd, Nat.reduceLeDiff, ge_iff_le, if_false]
  rcases splitField (chunkSeparators 1) f0.2 with _ | f1
  · rfl
  simp only [Nat.reduceAdd, Nat.reduceLeDiff, ge_iff_le, if_false]
  rcases splitField (chunkSeparators 2) f1.2 with _ | f2
  · rfl
  simp only [Nat.reduceAdd, Nat.reduceLeDiff, ge_iff_le, if_false]
  rcases splitField (chunkSeparators 3) f2.2 with _ | f3
  · rfl
  simp only [Nat.reduceAdd, Nat.reduceLeDiff, ge_iff_le, if_false, le_refl, if_true]

/-! ### Colour components -/

theorem digitsValue_append_stop : ∀ (ds : List Char) (acc : Nat) (c : Char) (rest : List Char),
    (∀ a ∈ ds, isdigit a = true) → isdigit c = false →
    digitsValue acc (ds ++ c :: rest) =
      ds.foldl (fun acc c => acc * 10 + (c.toNat - '0'.toNat)) acc := by
  intro ds
  induction ds with
  | nil => intro acc c rest _ hc; simp [digitsValue, hc]
  | cons d t ih =>
    intro acc c rest h hc
    have hd : isdigit d = true := h d (List.mem_cons_self _ _)
    simp only [List.cons_append, digitsValue, hd, if_true, List.foldl_cons]
    exact ih _ c rest (fun a ha => h a (List.mem_cons_of_mem _ ha)) hc

theorem atoi_digits_append (ds : List Char) (c : Char) (rest : List Char) (hne : ds ≠ [])
    (h : ∀ a ∈ ds, isdigit a = true) (hc : isdigit c = false)
    (hv : decimalValue ds < 2147483648) :
    atoi (ds ++ c :: rest) = (decimalValue ds : Int) := by
  cases ds with
  | nil => exact absurd rfl hne
  | cons d t =>
    have hd : isdigit d = true := h d (List.mem_cons_self _ _)
    have hs : isspace d = false := isspace_of_isdigit d hd
    have hm : d ≠ '-' := by intro e; subst e; revert hd; decide
    have hp : d ≠ '+' := by intro e; subst e; revert hd; decide
    unfold atoi
    rw [List.cons_append, List.dropWhile_cons_of_neg (by simp [hs])]
    simp only [hm, hp, if_false]
    rw [← List.cons_append, digitsValue_append_stop _ _ _ _ h hc]
    exact longToInt_saturateLong _ hv

theorem afterComma_digits_append : ∀ (ds rest : List Char), (∀ a ∈ ds, isdigit a = true) →
    afterComma (ds ++ ',' :: rest) = some rest := by
  intro ds
  induction ds with
  | nil => intro rest _; simp [afterComma]
  | cons d t ih =>
    intro rest h
    have hd : isdigit d = true := h d (List.mem_cons_self _ _)
    have hne : d ≠ ',' := by intro e; subst e; revert hd; decide
    simp only [List.cons_append, afterComma, hne, if_false]
    exact ih rest (fun a ha => h a (List.mem_cons_of_mem _ ha))

theorem afterComma_digits : ∀ (ds : List Char), (∀ a ∈ ds, isdigit a = true) →
    afterComma ds = none := by
  intro ds
  induction ds with
  | nil => intro _; rfl
  | cons d t ih =>
    intro h
    have hd : isdigit d = true := h d (List.mem_cons_self _ _)
    have hne : d ≠ ',' := by intro e; subst e; revert hd; decide
    simp only [afterComma, hne, if_false]
    exact ih (fun a ha => h a (List.mem_cons_of_mem _ ha))

theorem toUint16_natCast (n : Nat) : toUint16 (n : Int) = n % 65536 := by
  unfold toUint16; omega

theorem isdigit_ne_NUL (c : Char) (h : isdigit c = true) : c ≠ NUL := by
  intro e; subst e; revert h; decide

/-- Colour texts whose components fit 16 bits: for a colour text `H,S,V` of three decimal
components below 65536, `parseColor` returns success and stores exactly
(H, S, V) when H <= `HSV_HUE_MAX`, S <= 255 and V <= 255, and otherwise
returns failure and leaves the target palette entry all zero. -/
theorem parseColor_components (colors : Nat → hsvColor_t) (index : Nat) (H S V : List Char)
    (hH : H ≠ [] ∧ ∀ a ∈ H, isdigit a = true) (hS : S ≠ [] ∧ ∀ a ∈ S, isdigit a = true)
    (hV : V ≠ [] ∧ ∀ a ∈ V, isdigit a = true)
    (bH : decimalValue H < 65536) (bS : decimalValue S < 65536) (bV : decimalValue V < 65536) :
    (decimalValue H ≤ HSV_HUE_MAX ∧ decimalValue S ≤ HSV_SATURATION_MAX ∧
        decimalValue V ≤ HSV_VALUE_MAX →
      (parseColor colors index (H ++ [','] ++ S ++ [','] ++ V)).1 = true ∧
      (parseColor colors index (H ++ [','] ++ S ++ [','] ++ V)).2 index
        = ⟨decimalValue H, decimalValue S, decimalValue V⟩) ∧
    (¬ (decimalValue H ≤ HSV_HUE_MAX ∧ decimalValue S ≤ HSV_SATURATION_MAX ∧
        decimalValue V ≤ HSV_VALUE_MAX) →
      (parseColor colors index (H ++ [','] ++ S ++ [','] ++ V)).1 = false ∧
      (parseColor colors index (H ++ [','] ++ S ++ [','] ++ V)).2 index = ⟨0, 0, 0⟩) := by
  have hcomma : isdigit ',' = false := by decide
  have e : H ++ [','] ++ S ++ [','] ++ V = H ++ ',' :: (S ++ ',' :: V) := by simp
  have hnul : ∀ c ∈ H ++ ',' :: (S ++ ',' :: V), c ≠ NUL := by
    intro c hc
    simp only [List.mem_append, List.mem_cons] at hc
    rcases hc with hc | rfl | hc | rfl | hc
    · exact isdigit_ne_NUL c (hH.2 c hc)
    · decide
    · exact isdigit_ne_NUL c (hS.2 c hc)
    · decide
    · exact isdigit_ne_NUL c (hV.2 c hc)
  have a1 : toUint16 (atoi (H ++ ',' :: (S ++ ',' :: V))) = decimalValue H := by
    rw [atoi_digits_append H ',' _ hH.1 hH.2 hcomma (by omega), toUint16_natCast]; omega
  have a2 : toUint16 (atoi (S ++ ',' :: V)) = decimalValue S := by
    rw [atoi_digits_append S ',' _ hS.1 hS.2 hcomma (by omega), toUint16_natCast]; omega
  have a3 : toUint16 (atoi V) = decimalValue V := by
    rw [atoi_of_digits V hV.1 hV.2 (by omega), toUint16_natCast]; omega
  have c1 := afterComma_digits_append H (S ++ ',' :: V) hH.2
  have c2 := afterComma_digits_append S V hS.2
  have c3 := afterComma_digits V hV.2
  rw [e]
  unfold parseColor
  rw [cString_self _ hnul]
  simp only [HSV_COLOR_COMPONENT_COUNT, parseColorLoop, a1, a2, a3, c1, c2, c3]
  simp only [true_and, false_and, if_true, if_false, OfNat.ofNat_ne_zero, OfNat.ofNat_ne_one,
    one_ne_zero, zero_ne_one, Nat.lt_irrefl, reduceCtorEq, Nat.reduceEqDiff, Nat.zero_add,
    Nat.reduceAdd, setEntry, gt_iff_lt]
  have m2 : HSV_SATURATION_MAX = 255 := rfl
  have m3 : HSV_VALUE_MAX = 255 := rfl
  by_cases g1 : HSV_HUE_MAX < decimalValue H
  · simp [g1]
  by_cases g2 : HSV_SATURATION_MAX < decimalValue S
  · simp [g1, g2]
  by_cases g3 : HSV_VALUE_MAX < decimalValue V
  · simp [g1, g2, g3]
  · have k2 : decimalValue S % 256 = decimalValue S := by omega
    have k3 : decimalValue V % 256 = decimalValue V := by omega
    simp [g1, g2, g3, k2, k3]

/-- An instance of `parseColor_components`: `359,255,255` is stored, the hue
bound being inclusive. -/
theorem parseColor_components_witness :
    (parseColor defaultColors 3 "359,255,255".toList).1 = true ∧
    (parseColor defaultColors 3 "359,255,255".toList).2 3 = ⟨359, 255, 255⟩ :=
  (parseColor_components defaultColors 3 ['3', '5', '9'] ['2', '5', '5'] ['2', '5', '5']
    (by decide) (by decide) (by decide) (by decide) (by decide) (by decide)).1 (by decide)

/-- Colour components beyond the range of `int`: a hue of 2^32 + 1 fits a
`long`, its low 32 bits are 1 and it is stored as hue 1; a hue of 2^64 + 1 is
saturated to `LONG_MAX`, which reads -1 as an `int` and 65535 as a
`uint16_t`, and the colour is rejected. -/
theorem parseColor_beyond_int :
    atoi "4294967297".toList = 1 ∧
    (parseColor defaultColors 3 "4294967297,0,0".toList).1 = true ∧
    (parseColor defaultColors 3 "4294967297,0,0".toList).2 3 = ⟨1, 0, 0⟩ ∧
    atoi "18446744073709551617".toList = -1 ∧
    (parseColor defaultColors 3 "18446744073709551617,0,0".toList).1 = false ∧
    (parseColor defaultColors 3 "18446744073709551617,0,0".toList).2 3 = ⟨0, 0, 0⟩ := by
  decide

/-! ## Loops over the LEDs -/

theorem forEachLed_spec (body : (Nat → hsvColor_t) → Nat → (Nat → hsvColor_t))
    (hother : ∀ leds i j, j ≠ i → body leds i j = leds j)
    (hcongr : ∀ leds leds2 i, leds i = leds2 i → body leds i i = body leds2 i i) :
    ∀ (n k : Nat) (leds : Nat → hsvColor_t) (i : Nat),
      forEachLed body n k leds i = if k ≤ i ∧ i < k + n then body leds i i else leds i := by
  intro n
  induction n with
  | zero =>
    intro k leds i
    have : ¬ (k ≤ i ∧ i < k + 0) := by omega
    rw [forEachLed, if_neg this]
  | succ n ih =>
    intro k leds i
    rw [forEachLed, ih]
    by_cases hk : i = k
    · subst hk
      have h1 : ¬ (i + 1 ≤ i ∧ i < i + 1 + n) := by omega
      have h2 : i ≤ i ∧ i < i + (n + 1) := by omega
      rw [if_neg h1, if_pos h2]
    · rw [hother leds k i hk]
      by_cases hr : k + 1 ≤ i ∧ i < k + 1 + n
      · have h2 : k ≤ i ∧ i < k + (n + 1) := by omega
        rw [if_pos hr, if_pos h2]
        exact hcongr _ _ _ (hother leds k i hk)
      · have h2 : ¬ (k ≤ i ∧ i < k + (n + 1)) := by omega
        rw [if_neg hr, if_neg h2]

theorem forEachLed_id (body : (Nat → hsvColor_t) → Nat → (Nat → hsvColor_t))
    (hid : ∀ leds i, body leds i = leds) :
    ∀ (n k : Nat) (leds : Nat → hsvColor_t), forEachLed body n k leds = leds := by
  intro n
  induction n with
  | zero => intro k leds; rfl
  | succ n ih => intro k leds; rw [forEachLed, hid, ih]

/-! ## Directional colouring -/

theorem lastMatching_six (b1 b2 b3 b4 b5 b6 : Bool) (c1 c2 c3 c4 c5 c6 : Nat) :
    lastMatching [(b1, c1), (b2, c2), (b3, c3), (b4, c4), (b5, c5), (b6, c6)] =
      if b6 then some c6 else if b5 then some c5 else if b4 then some c4
      else if b3 then some c3 else if b2 then some c2 else if b1 then some c1 else none := by
  cases b1 <;> cases b2 <;> cases b3 <;> cases b4 <;> cases b5 <;> cases b6 <;> rfl

/-! ## Warning layer -/

theorem applyLedWarningLayerStep_other (st : LedState) (c ws wf : Nat) (leds : Nat → hsvColor_t)
    (i j : Nat) (h : j ≠ i) : applyLedWarningLayerStep st c ws wf leds i j = leds j := by
  unfold applyLedWarningLayerStep
  simp only []
  split
  · rfl
  · split <;> simp only [ite_setLedHsv_other _ _ _ _ _ h]

theorem applyLedWarningLayerStep_self (st : LedState) (c ws wf : Nat) (leds : Nat → hsvColor_t)
    (i : Nat) (hw : (st.ledConfigs i).flags &&& LED_FUNCTION_WARNING ≠ 0) (hc : c < 4) :
    applyLedWarningLayerStep st c ws wf leds i i =
      (warningColor (decide (ws = 0)) c wf).getD (leds i) := by
  unfold applyLedWarningLayerStep warningColor
  simp only []
  rw [if_neg (not_not_intro hw)]
  by_cases hws : ws = 0
  · rw [if_pos hws]
    simp only [ite_setLedHsv_self, hws, decide_True, if_true]
    interval_cases c <;> simp <;> split <;> rfl
  · rw [if_neg hws]
    simp only [ite_setLedHsv_self, hws, decide_False]
    interval_cases c <;> simp <;> split <;> rfl

theorem applyLedWarningLayerStep_skip (st : LedState) (c ws wf : Nat) (leds : Nat → hsvColor_t)
    (i : Nat) (hw : ¬ (st.ledConfigs i).flags &&& LED_FUNCTION_WARNING ≠ 0) :
    applyLedWarningLayerStep st c ws wf leds i = leds := by
  unfold applyLedWarningLayerStep
  simp only []
  rw [if_pos hw]

theorem applyLedWarningLayerStep_congr (st : LedState) (c ws wf : Nat)
    (leds leds2 : Nat → hsvColor_t) (i : Nat) (h : leds i = leds2 i) :
    applyLedWarningLayerStep st c ws wf leds i i = applyLedWarningLayerStep st c ws wf leds2 i i := by
  unfold applyLedWarningLayerStep
  simp only []
  split
  · exact h
  · split <;> simp only [ite_setLedHsv_self, h]

theorem advanceWarningFlashCounter_lt (c ws : Nat) (hc : c < 4) :
    advanceWarningFlashCounter c ws < 4 := by
  unfold advanceWarningFlashCounter
  split
  · exact Nat.mod_lt _ (by decide)
  · exact hc

/-! ## Throttle layer -/

theorem throttleHueOffset_eq (throttle : Int) (hmin : PWM_RANGE_MIN ≤ throttle) :
    throttleHueOffset throttle =
      -60 + (120 * (throttle - PWM_RANGE_MIN)) / (PWM_RANGE_MAX - PWM_RANGE_MIN) := by
  unfold throttleHueOffset scaleRange
  unfold PWM_RANGE_MIN at hmin
  simp only [PWM_RANGE_MIN, PWM_RANGE_MAX]
  rw [Int.tdiv_eq_ediv (by omega) (by omega)]
  omega

theorem applyLedThrottleLayerStep_other (st : LedState) (t : Int) (leds : Nat → hsvColor_t)
    (i j : Nat) (h : j ≠ i) : applyLedThrottleLayerStep st t leds i j = leds j := by
  unfold applyLedThrottleLayerStep
  split
  · rfl
  · simp [setLedHsv, setEntry, h]

theorem applyLedThrottleLayerStep_congr (st : LedState) (t : Int)
    (leds leds2 : Nat → hsvColor_t) (i : Nat) (h : leds i = leds2 i) :
    applyLedThrottleLayerStep st t leds i i = applyLedThrottleLayerStep st t leds2 i i := by
  unfold applyLedThrottleLayerStep
  split
  · exact h
  · simp [setLedHsv, setEntry, getLedHsv, h]

theorem applyLedThrottleLayerStep_self (st : LedState) (t : Int) (leds : Nat → hsvColor_t)
    (i : Nat) (hf : (st.ledConfigs i).flags &&& LED_FUNCTION_THROTTLE ≠ 0) :
    applyLedThrottleLayerStep st t leds i i =
      { leds i with
        h := toUint16 (Int.tmod (throttleHueOffset t + (HSV_HUE_MAX : Int)) (HSV_HUE_MAX : Int)) } := by
  unfold applyLedThrottleLayerStep
  rw [if_neg (not_not_intro hf)]
  simp [setLedHsv, setEntry, getLedHsv, throttleHueOffset]

/-! ## Indicator layer -/

theorem applyQuadrantColor_eq (st : LedState) (leds : Nat → hsvColor_t) (i : Nat)
    (c : ledConfig_t) (q : quadrant_e) (color : hsvColor_t) :
    applyQuadrantColor st leds i c q color =
      if inQuadrant st c q = true then setLedHsv leds i color else leds := by
  cases q <;> simp [applyQuadrantColor, inQuadrant]

theorem indicatorStage_other (c : Prop) [Decidable c] (q1 q2 : Bool) (leds : Nat → hsvColor_t)
    (i : Nat) (color : hsvColor_t) (j : Nat) (h : j ≠ i) :
    (if c then
        (if q2 = true then setLedHsv (if q1 = true then setLedHsv leds i color else leds) i color
          else (if q1 = true then setLedHsv leds i color else leds))
      else leds) j = leds j := by
  by_cases hc : c <;> cases q1 <;> cases q2 <;> simp [hc, setLedHsv, setEntry, h]

theorem applyLedIndicatorLayerStep_other (st : LedState) (roll pitch : Int) (color : hsvColor_t)
    (leds : Nat → hsvColor_t) (i j : Nat) (h : j ≠ i) :
    applyLedIndicatorLayerStep st roll pitch color leds i j = leds j := by
  unfold applyLedIndicatorLayerStep
  simp only [applyQuadrantColor_eq]
  by_cases hf : ¬ (st.ledConfigs i).flags &&& LED_FUNCTION_INDICATOR ≠ 0
  · rw [if_pos hf]
  · rw [if_neg hf]
    rw [indicatorStage_other _ _ _ _ _ _ _ h, indicatorStage_other _ _ _ _ _ _ _ h,
      indicatorStage_other _ _ _ _ _ _ _ h, indicatorStage_other _ _ _ _ _ _ _ h]

theorem indicatorStage (c : Prop) [Decidable c] (q1 q2 : Bool) (leds : Nat → hsvColor_t)
    (i : Nat) (color : hsvColor_t) :
    (if c then
        (if q2 = true then setLedHsv (if q1 = true then setLedHsv leds i color else leds) i color
          else (if q1 = true then setLedHsv leds i color else leds))
      else leds) i = if (decide c && (q1 || q2)) = true then color else leds i := by
  by_cases hc : c <;> cases q1 <;> cases q2 <;> simp [hc, setLedHsv, setEntry]

theorem ite_or_same {α : Type} (a b : Bool) (x y : α) :
    (if a = true then x else if b = true then x else y) = if (a || b) = true then x else y := by
  cases a <;> cases b <;> rfl

theorem indicatorSelection : ∀ r1 r2 p1 p2 ne se sw nw : Bool,
    ((((p2 && (se || sw)) || (p1 && (ne || nw))) || (r2 && (nw || sw))) || (r1 && (ne || se))) =
    (((r1 || p1) && ne) || (((r1 || p2) && se) || (((r2 || p2) && sw) || ((r2 || p1) && nw)))) := by
  decide

theorem applyLedIndicatorLayerStep_self (st : LedState) (roll pitch : Int) (color : hsvColor_t)
    (leds : Nat → hsvColor_t) (i : Nat)
    (hf : (st.ledConfigs i).flags &&& LED_FUNCTION_INDICATOR ≠ 0) :
    applyLedIndicatorLayerStep st roll pitch color leds i i =
      if inSelectedQuadrant st (st.ledConfigs i) roll pitch = true then color else leds i := by
  unfold applyLedIndicatorLayerStep inSelectedQuadrant
  simp only [applyQuadrantColor_eq]
  rw [if_neg (not_not_intro hf)]
  rw [indicatorStage, indicatorStage, indicatorStage, indicatorStage]
  rw [ite_or_same, ite_or_same, ite_or_same, indicatorSelection]
  simp only [List.any_cons, List.any_nil, quadrantSelected, Bool.or_false, Bool.decide_or]

theorem applyLedIndicatorLayerStep_congr (st : LedState) (roll pitch : Int) (color : hsvColor_t)
    (leds leds2 : Nat → hsvColor_t) (i : Nat) (h : leds i = leds2 i) :
    applyLedIndicatorLayerStep st roll pitch color leds i i =
      applyLedIndicatorLayerStep st roll pitch color leds2 i i := by
  by_cases hf : (st.ledConfigs i).flags &&& LED_FUNCTION_INDICATOR ≠ 0
  · rw [applyLedIndicatorLayerStep_self _ _ _ _ _ _ hf,
      applyLedIndicatorLayerStep_self _ _ _ _ _ _ hf, h]
  · unfold applyLedIndicatorLayerStep
    rw [if_pos hf, if_pos hf]
    exact h

theorem applyLedIndicatorLayerStep_deadband (st : LedState) (roll pitch : Int)
    (color : hsvColor_t) (leds : Nat → hsvColor_t) (i : Nat)
    (hr : -50 ≤ roll ∧ roll ≤ 50) (hp : -50 ≤ pitch ∧ pitch ≤ 50) :
    applyLedIndicatorLayerStep st roll pitch color leds i = leds := by
  have r1 : ¬ roll > 50 := by omega
  have r2 : ¬ roll < -50 := by omega
  have p1 : ¬ pitch > 50 := by omega
  have p2 : ¬ pitch < -50 := by omega
  unfold applyLedIndicatorLayerStep
  simp only [r1, r2, p1, p2, if_false, ite_self]

/-! ## Update scheduler -/

theorem updateLedAnimationState_some (s : StripState) (h : s.led.ledGridHeight ≠ 0) :
    ∃ s', updateLedAnimationState s = some s' ∧
      s'.led = s.led ∧ s'.leds = s.leds ∧
      s'.ledStripInitialised = s.ledStripInitialised ∧
      s'.nextAnimationUpdateAt = s.nextAnimationUpdateAt ∧
      s'.nextIndicatorFlashAt = s.nextIndicatorFlashAt ∧
      s'.nextWarningFlashAt = s.nextWarningFlashAt ∧
      s'.indicatorFlashState = s.indicatorFlashState ∧
      s'.warningState = s.warningState ∧ s'.warningFlags = s.warningFlags ∧
      s'.warningFlashCounter = s.warningFlashCounter ∧
      s'.transmitCount = s.transmitCount := by
  unfold updateLedAnimationState
  simp only []
  rw [if_neg h]
  exact ⟨_, rfl, rfl, rfl, rfl, rfl, rfl, rfl, rfl, rfl, rfl, rfl, rfl⟩

theorem updateLedAnimationState_eq_some (s s' : StripState)
    (h : updateLedAnimationState s = some s') :
    s.led.ledGridHeight ≠ 0 ∧
      s'.led = s.led ∧ s'.leds = s.leds ∧
      s'.ledStripInitialised = s.ledStripInitialised ∧
      s'.nextAnimationUpdateAt = s.nextAnimationUpdateAt ∧
      s'.nextIndicatorFlashAt = s.nextIndicatorFlashAt ∧
      s'.nextWarningFlashAt = s.nextWarningFlashAt ∧
      s'.indicatorFlashState = s.indicatorFlashState ∧
      s'.warningState = s.warningState ∧ s'.warningFlags = s.warningFlags ∧
      s'.warningFlashCounter = s.warningFlashCounter ∧
      s'.transmitCount = s.transmitCount := by
  by_cases hz : s.led.ledGridHeight = 0
  · unfold updateLedAnimationState at h
    simp only [hz, if_true] at h
    cases h
  · obtain ⟨t, ht, rest⟩ := updateLedAnimationState_some s hz
    rw [ht] at h
    cases h
    exact ⟨hz, rest⟩

/-- The state variables of the warning and indicator machinery after a frame
that `updateLedStrip` processes and completes. -/
theorem updateLedStrip_processed (inp : FrameInputs) (s s' : StripState)
    (hinit : s.ledStripInitialised = true) (hready : inp.isWS2811LedStripReady = true)
    (hany : deadlineElapsed inp.micros s.nextWarningFlashAt = true ∨
      deadlineElapsed inp.micros s.nextIndicatorFlashAt = true ∨
      deadlineElapsed inp.micros s.nextAnimationUpdateAt = true)
    (h : updateLedStrip inp s = some s') :
    s'.nextIndicatorFlashAt =
      (if deadlineElapsed inp.micros s.nextIndicatorFlashAt = true
        then (inp.micros + indicatorInterval inp.rcCommandRoll inp.rcCommandPitch) % 4294967296
        else s.nextIndicatorFlashAt) ∧
    s'.indicatorFlashState =
      (if deadlineElapsed inp.micros s.nextIndicatorFlashAt = true
        then (if s.indicatorFlashState = 0 then 1 else 0) else s.indicatorFlashState) ∧
    s'.warningState =
      (if deadlineElapsed inp.micros s.nextWarningFlashAt = true
        then (if s.warningState = 0 then 1 else 0) else s.warningState) ∧
    s'.warningFlags =
      (if deadlineElapsed inp.micros s.nextWarningFlashAt = true ∧ s.warningState = 0
        then sampleWarningFlags inp else s.warningFlags) ∧
    s'.warningFlashCounter =
      (if s'.warningFlags ≠ 0 then advanceWarningFlashCounter s.warningFlashCounter s'.warningState
        else s.warningFlashCounter) ∧
    s'.transmitCount = s.transmitCount + 1 := by
  unfold updateLedStrip at h
  have h1 : ¬ ¬ (s.ledStripInitialised = true ∧ inp.isWS2811LedStripReady = true) :=
    not_not_intro ⟨hinit, hready⟩
  rw [if_neg h1] at h
  simp only [] at h
  rw [if_neg (not_not_intro hany)] at h
  rw [Option.map_eq_some'] at h
  obtain ⟨s5, h5, rfl⟩ := h
  have hcount : ∀ (leds2 : Nat → hsvColor_t) (ws wf : Nat),
      (if wf ≠ 0 then applyLedWarningLayer s.led leds2 s.warningFlashCounter ws wf
        else (leds2, s.warningFlashCounter)).2 =
      if wf ≠ 0 then advanceWarningFlashCounter s.warningFlashCounter ws
        else s.warningFlashCounter := by
    intro leds2 ws wf
    split <;> rfl
  by_cases ha : deadlineElapsed inp.micros s.nextAnimationUpdateAt = true
  · rw [if_pos ha] at h5
    obtain ⟨_, _, _, _, _, e1, _, e2, e3, e4, e5, e6⟩ := updateLedAnimationState_eq_some _ _ h5
    simp only [e1, e2, e3, e4, e5, e6, hcount]
    exact ⟨trivial, trivial, trivial, trivial, trivial, trivial⟩
  · rw [if_neg ha] at h5
    cases h5
    simp only [hcount]
    exact ⟨trivial, trivial, trivial, trivial, trivial, trivial⟩

theorem updateLedStrip_completes (inp : FrameInputs) (s : StripState)
    (h : s.led.ledGridHeight ≠ 0 ∨ deadlineElapsed inp.micros s.nextAnimationUpdateAt = false) :
    ∃ s', updateLedStrip inp s = some s' := by
  unfold updateLedStrip
  by_cases h1 : ¬ (s.ledStripInitialised = true ∧ inp.isWS2811LedStripReady = true)
  · rw [if_pos h1]; exact ⟨s, rfl⟩
  rw [if_neg h1]
  simp only []
  by_cases h2 : ¬ (deadlineElapsed inp.micros s.nextWarningFlashAt = true ∨
      deadlineElapsed inp.micros s.nextIndicatorFlashAt = true ∨
      deadlineElapsed inp.micros s.nextAnimationUpdateAt = true)
  · rw [if_pos h2]; exact ⟨s, rfl⟩
  rw [if_neg h2]
  by_cases ha : deadlineElapsed inp.micros s.nextAnimationUpdateAt = true
  · rw [if_pos ha]
    rcases h with h | h
    · unfold updateLedAnimationState
      simp only []
      rw [if_neg h]
      exact ⟨_, rfl⟩
    · rw [h] at ha; cases ha
  · rw [if_neg ha]
    exact ⟨_, rfl⟩

theorem updateLedStrip_not_running (inp : FrameInputs) (s : StripState)
    (h : ¬ (s.ledStripInitialised = true ∧ inp.isWS2811LedStripReady = true)) :
    updateLedStrip inp s = some s := by
  unfold updateLedStrip
  rw [if_pos h]

theorem updateLedStrip_idle (inp : FrameInputs) (s : StripState)
    (ha : deadlineElapsed inp.micros s.nextAnimationUpdateAt = false)
    (hi : deadlineElapsed inp.micros s.nextIndicatorFlashAt = false)
    (hw : deadlineElapsed inp.micros s.nextWarningFlashAt = false) :
    updateLedStrip inp s = some s := by
  unfold updateLedStrip
  split
  · rfl
  · simp only [ha, hi, hw]
    rfl

theorem indicatorInterval_eq (roll pitch : Int) (hr : roll.natAbs < 12800)
    (hp : pitch.natAbs < 12800) :
    indicatorInterval roll pitch = 200000 / max 1 (max roll.natAbs pitch.natAbs / 50) := by
  unfold indicatorInterval
  have e1 : roll.natAbs / 50 % 256 = roll.natAbs / 50 := by omega
  have e2 : pitch.natAbs / 50 % 256 = pitch.natAbs / 50 := by omega
  have e3 : max (roll.natAbs / 50) (pitch.natAbs / 50) = max roll.natAbs pitch.natAbs / 50 := by
    rcases Nat.le_total roll.natAbs pitch.natAbs with hle | hle
    · rw [Nat.max_eq_right hle, Nat.max_eq_right (Nat.div_le_div_right hle)]
    · rw [Nat.max_eq_left hle, Nat.max_eq_left (Nat.div_le_div_right hle)]
  simp only [e1, e2, e3]
  rfl

/-! ## Over-long fields, middle lines, active count -/

theorem splitField_none_of_long (sep : Char) (text : List Char)
    (h : CHUNK_BUFFER_SIZE < (fieldRun sep text).length) : splitField sep text = none := by
  unfold fieldRun at h
  unfold splitField
  simp only []
  have hlen : (List.take CHUNK_BUFFER_SIZE
      (List.takeWhile (fun c => c != NUL && c != sep) text)).length = CHUNK_BUFFER_SIZE := by
    rw [List.length_take]; omega
  rw [hlen]
  have hsplit : text = List.takeWhile (fun c => c != NUL && c != sep) text ++
      List.dropWhile (fun c => c != NUL && c != sep) text :=
    (List.takeWhile_append_dropWhile _ _).symm
  have hdrop : List.drop CHUNK_BUFFER_SIZE text =
      List.drop CHUNK_BUFFER_SIZE (List.takeWhile (fun c => c != NUL && c != sep) text) ++
        List.dropWhile (fun c => c != NUL && c != sep) text := by
    conv_lhs => rw [hsplit]
    rw [List.drop_append_of_le_length (Nat.le_of_lt h)]
  rw [hdrop]
  have hne : List.drop CHUNK_BUFFER_SIZE
      (List.takeWhile (fun c => c != NUL && c != sep) text) ≠ [] := by
    intro e
    have := congrArg List.length e
    rw [List.length_drop, List.length_nil] at this
    omega
  rcases hd : List.drop CHUNK_BUFFER_SIZE
      (List.takeWhile (fun c => c != NUL && c != sep) text) with _ | ⟨c, r⟩
  · exact absurd hd hne
  · have hmem : c ∈ List.takeWhile (fun c => c != NUL && c != sep) text :=
      List.mem_of_mem_drop (by rw [hd]; exact List.mem_cons_self _ _)
    have hp := List.mem_takeWhile_imp hmem
    simp only [Bool.and_eq_true, bne_iff_ne, ne_eq] at hp
    simp only [List.cons_append, peek]
    rw [if_neg]
    intro e
    rcases Classical.em (sep = NUL) with hs | hs
    · exact hp.1 (e.trans hs)
    · exact hp.2 e

theorem descriptorFields_none_of_overlong (text : List Char)
    (h : hasOverlongField text = true) : descriptorFields text = none := by
  unfold hasOverlongField at h
  unfold descriptorFields
  rw [overlongFieldFrom, Bool.or_eq_true, decide_eq_true_eq] at h
  rcases h with h | h
  · rw [splitField_none_of_long _ _ h]; rfl
  rcases h0 : splitField ',' text with _ | f0
  · rfl
  rw [h0] at h
  simp only [Option.some_bind] at h ⊢
  rw [overlongFieldFrom, Bool.or_eq_true, decide_eq_true_eq] at h
  rcases h with h | h
  · rw [splitField_none_of_long _ _ h]; rfl
  rcases h1 : splitField ':' f0.2 with _ | f1
  · rfl
  rw [h1] at h
  simp only [Option.some_bind] at h ⊢
  rw [overlongFieldFrom, Bool.or_eq_true, decide_eq_true_eq] at h
  rcases h with h | h
  · rw [splitField_none_of_long _ _ h]; rfl
  rcases h2 : splitField ':' f1.2 with _ | f2
  · rfl
  rw [h2] at h
  simp only [Option.some_bind] at h ⊢
  rw [overlongFieldFrom, Bool.or_eq_true, decide_eq_true_eq] at h
  rcases h with h | h
  · rw [splitField_none_of_long _ _ h]; rfl
  rcases h3 : splitField NUL f2.2 with _ | f3
  · rfl
  rw [h3] at h
  simp [overlongFieldFrom] at h

theorem parseLedStripConfig_of_no_fields (adjacent : Nat → List Char) (st : LedState)
    (ledIndex : Nat) (config : List Char) (h : ledIndex < MAX_LED_STRIP_LENGTH)
    (hm : descriptorFields config = none) :
    (parseLedStripConfig adjacent st ledIndex config).1 = false ∧
    (parseLedStripConfig adjacent st ledIndex config).2.ledConfigs ledIndex = ⟨0, 0⟩ := by
  have hn : ¬ ledIndex ≥ MAX_LED_STRIP_LENGTH := by omega
  have hl := parseLoop_descriptor adjacent config
  rw [hm] at hl
  have hf : (parseLoop adjacent PARSE_STATE_COUNT X_COORDINATE config ⟨0, 0⟩).1 = false := by
    rw [hl]
  simp only [parseLedStripConfig, hn, if_false, hf, reevalulateLedConfig_ledConfigs, setEntry]
  simp

theorem determineOrientationLimits_eq (st : LedState) (hw : st.ledGridWidth < 256)
    (hh : st.ledGridHeight < 256) :
    (determineOrientationLimits st).highestYValueForNorth =
      (if 2 ≤ st.ledGridHeight then st.ledGridHeight / 2 - 1 else 255) ∧
    (determineOrientationLimits st).lowestYValueForSouth =
      st.ledGridHeight / 2 + (if st.ledGridHeight % 2 = 1 then 1 else 0) ∧
    (determineOrientationLimits st).highestXValueForWest =
      (if 2 ≤ st.ledGridWidth then st.ledGridWidth / 2 - 1 else 255) ∧
    (determineOrientationLimits st).lowestXValueForEast =
      st.ledGridWidth / 2 + (if st.ledGridWidth % 2 = 1 then 1 else 0) := by
  have e1 : ∀ n : Nat, n &&& 1 = n % 2 := fun n => Nat.and_pow_two_sub_one_eq_mod n 1
  simp only [determineOrientationLimits, toUint8, e1]
  refine ⟨?_, ?_, ?_, ?_⟩
  · split <;> omega
  · rcases Nat.mod_two_eq_zero_or_one st.ledGridHeight with h | h <;> simp [h] <;> omega
  · split <;> omega
  · rcases Nat.mod_two_eq_zero_or_one st.ledGridWidth with h | h <;> simp [h] <;> omega

theorem updateLedCountLoop_spec (ledConfigs : Nat → ledConfig_t) :
    ∀ (n i c : Nat), c + n ≤ 255 →
      c ≤ updateLedCountLoop ledConfigs n i c ∧
      updateLedCountLoop ledConfigs n i c ≤ c + n ∧
      (∀ k, k < updateLedCountLoop ledConfigs n i c - c → ¬ isZeroEntry (ledConfigs (i + k))) ∧
      (updateLedCountLoop ledConfigs n i c - c < n →
        isZeroEntry (ledConfigs (i + (updateLedCountLoop ledConfigs n i c - c)))) := by
  intro n
  induction n with
  | zero =>
    intro i c _
    simp [updateLedCountLoop]
  | succ n ih =>
    intro i c hc
    unfold updateLedCountLoop
    by_cases hz : (ledConfigs i).flags = 0 ∧ (ledConfigs i).xy = 0
    · rw [if_pos hz]
      refine ⟨Nat.le_refl _, by omega, ?_, ?_⟩
      · intro k hk; omega
      · intro _
        simpa [isZeroEntry] using hz
    · rw [if_neg hz]
      have hm : (c + 1) % 256 = c + 1 := by omega
      rw [hm]
      obtain ⟨a1, a2, a3, a4⟩ := ih (i + 1) (c + 1) (by omega)
      refine ⟨by omega, by omega, ?_, ?_⟩
      · intro k hk
        rcases Nat.eq_zero_or_pos k with rfl | hpos
        · simpa [isZeroEntry] using hz
        · have := a3 (k - 1) (by omega)
          have e : i + 1 + (k - 1) = i + k := by omega
          rwa [e] at this
      · intro hlt
        have := a4 (by omega)
        have e : i + 1 + (updateLedCountLoop ledConfigs n (i + 1) (c + 1) - (c + 1)) =
            i + (updateLedCountLoop ledConfigs n (i + 1) (c + 1) - c) := by omega
        rwa [e] at this

theorem updateLedCount_spec (st : LedState) :
    (updateLedCount st).ledCount ≤ MAX_LED_STRIP_LENGTH ∧
    (∀ i, i < (updateLedCount st).ledCount → ¬ isZeroEntry (st.ledConfigs i)) ∧
    ((updateLedCount st).ledCount < MAX_LED_STRIP_LENGTH →
      isZeroEntry (st.ledConfigs (updateLedCount st).ledCount)) := by
  obtain ⟨_, a2, a3, a4⟩ := updateLedCountLoop_spec st.ledConfigs MAX_LED_STRIP_LENGTH 0 0
    (by decide)
  simp only [Nat.zero_add, Nat.sub_zero] at a2 a3 a4
  exact ⟨a2, a3, a4⟩

theorem reevalulateLedConfig_ledCount (st : LedState) :
    (reevalulateLedConfig st).ledCount = (updateLedCount st).ledCount := rfl

/-! ## Arm state, deadlines, animation tick, disjoint halves -/

theorem applyLedModeLayerStep_armState (inp : ModeInputs) (st : LedState)
    (leds : Nat → hsvColor_t) (i : Nat)
    (hf : (st.ledConfigs i).flags &&& LED_FUNCTION_FLIGHT_MODE = 0) :
    applyLedModeLayerStep inp st leds i i =
      if (st.ledConfigs i).flags &&& LED_FUNCTION_ARM_STATE ≠ 0
      then (if inp.ARMED = true then hsv_blue else hsv_green) else hsv_black := by
  unfold applyLedModeLayerStep
  simp only []
  rw [if_pos (by simpa using hf)]
  by_cases ha : (st.ledConfigs i).flags &&& LED_FUNCTION_ARM_STATE ≠ 0
  · rw [if_pos ha, if_pos ha]
    by_cases hr : inp.ARMED = true
    · rw [if_neg (not_not_intro hr), if_pos hr]; simp [setLedHsv, setEntry]
    · rw [if_pos hr, if_neg hr]; simp [setLedHsv, setEntry]
  · rw [if_neg ha, if_neg ha]; simp [setLedHsv, setEntry]

theorem deadlineElapsed_iff (now deadline : Nat) (hn : now < 4294967296)
    (hd : deadline < 4294967296) :
    deadlineElapsed now deadline = true ↔
      (deadline ≤ now ∧ now - deadline < 2147483648) ∨
      (now < deadline ∧ 2147483648 < deadline - now) := by
  unfold deadlineElapsed toInt32 toUint32
  rw [decide_eq_true_eq]
  split <;> omega

theorem updateLedAnimationState_frameCounter (s : StripState) (h : s.led.ledGridHeight ≠ 0)
    (h8 : s.led.ledGridHeight < 256) :
    ∃ s', updateLedAnimationState s = some s' ∧
      s'.frameCounter = (s.frameCounter + 1) % s.led.ledGridHeight := by
  unfold updateLedAnimationState
  simp only []
  rw [if_neg h]
  refine ⟨_, rfl, ?_⟩
  show (s.frameCounter + 1) % s.led.ledGridHeight % 256 = _
  have := Nat.mod_lt (s.frameCounter + 1) (Nat.pos_of_ne_zero h)
  omega

theorem updateLedAnimationState_none (s : StripState) (h : s.led.ledGridHeight = 0) :
    updateLedAnimationState s = none := by
  unfold updateLedAnimationState
  simp only []
  rw [if_pos h]

theorem determineLedStripDimensions_bounds (st : LedState) :
    ((determineLedStripDimensions st).ledGridWidth ≤ 16 ∧
     ∀ i, i < st.ledCount →
       GET_LED_X (st.ledConfigs i) < (determineLedStripDimensions st).ledGridWidth) ∧
    ((determineLedStripDimensions st).ledGridHeight ≤ 16 ∧
     ∀ i, i < st.ledCount →
       GET_LED_Y (st.ledConfigs i) < (determineLedStripDimensions st).ledGridHeight) := by
  obtain ⟨⟨_, a2, a3⟩, ⟨_, b2, b3⟩⟩ :=
    determineLedStripDimensionsLoop_spec st.ledConfigs st.ledCount 0 0 0
  simp only [Nat.zero_add] at a2 a3 b2 b3
  refine ⟨⟨?_, fun i hi => a2 i hi⟩, ⟨?_, fun i hi => b2 i hi⟩⟩
  · show (determineLedStripDimensionsLoop st.ledConfigs st.ledCount 0 (0, 0)).1 ≤ 16
    rcases a3 with e | ⟨k, _, e⟩
    · omega
    · have := GET_LED_X_lt (st.ledConfigs k); omega
  · show (determineLedStripDimensionsLoop st.ledConfigs st.ledCount 0 (0, 0)).2 ≤ 16
    rcases b3 with e | ⟨k, _, e⟩
    · omega
    · have := GET_LED_Y_lt (st.ledConfigs k); omega

theorem reevalulateLedConfig_disjoint (st : LedState) (i : Nat)
    (hi : i < (reevalulateLedConfig st).ledCount) :
    ¬ (GET_LED_Y (st.ledConfigs i) ≤ (reevalulateLedConfig st).highestYValueForNorth ∧
       GET_LED_Y (st.ledConfigs i) ≥ (reevalulateLedConfig st).lowestYValueForSouth) ∧
    ¬ (GET_LED_X (st.ledConfigs i) ≤ (reevalulateLedConfig st).highestXValueForWest ∧
       GET_LED_X (st.ledConfigs i) ≥ (reevalulateLedConfig st).lowestXValueForEast) := by
  obtain ⟨⟨w16, hx⟩, ⟨h16, hy⟩⟩ := determineLedStripDimensions_bounds (updateLedCount st)
  obtain ⟨n, s, w, e⟩ := determineOrientationLimits_eq
    (determineLedStripDimensions (updateLedCount st)) (by omega) (by omega)
  have hx := hx i hi
  have hy := hy i hi
  unfold reevalulateLedConfig
  rw [n, s, w, e]
  change GET_LED_X (st.ledConfigs i) < _ at hx
  change GET_LED_Y (st.ledConfigs i) < _ at hy
  constructor
  · split <;> split <;> omega
  · split <;> split <;> omega

/-! ## Claims -/

/-- C1 (code at the failing input): round trip of an entry with all six
direction bits.  `generateLedConfig` stores six letters into `directions[6]`,
which leaves no terminating NUL, so `%s` goes on into the bytes after the
array; when these happen to be `:I` the emitted text is `0,0:NESWUD:I:` and
parsing it yields an entry with the Indicator bit that the original entry,
itself produced by the parser, does not have. -/
theorem generateLedConfig_full_directions_not_roundtrip :
    (parseLedStripConfig noAdjacent defaultState 0 "0,0:NESWUD:".toList).1 = true ∧
    (parseLedStripConfig noAdjacent defaultState 0 "0,0:NESWUD:".toList).2.ledConfigs 0
      = ⟨0, 63⟩ ∧
    generateLedConfig [':', 'I'] [] (fun _ => ⟨0, 63⟩) 0 = "0,0:NESWUD:I:".toList ∧
    (parseLedStripConfig noAdjacent defaultState 0
        (generateLedConfig [':', 'I'] [] (fun _ => ⟨0, 63⟩) 0)).1 = true ∧
    (parseLedStripConfig noAdjacent defaultState 0
        (generateLedConfig [':', 'I'] [] (fun _ => ⟨0, 63⟩) 0)).2.ledConfigs 0
      = ⟨0, 127⟩ := by
  decide

/-- C2 (code at the failing input): the descriptor `0000000001,0::` has an X
field of ten digits.  The ten digits fill `chunk[10]` and leave no
terminating NUL, so `atoi` goes on into the bytes after the array: with a
NUL there the LED lands on x = 1, with the digit `5` there it lands on
x = 15. -/
theorem parseLedStripConfig_full_chunk_reads_adjacent :
    descriptorFields "0000000001,0::".toList
      = some ("0000000001".toList, ['0'], [], []) ∧
    GET_LED_X ((parseLedStripConfig noAdjacent defaultState 0
        "0000000001,0::".toList).2.ledConfigs 0) = 1 ∧
    (parseLedStripConfig (fun _ => ['5']) defaultState 0 "0000000001,0::".toList).1 = true ∧
    GET_LED_X ((parseLedStripConfig (fun _ => ['5']) defaultState 0
        "0000000001,0::".toList).2.ledConfigs 0) = 15 := by
  decide

/-- C3: for a valid index and a descriptor text in which one of the four
fields is not followed by its required separator, `parseLedStripConfig`
returns failure and leaves the target entry all zero, whatever the state
held before and whatever the memory after the scratch buffer holds. -/
theorem parseLedStripConfig_missing_separator (adjacent : Nat → List Char) (st : LedState)
    (ledIndex : Nat) (config : List Char) (h : ledIndex < MAX_LED_STRIP_LENGTH)
    (hm : descriptorFields config = none) :
    (parseLedStripConfig adjacent st ledIndex config).1 = false ∧
    (parseLedStripConfig adjacent st ledIndex config).2.ledConfigs ledIndex = ⟨0, 0⟩ := by
  have hn : ¬ ledIndex ≥ MAX_LED_STRIP_LENGTH := by omega
  have hl := parseLoop_descriptor adjacent config
  rw [hm] at hl
  have hf : (parseLoop adjacent PARSE_STATE_COUNT X_COORDINATE config ⟨0, 0⟩).1 = false := by
    rw [hl]
  simp only [parseLedStripConfig, hn, if_false, hf, reevalulateLedConfig_ledConfigs, setEntry]
  simp

/-- Witness of C3: `1,2:N` stops after the DIRS field without the `:`; LED 3
of the default strip, which held a position and flags, is zeroed. -/
theorem parseLedStripConfig_missing_separator_witness :
    defaultState.ledConfigs 3 ≠ ⟨0, 0⟩ ∧
    (parseLedStripConfig noAdjacent defaultState 3 "1,2:N".toList).1 = false ∧
    (parseLedStripConfig noAdjacent defaultState 3 "1,2:N".toList).2.ledConfigs 3 = ⟨0, 0⟩ :=
  ⟨by decide, parseLedStripConfig_missing_separator noAdjacent defaultState 3 "1,2:N".toList
    (by decide) (by decide)⟩

/-- C4: for an index not below `MAX_LED_STRIP_LENGTH`, `parseLedStripConfig`
returns failure and the state after the call is the state before it: every
LED entry, the active count, width, height and the four boundary values. -/
theorem parseLedStripConfig_index_out_of_range (adjacent : Nat → List Char) (st : LedState)
    (ledIndex : Nat) (config : List Char) (h : ledIndex ≥ MAX_LED_STRIP_LENGTH) :
    parseLedStripConfig adjacent st ledIndex config = (false, st) := by
  simp [parseLedStripConfig, h]

/-- Witness of C4: index 32 with a well-formed descriptor. -/
theorem parseLedStripConfig_index_out_of_range_witness :
    parseLedStripConfig noAdjacent defaultState 32 "1,2:N:I".toList = (false, defaultState) :=
  parseLedStripConfig_index_out_of_range noAdjacent defaultState 32 "1,2:N:I".toList
    (by decide)

/-- C5: for every index, descriptor text and prior state, every LED entry
other than the one at the given index is the same after
`parseLedStripConfig` as before, on success and on failure. -/
theorem parseLedStripConfig_other_entries (adjacent : Nat → List Char) (st : LedState)
    (ledIndex : Nat) (config : List Char) (j : Nat) (h : j ≠ ledIndex) :
    (parseLedStripConfig adjacent st ledIndex config).2.ledConfigs j = st.ledConfigs j := by
  unfold parseLedStripConfig
  split
  · rfl
  · simp [reevalulateLedConfig_ledConfigs, setEntry, h]

/-- Witness of C5: a malformed descriptor for LED 3 leaves LED 4 alone. -/
theorem parseLedStripConfig_other_entries_witness :
    (parseLedStripConfig noAdjacent defaultState 3 "1,2:N".toList).2.ledConfigs 4
      = defaultState.ledConfigs 4 :=
  parseLedStripConfig_other_entries noAdjacent defaultState 3 "1,2:N".toList 4 (by decide)

/-- C6 as stated fails: with an index out of range the call returns before the
reevaluation, so a geometry that was stale before the call is stale after
it.  Right after `ledStripInit` on the default strip the geometry holds
zeros; a call with index 32 leaves it so, while reevaluation of the array
gives 12 LEDs on a 3 by 3 grid. -/
theorem parseLedStripConfig_geometry_stale_counterexample :
    (parseLedStripConfig noAdjacent stateAfterInit 32 "1,2:N:I".toList).2.geometry
      ≠ (reevalulateLedConfig
          (parseLedStripConfig noAdjacent stateAfterInit 32 "1,2:N:I".toList).2).geometry ∧
    (parseLedStripConfig noAdjacent stateAfterInit 32 "1,2:N:I".toList).2.geometry
      = (0, 0, 0, 0, 0, 0, 0) ∧
    (reevalulateLedConfig
        (parseLedStripConfig noAdjacent stateAfterInit 32 "1,2:N:I".toList).2).geometry
      = (12, 3, 3, 0, 2, 0, 2) :=
  ⟨by decide, by decide, by decide⟩

/-- C6 (amended): after every call of `parseLedStripConfig` with an index below
`MAX_LED_STRIP_LENGTH`, on failure or success and from any prior state, the
active count, width, height and the four boundary values are the values
that reevaluation derives from the configuration array as the call left
it (from any state that holds this array); a call with an index not below
`MAX_LED_STRIP_LENGTH` leaves these seven values as they were. -/
theorem parseLedStripConfig_geometry_fresh (adjacent : Nat → List Char) (st : LedState)
    (ledIndex : Nat) (config : List Char) :
    (ledIndex < MAX_LED_STRIP_LENGTH → ∀ st0 : LedState,
      st0.ledConfigs = (parseLedStripConfig adjacent st ledIndex config).2.ledConfigs →
      (parseLedStripConfig adjacent st ledIndex config).2.geometry =
        (reevalulateLedConfig st0).geometry) ∧
    (ledIndex ≥ MAX_LED_STRIP_LENGTH →
      (parseLedStripConfig adjacent st ledIndex config).2.geometry = st.geometry) := by
  constructor
  · intro h st0 h0
    have hn : ¬ ledIndex ≥ MAX_LED_STRIP_LENGTH := by omega
    rw [reevalulateLedConfig_geometry_congr st0 _ h0]
    simp only [parseLedStripConfig, hn, if_false]
    exact reevalulateLedConfig_geometry_congr _ _ (reevalulateLedConfig_ledConfigs _).symm
  · intro h
    simp only [parseLedStripConfig, h, if_true]

/-- Witness of C6: the failing descriptor `1,2:N` for LED 3 of the stale state
after `ledStripInit`; the geometry afterwards counts the three LEDs before
the zeroed entry.  With index 32 the zeros of the stale state stay. -/
theorem parseLedStripConfig_geometry_fresh_witness :
    ((parseLedStripConfig noAdjacent stateAfterInit 3 "1,2:N".toList).2.geometry =
      (reevalulateLedConfig
        (parseLedStripConfig noAdjacent stateAfterInit 3 "1,2:N".toList).2).geometry ∧
     (parseLedStripConfig noAdjacent stateAfterInit 3 "1,2:N".toList).2.geometry
      = (3, 3, 3, 0, 2, 0, 2)) ∧
    (parseLedStripConfig noAdjacent stateAfterInit 32 "1,2:N".toList).2.geometry
      = stateAfterInit.geometry :=
  ⟨⟨(parseLedStripConfig_geometry_fresh noAdjacent stateAfterInit 3 "1,2:N".toList).1
      (by decide) _ rfl, by decide⟩,
   (parseLedStripConfig_geometry_fresh noAdjacent stateAfterInit 32 "1,2:N".toList).2
      (by decide)⟩

/-- C7: `determineLedStripDimensions` sets width and height to 0 when there is
no active LED; otherwise the width is 1 plus the largest x among the LEDs
below the active count (it bounds every x + 1 and is attained by one of
them) and the height is 1 plus the largest y. -/
theorem determineLedStripDimensions_spec (st : LedState) :
    (st.ledCount = 0 →
      (determineLedStripDimensions st).ledGridWidth = 0 ∧
      (determineLedStripDimensions st).ledGridHeight = 0) ∧
    (∀ i, i < st.ledCount →
      GET_LED_X (st.ledConfigs i) + 1 ≤ (determineLedStripDimensions st).ledGridWidth ∧
      GET_LED_Y (st.ledConfigs i) + 1 ≤ (determineLedStripDimensions st).ledGridHeight) ∧
    (0 < st.ledCount →
      (∃ i, i < st.ledCount ∧
        (determineLedStripDimensions st).ledGridWidth = 1 + GET_LED_X (st.ledConfigs i)) ∧
      (∃ i, i < st.ledCount ∧
        (determineLedStripDimensions st).ledGridHeight = 1 + GET_LED_Y (st.ledConfigs i))) := by
  obtain ⟨⟨_, a2, a3⟩, ⟨_, b2, b3⟩⟩ :=
    determineLedStripDimensionsLoop_spec st.ledConfigs st.ledCount 0 0 0
  simp only [Nat.zero_add] at a2 a3 b2 b3
  refine ⟨?_, ?_, ?_⟩
  · intro h0
    simp [determineLedStripDimensions, h0, determineLedStripDimensionsLoop]
  · intro i hi
    exact ⟨a2 i hi, b2 i hi⟩
  · intro hpos
    have ha := a2 0 hpos
    have hb := b2 0 hpos
    constructor
    · rcases a3 with a3 | ⟨k, hk, a3⟩
      · rw [a3] at ha; omega
      · exact ⟨k, hk, by simp only [determineLedStripDimensions]; omega⟩
    · rcases b3 with b3 | ⟨k, hk, b3⟩
      · rw [b3] at hb; omega
      · exact ⟨k, hk, by simp only [determineLedStripDimensions]; omega⟩

/-- Witness of C7: the default strip (x and y up to 2) measures 3 by 3, and
with no active LED the grid measures 0 by 0. -/
theorem determineLedStripDimensions_spec_witness :
    ((determineLedStripDimensions defaultState).ledGridWidth = 3 ∧
     (determineLedStripDimensions defaultState).ledGridHeight = 3) ∧
    ((determineLedStripDimensions stateAfterInit).ledGridWidth = 0 ∧
     (determineLedStripDimensions stateAfterInit).ledGridHeight = 0) :=
  ⟨by decide, (determineLedStripDimensions_spec stateAfterInit).1 rfl⟩

/-- C8 as stated fails for a grid height (or width) below 2: the boundary is
stored in a `uint8_t`, so for a strip of one row `height/2 - 1` is stored as
255, not as -1. -/
theorem determineOrientationLimits_wraps_counterexample :
    oneRowState.ledGridHeight = 1 ∧
    (determineOrientationLimits oneRowState).highestYValueForNorth = 255 ∧
    ((determineOrientationLimits oneRowState).highestYValueForNorth : Int)
      ≠ (oneRowState.ledGridHeight : Int) / 2 - 1 := by
  decide

/-- C8 (amended): for every 8-bit grid width and height,
`determineOrientationLimits` sets northBoundary to `height/2 - 1` reduced
modulo 256 (that is `height/2 - 1` for a height of at least 2 and 255 for a
height below 2), southBoundary to `height/2` plus 1 if the height is odd,
westBoundary to `width/2 - 1` reduced modulo 256 and eastBoundary to
`width/2` plus 1 if the width is odd. -/
theorem determineOrientationLimits_values (st : LedState) (hw : st.ledGridWidth < 256)
    (hh : st.ledGridHeight < 256) :
    (determineOrientationLimits st).highestYValueForNorth =
      (if 2 ≤ st.ledGridHeight then st.ledGridHeight / 2 - 1 else 255) ∧
    (determineOrientationLimits st).lowestYValueForSouth =
      st.ledGridHeight / 2 + (if st.ledGridHeight % 2 = 1 then 1 else 0) ∧
    (determineOrientationLimits st).highestXValueForWest =
      (if 2 ≤ st.ledGridWidth then st.ledGridWidth / 2 - 1 else 255) ∧
    (determineOrientationLimits st).lowestXValueForEast =
      st.ledGridWidth / 2 + (if st.ledGridWidth % 2 = 1 then 1 else 0) := by
  have e1 : ∀ n : Nat, n &&& 1 = n % 2 := fun n => Nat.and_pow_two_sub_one_eq_mod n 1
  simp only [determineOrientationLimits, toUint8, e1]
  refine ⟨?_, ?_, ?_, ?_⟩
  · split <;> omega
  · rcases Nat.mod_two_eq_zero_or_one st.ledGridHeight with h | h <;> simp [h] <;> omega
  · split <;> omega
  · rcases Nat.mod_two_eq_zero_or_one st.ledGridWidth with h | h <;> simp [h] <;> omega

/-- Witness of C8: width 5 gives westBoundary 1 and eastBoundary 3, height 4
gives northBoundary 1 and southBoundary 2. -/
theorem determineOrientationLimits_values_witness :
    (determineOrientationLimits
      { defaultState with ledGridWidth := 5, ledGridHeight := 4 }).highestYValueForNorth = 1 ∧
    (determineOrientationLimits
      { defaultState with ledGridWidth := 5, ledGridHeight := 4 }).lowestYValueForSouth = 2 ∧
    (determineOrientationLimits
      { defaultState with ledGridWidth := 5, ledGridHeight := 4 }).highestXValueForWest = 1 ∧
    (determineOrientationLimits
      { defaultState with ledGridWidth := 5, ledGridHeight := 4 }).lowestXValueForEast = 3 :=
  determineOrientationLimits_values
    { defaultState with ledGridWidth := 5, ledGridHeight := 4 } (by decide) (by decide)

/-- C9 (code at the failing input): the colour text `65537,0,0` has a hue far
above `HSV_HUE_MAX`, but `atoi` is stored into a `uint16_t` before the
comparison, which turns 65537 into 1: `parseColor` returns success and
stores the hue 1.  A hue of 360 is rejected and zeroes the entry. -/
theorem parseColor_truncates_component :
    (parseColor defaultColors 3 "65537,0,0".toList).1 = true ∧
    (parseColor defaultColors 3 "65537,0,0".toList).2 3 = ⟨1, 0, 0⟩ ∧
    (parseColor defaultColors 3 "360,0,0".toList).1 = false ∧
    (parseColor defaultColors 3 "360,0,0".toList).2 3 = ⟨0, 0, 0⟩ := by
  decide

/-- C10 as stated fails.  In a build without `MAG` the mag branch is not
compiled: with mag and angle both active, LED 3 of the default strip (north,
FlightMode, on the north row) shows the cyan of angle's north, where the
first active mode in the order of the claim is mag, whose north is mint
green.  An entry that carries the FlightMode flag at index 13, behind the
active count of 12, is not coloured at all: with headfree active it keeps the
colour it had, where the claim gives the lime green of headfree's north. -/
theorem applyLedModeLayer_mode_priority_counterexample :
    (firstActiveModeColors magAndAngleWithoutMagInputs.FLIGHT_MODE = magModeColors ∧
     applyLedModeLayer magAndAngleWithoutMagInputs defaultState (fun _ => ⟨7, 7, 7⟩) 3
       = ⟨180, 0, 255⟩ ∧
     applyDirectionalModeColor defaultState defaultColors
       (setLedHsv (fun _ => ⟨7, 7, 7⟩) 3 hsv_black) 3 (defaultState.ledConfigs 3)
       (firstActiveModeColors magAndAngleWithoutMagInputs.FLIGHT_MODE) 3 = ⟨150, 0, 255⟩) ∧
    (inactiveEntryState.ledCount = 12 ∧
     (inactiveEntryState.ledConfigs 13).flags &&& LED_FUNCTION_FLIGHT_MODE ≠ 0 ∧
     applyLedModeLayer headfreeAndMagInputs inactiveEntryState (fun _ => ⟨7, 7, 7⟩) 13
       = ⟨7, 7, 7⟩ ∧
     applyDirectionalModeColor inactiveEntryState defaultColors
       (setLedHsv (fun _ => ⟨7, 7, 7⟩) 13 hsv_black) 13 (inactiveEntryState.ledConfigs 13)
       (firstActiveModeColors headfreeAndMagInputs.FLIGHT_MODE) 13 = ⟨90, 0, 255⟩) := by
  refine ⟨⟨by decide, by decide, by decide⟩, ⟨by decide, by decide, by decide, by decide⟩⟩

/-- C10 (amended): for every active LED (index below the active count) that
carries the FlightMode flag, every combination of active flight modes and
every build, the colour that `applyLedModeLayer` leaves on the LED is the
directional colouring, on the black the layer starts from, with the colour
set of the first mode in the order headfree, mag, baro, horizon, angle that
is active and whose branch is part of the build (mag with `MAG`, baro with
`BARO`), and with the orientation colour set when there is none.  In a build
in which the branch of every active mode is compiled, so in every build with
`MAG` and `BARO`, this is the first active mode; with headfree active it is
headfree in every build.  An entry at or behind the active count keeps its
colour. -/
theorem applyLedModeLayer_mode_priority (inp : ModeInputs) (st : LedState)
    (leds : Nat → hsvColor_t) :
    (∀ i, i < st.ledCount → (st.ledConfigs i).flags &&& LED_FUNCTION_FLIGHT_MODE ≠ 0 →
      applyLedModeLayer inp st leds i =
        applyDirectionalModeColor st inp.colors (setLedHsv leds i hsv_black) i (st.ledConfigs i)
          (firstCompiledActiveModeColors inp) i) ∧
    ((inp.FLIGHT_MODE .MAG_MODE = true → inp.MAG = true) →
      (inp.FLIGHT_MODE .BARO_MODE = true → inp.BARO = true) →
      firstCompiledActiveModeColors inp = firstActiveModeColors inp.FLIGHT_MODE) ∧
    (inp.FLIGHT_MODE .HEADFREE_MODE = true →
      firstCompiledActiveModeColors inp = headfreeModeColors) ∧
    (∀ i, st.ledCount ≤ i → applyLedModeLayer inp st leds i = leds i) := by
  refine ⟨?_, firstCompiledActiveModeColors_eq inp, ?_, ?_⟩
  · intro i hi hf
    unfold applyLedModeLayer
    rw [applyLedModeLayerLoop_spec, if_pos ⟨Nat.zero_le _, by omega⟩]
    exact applyLedModeLayerStep_compiledMode inp st leds i hf
  · intro h1
    unfold firstCompiledActiveModeColors
    rw [if_pos h1]
  · intro i hi
    unfold applyLedModeLayer
    rw [applyLedModeLayerLoop_spec, if_neg (by omega)]

/-- Witness of C10: headfree and mag both active in a build with `MAG` and
`BARO`; LED 3 of the default strip (north, FlightMode, on the north row)
shows the lime green of headfree's north, not the mint green of mag's north.
In the build without `MAG`, with mag and angle active, the same LED takes the
directional colouring of angle. -/
theorem applyLedModeLayer_mode_priority_witness :
    applyLedModeLayer headfreeAndMagInputs defaultState (fun _ => ⟨7, 7, 7⟩) 3 =
      applyDirectionalModeColor defaultState defaultColors
        (setLedHsv (fun _ => ⟨7, 7, 7⟩) 3 hsv_black) 3 (defaultState.ledConfigs 3)
        headfreeModeColors 3 ∧
    applyLedModeLayer headfreeAndMagInputs defaultState (fun _ => ⟨7, 7, 7⟩) 3 = ⟨90, 0, 255⟩ ∧
    defaultColors magModeColors.north = ⟨150, 0, 255⟩ ∧
    applyLedModeLayer magAndAngleWithoutMagInputs defaultState (fun _ => ⟨7, 7, 7⟩) 3 =
      applyDirectionalModeColor defaultState defaultColors
        (setLedHsv (fun _ => ⟨7, 7, 7⟩) 3 hsv_black) 3 (defaultState.ledConfigs 3)
        angleModeColors 3 := by
  obtain ⟨h1, _, h3, _⟩ := applyLedModeLayer_mode_priority headfreeAndMagInputs defaultState
    (fun _ => ⟨7, 7, 7⟩)
  obtain ⟨k1, _, _, _⟩ := applyLedModeLayer_mode_priority magAndAngleWithoutMagInputs
    defaultState (fun _ => ⟨7, 7, 7⟩)
  refine ⟨?_, by decide, by decide, ?_⟩
  · rw [h1 3 (by decide) (by decide), h3 (by decide)]; rfl
  · rw [k1 3 (by decide) (by decide)]; rfl

/-- C11: for every LED, colour set and geometry, `applyDirectionalModeColor`
leaves the LED with the palette colour of the last direction, in the
sequence up, down, west, east, north, south, whose condition holds, and
leaves the colour of the LED unchanged when no condition holds; no other
LED is touched. -/
theorem applyDirectionalModeColor_last_matching (st : LedState)
    (colors leds : Nat → hsvColor_t) (ledIndex : Nat) (ledConfig : ledConfig_t)
    (modeColors : modeColorIndexes_t) :
    applyDirectionalModeColor st colors leds ledIndex ledConfig modeColors ledIndex =
      (match lastMatching (directionalRules st ledConfig modeColors) with
       | some c => colors c
       | none => leds ledIndex) ∧
    ∀ j, j ≠ ledIndex →
      applyDirectionalModeColor st colors leds ledIndex ledConfig modeColors j = leds j := by
  refine ⟨?_, fun j hj => applyDirectionalModeColor_other st colors leds ledIndex ledConfig
    modeColors j hj⟩
  rw [applyDirectionalModeColor_self, directionalRules, lastMatching_six]
  simp only [decide_eq_true_eq]
  split_ifs <;> rfl

/-- Witness of C11: LED 4 of the default strip sits in the north-west corner
with the bits north and west; north comes after west in the sequence, so the
LED takes the north colour of the orientation set (white).  An LED without a
direction bit keeps its colour. -/
theorem applyDirectionalModeColor_last_matching_witness :
    lastMatching (directionalRules defaultState (defaultState.ledConfigs 4)
      orientationModeColors) = some COLOR_WHITE ∧
    applyDirectionalModeColor defaultState defaultColors (fun _ => ⟨7, 7, 7⟩) 4
      (defaultState.ledConfigs 4) orientationModeColors 4 = ⟨0, 255, 255⟩ ∧
    applyDirectionalModeColor defaultState defaultColors (fun _ => ⟨7, 7, 7⟩) 4
      ⟨0, LED_FUNCTION_FLIGHT_MODE⟩ orientationModeColors 4 = ⟨7, 7, 7⟩ := by
  refine ⟨by decide, ?_, ?_⟩
  · rw [(applyDirectionalModeColor_last_matching defaultState defaultColors (fun _ => ⟨7, 7, 7⟩) 4
      (defaultState.ledConfigs 4) orientationModeColors).1]
    decide
  · rw [(applyDirectionalModeColor_last_matching defaultState defaultColors (fun _ => ⟨7, 7, 7⟩) 4
      ⟨0, LED_FUNCTION_FLIGHT_MODE⟩ orientationModeColors).1]
    decide

/-- C12: for every throttle input between the minimum and the maximum of the
input range and every active LED that carries the Throttle flag,
`applyLedThrottleLayer` replaces the hue of the LED by
(offset + `HSV_HUE_MAX`) mod `HSV_HUE_MAX`, where the offset is the linear
remap of the throttle onto -60..+60: -60 at the minimum (hue
`HSV_HUE_MAX` - 60) and +60 at the maximum (hue 60); the hue lies below
`HSV_HUE_MAX`; saturation and value stay as they were. -/
theorem applyLedThrottleLayer_hue (st : LedState) (leds : Nat → hsvColor_t) (throttle : Int)
    (i : Nat) (hi : i < st.ledCount)
    (hf : (st.ledConfigs i).flags &&& LED_FUNCTION_THROTTLE ≠ 0)
    (hmin : PWM_RANGE_MIN ≤ throttle) (hmax : throttle ≤ PWM_RANGE_MAX) :
    throttleHueOffset throttle =
      -60 + (120 * (throttle - PWM_RANGE_MIN)) / (PWM_RANGE_MAX - PWM_RANGE_MIN) ∧
    (-60 ≤ throttleHueOffset throttle ∧ throttleHueOffset throttle ≤ 60) ∧
    (((applyLedThrottleLayer st throttle leds i).h : Int) =
      (throttleHueOffset throttle + (HSV_HUE_MAX : Int)) % (HSV_HUE_MAX : Int)) ∧
    (applyLedThrottleLayer st throttle leds i).h < HSV_HUE_MAX ∧
    (applyLedThrottleLayer st throttle leds i).s = (leds i).s ∧
    (applyLedThrottleLayer st throttle leds i).v = (leds i).v ∧
    (throttle = PWM_RANGE_MIN →
      throttleHueOffset throttle = -60 ∧
      (applyLedThrottleLayer st throttle leds i).h = HSV_HUE_MAX - 60) ∧
    (throttle = PWM_RANGE_MAX →
      throttleHueOffset throttle = 60 ∧ (applyLedThrottleLayer st throttle leds i).h = 60) := by
  have hoff := throttleHueOffset_eq throttle hmin
  have hr : applyLedThrottleLayer st throttle leds i =
      { leds i with
        h := toUint16 (Int.tmod (throttleHueOffset throttle + (HSV_HUE_MAX : Int))
          (HSV_HUE_MAX : Int)) } := by
    unfold applyLedThrottleLayer
    rw [forEachLed_spec _ (applyLedThrottleLayerStep_other st throttle)
      (applyLedThrottleLayerStep_congr st throttle), if_pos ⟨Nat.zero_le _, by omega⟩]
    exact applyLedThrottleLayerStep_self st throttle leds i hf
  have hM : (HSV_HUE_MAX : Int) = 359 := rfl
  have hMn : HSV_HUE_MAX = 359 := rfl
  simp only [PWM_RANGE_MIN, PWM_RANGE_MAX] at hoff hmin hmax
  have hb : -60 ≤ throttleHueOffset throttle ∧ throttleHueOffset throttle ≤ 60 := by
    rw [hoff]; omega
  have hh : toUint16 (Int.tmod (throttleHueOffset throttle + (HSV_HUE_MAX : Int))
      (HSV_HUE_MAX : Int)) =
      ((throttleHueOffset throttle + 359) % 359).toNat := by
    rw [hM, Int.tmod_eq_emod (by omega) (by omega)]
    unfold toUint16
    omega
  rw [hr, hh]
  simp only [hM, hMn, PWM_RANGE_MIN, PWM_RANGE_MAX]
  refine ⟨hoff, hb, by omega, by omega, trivial, trivial, ?_, ?_⟩
  · intro ht; subst ht
    have : throttleHueOffset 1000 = -60 := by rw [hoff]; omega
    rw [this]; exact ⟨rfl, by decide⟩
  · intro ht; subst ht
    have : throttleHueOffset 2000 = 60 := by rw [hoff]; omega
    rw [this]; exact ⟨rfl, by decide⟩

/-- Witness of C12: a one-LED strip whose LED carries the Throttle flag,
throttle at the minimum of the range: the hue becomes 299, saturation and
value stay 7 and 9. -/
theorem applyLedThrottleLayer_hue_witness :
    applyLedThrottleLayer throttleStripState 1000 (fun _ => ⟨5, 7, 9⟩) 0 = ⟨299, 7, 9⟩ ∧
    throttleHueOffset 1000 = -60 := by
  obtain ⟨_, _, _, _, _, _, h7, _⟩ := applyLedThrottleLayer_hue throttleStripState
    (fun _ => ⟨5, 7, 9⟩) 1000 0 (by decide) (by decide) (by decide) (by decide)
  exact ⟨by decide, (h7 rfl).1⟩

/-- C13: for every active LED that carries the Warning flag, every set of
warning conditions and every phase 0..3 of the counter that the call renders
with, `applyLedWarningLayer` writes in the on half (`warningState` 0) the
arming-disabled colour at phase 0, the low-battery colour at phase 1 and the
failsafe colour at phases 2 and 3, in the off half black at phases 0 and 1
and the secondary failsafe colour at phases 2 and 3, each only if the
condition of the phase is set; otherwise the LED keeps its colour.  With
only low battery set the LED is written only at phase 1: red in the on half,
black in the off half. -/
theorem applyLedWarningLayer_rendering (st : LedState) (leds : Nat → hsvColor_t)
    (warningFlashCounter warningState warningFlags : Nat) (i : Nat)
    (hi : i < st.ledCount)
    (hw : (st.ledConfigs i).flags &&& LED_FUNCTION_WARNING ≠ 0)
    (hc : warningFlashCounter < 4) :
    (applyLedWarningLayer st leds warningFlashCounter warningState warningFlags).2 < 4 ∧
    (applyLedWarningLayer st leds warningFlashCounter warningState warningFlags).1 i =
      (warningColor (decide (warningState = 0))
        (applyLedWarningLayer st leds warningFlashCounter warningState warningFlags).2
        warningFlags).getD (leds i) ∧
    (warningFlags = WARNING_FLAG_LOW_BATTERY →
      (applyLedWarningLayer st leds warningFlashCounter warningState warningFlags).1 i =
        if (applyLedWarningLayer st leds warningFlashCounter warningState warningFlags).2 = 1
        then (if warningState = 0 then hsv_red else hsv_black) else leds i) := by
  have hlt := advanceWarningFlashCounter_lt warningFlashCounter warningState hc
  have hmain : (applyLedWarningLayer st leds warningFlashCounter warningState warningFlags).1 i =
      (warningColor (decide (warningState = 0))
        (advanceWarningFlashCounter warningFlashCounter warningState) warningFlags).getD
        (leds i) := by
    unfold applyLedWarningLayer
    simp only []
    rw [forEachLed_spec _ (applyLedWarningLayerStep_other st _ _ _)
      (applyLedWarningLayerStep_congr st _ _ _), if_pos ⟨Nat.zero_le _, by omega⟩]
    exact applyLedWarningLayerStep_self st _ _ _ leds i hw hlt
  refine ⟨hlt, hmain, ?_⟩
  intro hf
  rw [hmain, hf]
  show _ = if advanceWarningFlashCounter warningFlashCounter warningState = 1 then _ else _
  generalize advanceWarningFlashCounter warningFlashCounter warningState = c at hlt
  have e1 : WARNING_FLAG_LOW_BATTERY &&& WARNING_FLAG_ARMING_DISABLED = 0 := by decide
  have e2 : WARNING_FLAG_LOW_BATTERY &&& WARNING_FLAG_FAILSAFE = 0 := by decide
  have e3 : WARNING_FLAG_LOW_BATTERY ≠ 0 := by decide
  unfold warningColor
  interval_cases c <;> by_cases hws : warningState = 0 <;> simp [hws, e1, e2, e3]

/-- Witness of C13: LED 1 of the default strip carries the Warning flag.  With
only low battery set and the counter at 1, the on half renders phase 1 in
red; the off half first advances the counter to phase 2 and leaves the LED
as it was. -/
theorem applyLedWarningLayer_rendering_witness :
    (applyLedWarningLayer defaultState (fun _ => ⟨7, 7, 7⟩) 1 0 WARNING_FLAG_LOW_BATTERY).1 1
      = hsv_red ∧
    (applyLedWarningLayer defaultState (fun _ => ⟨7, 7, 7⟩) 1 1 WARNING_FLAG_LOW_BATTERY).2
      = 2 ∧
    (applyLedWarningLayer defaultState (fun _ => ⟨7, 7, 7⟩) 1 1 WARNING_FLAG_LOW_BATTERY).1 1
      = ⟨7, 7, 7⟩ := by
  obtain ⟨_, _, h3⟩ := applyLedWarningLayer_rendering defaultState (fun _ => ⟨7, 7, 7⟩) 1 0
    WARNING_FLAG_LOW_BATTERY 1 (by decide) (by decide) (by decide)
  obtain ⟨_, _, k3⟩ := applyLedWarningLayer_rendering defaultState (fun _ => ⟨7, 7, 7⟩) 1 1
    WARNING_FLAG_LOW_BATTERY 1 (by decide) (by decide) (by decide)
  refine ⟨?_, by decide, ?_⟩
  · rw [h3 rfl]; decide
  · rw [k3 rfl]; decide

/-- C14: for every active LED that carries the Indicator flag and every roll
and pitch command, `applyLedIndicatorLayer` leaves the LED with the flash
colour when the LED lies in at least one selected quadrant and with its
previous colour otherwise; with roll and pitch both inside the deadband of
50 no LED changes; with roll > 50 and pitch > 50 an LED of the north-east
quadrant ends with the colour it has after being set once. -/
theorem applyLedIndicatorLayer_quadrants (st : LedState) (leds : Nat → hsvColor_t)
    (roll pitch : Int) (indicatorFlashState : Nat) :
    (∀ i, i < st.ledCount → (st.ledConfigs i).flags &&& LED_FUNCTION_INDICATOR ≠ 0 →
      applyLedIndicatorLayer st roll pitch leds indicatorFlashState i =
        if inSelectedQuadrant st (st.ledConfigs i) roll pitch = true
        then (if indicatorFlashState = 0 then hsv_orange else hsv_black) else leds i) ∧
    (-50 ≤ roll ∧ roll ≤ 50 → -50 ≤ pitch ∧ pitch ≤ 50 →
      ∀ j, applyLedIndicatorLayer st roll pitch leds indicatorFlashState j = leds j) ∧
    (roll > 50 → pitch > 50 → ∀ i, i < st.ledCount →
      (st.ledConfigs i).flags &&& LED_FUNCTION_INDICATOR ≠ 0 →
      inQuadrant st (st.ledConfigs i) .QUADRANT_NORTH_EAST = true →
      applyLedIndicatorLayer st roll pitch leds indicatorFlashState i =
        setLedHsv leds i (if indicatorFlashState = 0 then hsv_orange else hsv_black) i) := by
  have hmain : ∀ i, i < st.ledCount → (st.ledConfigs i).flags &&& LED_FUNCTION_INDICATOR ≠ 0 →
      applyLedIndicatorLayer st roll pitch leds indicatorFlashState i =
        if inSelectedQuadrant st (st.ledConfigs i) roll pitch = true
        then (if indicatorFlashState = 0 then hsv_orange else hsv_black) else leds i := by
    intro i hi hf
    unfold applyLedIndicatorLayer
    rw [forEachLed_spec _ (applyLedIndicatorLayerStep_other st roll pitch _)
      (applyLedIndicatorLayerStep_congr st roll pitch _), if_pos ⟨Nat.zero_le _, by omega⟩]
    exact applyLedIndicatorLayerStep_self st roll pitch _ leds i hf
  refine ⟨hmain, ?_, ?_⟩
  · intro hr hp j
    unfold applyLedIndicatorLayer
    rw [forEachLed_id _ (fun l k => applyLedIndicatorLayerStep_deadband st roll pitch _ l k hr hp)]
  · intro hr hp i hi hf hq
    rw [hmain i hi hf]
    have : inSelectedQuadrant st (st.ledConfigs i) roll pitch = true := by
      simp [inSelectedQuadrant, quadrantSelected, hr, hp, hq]
    rw [if_pos this]
    simp [setLedHsv, setEntry]

/-- Witness of C14: LED 2 of the default strip (north-east corner, Indicator)
turns orange with roll 100 and pitch 100; LED 6 (south-west corner) keeps its
colour; with roll 50 and pitch -50 nothing changes. -/
theorem applyLedIndicatorLayer_quadrants_witness :
    applyLedIndicatorLayer defaultState 100 100 (fun _ => ⟨7, 7, 7⟩) 0 2 = hsv_orange ∧
    applyLedIndicatorLayer defaultState 100 100 (fun _ => ⟨7, 7, 7⟩) 0 6 = ⟨7, 7, 7⟩ ∧
    applyLedIndicatorLayer defaultState 50 (-50) (fun _ => ⟨7, 7, 7⟩) 0 2 = ⟨7, 7, 7⟩ := by
  obtain ⟨h1, h2, h3⟩ := applyLedIndicatorLayer_quadrants defaultState (fun _ => ⟨7, 7, 7⟩)
    100 100 0
  obtain ⟨_, k2, _⟩ := applyLedIndicatorLayer_quadrants defaultState (fun _ => ⟨7, 7, 7⟩)
    50 (-50) 0
  refine ⟨?_, ?_, k2 (by decide) (by decide) 2⟩
  · rw [h3 (by decide) (by decide) 2 (by decide) (by decide) (by decide)]; decide
  · rw [h1 6 (by decide) (by decide)]; decide

/-- C15: for every state and every clock value at which none of the three
deadlines has elapsed, `updateLedStrip` completes and changes nothing: no
LED colour, deadline, half-cycle state, warning condition set, phase counter
or frame counter, and the transmit operation of the driver is not
invoked. -/
theorem updateLedStrip_idle_noop (inp : FrameInputs) (s : StripState)
    (ha : deadlineElapsed inp.micros s.nextAnimationUpdateAt = false)
    (hi : deadlineElapsed inp.micros s.nextIndicatorFlashAt = false)
    (hw : deadlineElapsed inp.micros s.nextWarningFlashAt = false) :
    updateLedStrip inp s = some s :=
  updateLedStrip_idle inp s ha hi hw

/-- Witness of C15: a frame at 2000 microseconds while the deadlines stand at
51000, 201000 and 101000. -/
theorem updateLedStrip_idle_noop_witness :
    updateLedStrip (lowBatteryFrame 2000) runningStripState = some runningStripState :=
  updateLedStrip_idle_noop (lowBatteryFrame 2000) runningStripState (by decide) (by decide)
    (by decide)

/-- C16 as stated fails.  With the driver not ready the call returns at once:
the indicator deadline 0 has elapsed at 1000 microseconds and stays 0, where
the claim gives 201000.  With a roll command of 12800 the 8-bit `rollScale`
wraps from 256 to 0: the deadline becomes 201000, where the claim gives
1000 + 200000 / 256 = 1781. -/
theorem updateLedStrip_indicator_rate_counterexample :
    (deadlineElapsed 1000 enabledStripState.nextIndicatorFlashAt = true ∧
     (updateLedStrip { lowBatteryFrame 1000 with isWS2811LedStripReady := false }
        enabledStripState).map (fun s => s.nextIndicatorFlashAt) = some 0 ∧
     specIndicatorDeadline 1000 0 0 = 201000) ∧
    ((updateLedStrip { lowBatteryFrame 1000 with rcCommandRoll := 12800 }
        enabledStripState).map (fun s => s.nextIndicatorFlashAt) = some 201000 ∧
     specIndicatorDeadline 1000 12800 0 = 1781) := by
  decide

/-- C16 (amended): when the strip is initialised and the driver ready, for
every roll and pitch command of magnitude below 12800 and every clock value
at which the indicator deadline has elapsed, a call of `updateLedStrip` that
completes sets the next indicator deadline to now + 200000 / max (1, scale)
with scale = max (|roll|, |pitch|) / 50 (sum modulo 2^32) and flips the
indicator half-cycle; when the indicator deadline has not elapsed, or the
strip is not initialised or the driver not ready, it leaves both unchanged.
The call completes whenever the grid height is not 0 or the animation
deadline has not elapsed. -/
theorem updateLedStrip_indicator_rate (inp : FrameInputs) (s : StripState) :
    (∀ s', updateLedStrip inp s = some s' →
      (s.ledStripInitialised = true → inp.isWS2811LedStripReady = true →
        deadlineElapsed inp.micros s.nextIndicatorFlashAt = true →
        inp.rcCommandRoll.natAbs < 12800 → inp.rcCommandPitch.natAbs < 12800 →
        s'.nextIndicatorFlashAt =
          specIndicatorDeadline inp.micros inp.rcCommandRoll inp.rcCommandPitch ∧
        s'.indicatorFlashState = if s.indicatorFlashState = 0 then 1 else 0) ∧
      (deadlineElapsed inp.micros s.nextIndicatorFlashAt = false ∨
          ¬ (s.ledStripInitialised = true ∧ inp.isWS2811LedStripReady = true) →
        s'.nextIndicatorFlashAt = s.nextIndicatorFlashAt ∧
        s'.indicatorFlashState = s.indicatorFlashState)) ∧
    (s.led.ledGridHeight ≠ 0 ∨ deadlineElapsed inp.micros s.nextAnimationUpdateAt = false →
      ∃ s', updateLedStrip inp s = some s') := by
  refine ⟨fun s' hs => ⟨?_, ?_⟩, updateLedStrip_completes inp s⟩
  · intro hinit hready hind hr hp
    obtain ⟨e1, e2, _⟩ := updateLedStrip_processed inp s s' hinit hready (Or.inr (Or.inl hind)) hs
    rw [e1, e2, if_pos hind, if_pos hind, indicatorInterval_eq _ _ hr hp]
    exact ⟨rfl, rfl⟩
  · intro hcase
    by_cases hrun : s.ledStripInitialised = true ∧ inp.isWS2811LedStripReady = true
    · rcases hcase with hind | hnot
      · by_cases hany : deadlineElapsed inp.micros s.nextWarningFlashAt = true ∨
            deadlineElapsed inp.micros s.nextIndicatorFlashAt = true ∨
            deadlineElapsed inp.micros s.nextAnimationUpdateAt = true
        · obtain ⟨e1, e2, _⟩ := updateLedStrip_processed inp s s' hrun.1 hrun.2 hany hs
          rw [e1, e2]
          simp [hind]
        · have hidle : updateLedStrip inp s = some s := by
            apply updateLedStrip_idle
            · cases h : deadlineElapsed inp.micros s.nextAnimationUpdateAt
              · rfl
              · exact absurd (Or.inr (Or.inr h)) hany
            · exact hind
            · cases h : deadlineElapsed inp.micros s.nextWarningFlashAt
              · rfl
              · exact absurd (Or.inl h) hany
          rw [hidle] at hs
          cases hs
          exact ⟨rfl, rfl⟩
      · exact absurd hrun hnot
    · rw [updateLedStrip_not_running inp s hrun] at hs
      cases hs
      exact ⟨rfl, rfl⟩

/-- Witness of C16: the first frame after `ledStripEnable` at 1000 microseconds
with a roll command of 120: the scale is 2, the next indicator flash is due
at 1000 + 100000, and the half-cycle goes from 0 to 1. -/
theorem updateLedStrip_indicator_rate_witness :
    ∃ s', updateLedStrip { lowBatteryFrame 1000 with rcCommandRoll := 120 } enabledStripState
        = some s' ∧
      s'.nextIndicatorFlashAt = 101000 ∧ s'.indicatorFlashState = 1 := by
  obtain ⟨h1, h2⟩ := updateLedStrip_indicator_rate
    { lowBatteryFrame 1000 with rcCommandRoll := 120 } enabledStripState
  obtain ⟨s', hs⟩ := h2 (Or.inl (by decide))
  obtain ⟨e1, e2⟩ := (h1 s' hs).1 rfl rfl (by decide) (by decide) (by decide)
  exact ⟨s', hs, by rw [e1]; decide, by rw [e2]; decide⟩

/-- C17 as stated fails: an over-long field makes the call fail.  With eleven
letters in the DIRS field the call returns failure and zeroes the entry,
while the same descriptor with ten letters succeeds. -/
theorem parseLedStripConfig_overlong_counterexample :
    (parseLedStripConfig noAdjacent defaultState 0 "1,2:NNNNNNNNNNN:I".toList).1 = false ∧
    (parseLedStripConfig noAdjacent defaultState 0
      "1,2:NNNNNNNNNNN:I".toList).2.ledConfigs 0 = ⟨0, 0⟩ ∧
    (parseLedStripConfig noAdjacent defaultState 0 "1,2:NNNNNNNNNN:I".toList).1 = true := by
  decide

/-- C17 (amended): for every valid index and every descriptor text in which a
field holds more than 10 characters before its separator,
`parseLedStripConfig` stops at the eleventh character of that field, which
is not the separator: it returns failure and leaves the target entry all
zero. -/
theorem parseLedStripConfig_overlong_field (adjacent : Nat → List Char) (st : LedState)
    (ledIndex : Nat) (config : List Char) (h : ledIndex < MAX_LED_STRIP_LENGTH)
    (hl : hasOverlongField config = true) :
    (parseLedStripConfig adjacent st ledIndex config).1 = false ∧
    (parseLedStripConfig adjacent st ledIndex config).2.ledConfigs ledIndex = ⟨0, 0⟩ :=
  parseLedStripConfig_of_no_fields adjacent st ledIndex config h
    (descriptorFields_none_of_overlong config hl)

/-- Witness of C17: an X field of eleven digits. -/
theorem parseLedStripConfig_overlong_field_witness :
    (parseLedStripConfig noAdjacent defaultState 3 "00000000001,2:N:I".toList).1 = false ∧
    (parseLedStripConfig noAdjacent defaultState 3
      "00000000001,2:N:I".toList).2.ledConfigs 3 = ⟨0, 0⟩ :=
  parseLedStripConfig_overlong_field noAdjacent defaultState 3 "00000000001,2:N:I".toList
    (by decide) (by decide)

/-- C18 (code at the failing input): two frames after `ledStripEnable` with the
battery alarm sounding.  The frame at 1000 microseconds toggles the warning
half-cycle to 1 and advances the counter to 1; the next warning flash is due
at 101000.  The frame at 51000 is processed for the animation deadline only:
the warning deadline has not elapsed and the half-cycle stays 1, yet the
counter advances to 2. -/
theorem updateLedStrip_counter_advances_between_toggles :
    (updateLedStrip (lowBatteryFrame 1000) enabledStripState).map
      (fun s => (s.nextWarningFlashAt, s.warningState, s.warningFlashCounter))
      = some (101000, 1, 1) ∧
    deadlineElapsed 51000 101000 = false ∧
    ((updateLedStrip (lowBatteryFrame 1000) enabledStripState).bind
      (updateLedStrip (lowBatteryFrame 51000))).map
      (fun s => (s.nextWarningFlashAt, s.warningState, s.warningFlashCounter))
      = some (101000, 1, 2) := by
  decide

/-- C19 as stated fails: on the default strip (3 by 3) the south boundary is 2
and the east boundary is 2, so the middle row y = 1 and the middle column
x = 1 pass neither the south test nor the east test. -/
theorem middle_line_counterexample :
    defaultState.ledGridHeight = 3 ∧ defaultState.ledGridWidth = 3 ∧
    ¬ ((defaultState.ledGridHeight - 1) / 2 ≥
        (determineOrientationLimits defaultState).lowestYValueForSouth) ∧
    ¬ ((defaultState.ledGridWidth - 1) / 2 ≥
        (determineOrientationLimits defaultState).lowestXValueForEast) := by
  decide

/-- C19 (amended): for every odd 8-bit grid height the middle row
y = (height - 1) / 2 lies below the south boundary computed by
`determineOrientationLimits`; for a height of at least 3 it lies above the
north boundary as well, so it belongs to neither half, and for height 1 it
passes the north test (the boundary being 255).  The same holds for an odd
grid width with the middle column, the east boundary and the west
boundary. -/
theorem middle_line_between_halves (st : LedState) (hw : st.ledGridWidth < 256)
    (hh : st.ledGridHeight < 256) :
    (st.ledGridHeight % 2 = 1 →
      ¬ ((st.ledGridHeight - 1) / 2 ≥ (determineOrientationLimits st).lowestYValueForSouth) ∧
      (3 ≤ st.ledGridHeight →
        ¬ ((st.ledGridHeight - 1) / 2 ≤ (determineOrientationLimits st).highestYValueForNorth)) ∧
      (st.ledGridHeight = 1 →
        (st.ledGridHeight - 1) / 2 ≤ (determineOrientationLimits st).highestYValueForNorth)) ∧
    (st.ledGridWidth % 2 = 1 →
      ¬ ((st.ledGridWidth - 1) / 2 ≥ (determineOrientationLimits st).lowestXValueForEast) ∧
      (3 ≤ st.ledGridWidth →
        ¬ ((st.ledGridWidth - 1) / 2 ≤ (determineOrientationLimits st).highestXValueForWest)) ∧
      (st.ledGridWidth = 1 →
        (st.ledGridWidth - 1) / 2 ≤ (determineOrientationLimits st).highestXValueForWest)) := by
  obtain ⟨n, s, w, e⟩ := determineOrientationLimits_eq st hw hh
  rw [n, s, w, e]
  constructor
  · intro hodd
    rw [if_pos hodd]
    refine ⟨by omega, ?_, ?_⟩
    · intro h3; rw [if_pos (by omega)]; omega
    · intro h1; rw [if_neg (by omega)]; omega
  · intro hodd
    rw [if_pos hodd]
    refine ⟨by omega, ?_, ?_⟩
    · intro h3; rw [if_pos (by omega)]; omega
    · intro h1; rw [if_neg (by omega)]; omega

/-- Witness of C19: the default strip of height 3 and width 3, and the strip
of one row and one column. -/
theorem middle_line_between_halves_witness :
    (¬ (1 ≥ (determineOrientationLimits defaultState).lowestYValueForSouth) ∧
     ¬ (1 ≤ (determineOrientationLimits defaultState).highestYValueForNorth)) ∧
    (¬ (0 ≥ (determineOrientationLimits oneRowState).lowestYValueForSouth) ∧
     0 ≤ (determineOrientationLimits oneRowState).highestYValueForNorth) :=
  ⟨⟨((middle_line_between_halves defaultState (by decide) (by decide)).1 (by decide)).1,
    ((middle_line_between_halves defaultState (by decide) (by decide)).1 (by decide)).2.1
      (by decide)⟩,
   ⟨((middle_line_between_halves oneRowState (by decide) (by decide)).1 (by decide)).1,
    ((middle_line_between_halves oneRowState (by decide) (by decide)).1 (by decide)).2.2
      (by decide)⟩⟩

/-- C20: for every configuration array `updateLedCount` sets the active count
to the length of the longest prefix without an all-zero entry: the count is
at most `MAX_LED_STRIP_LENGTH`, no entry below the count is all zero, and the
entry at the count is all zero unless the count is `MAX_LED_STRIP_LENGTH`,
which it is when no entry is all zero.  A successfully parsed LED at
position (0,0) without flags is such an entry: after the call the active
count is at most its index, and equal to its index when no entry before it
is all zero. -/
theorem updateLedCount_leading_entries (st : LedState) :
    ((updateLedCount st).ledCount ≤ MAX_LED_STRIP_LENGTH ∧
     (∀ i, i < (updateLedCount st).ledCount → ¬ isZeroEntry (st.ledConfigs i)) ∧
     ((updateLedCount st).ledCount < MAX_LED_STRIP_LENGTH →
       isZeroEntry (st.ledConfigs (updateLedCount st).ledCount)) ∧
     ((∀ i, i < MAX_LED_STRIP_LENGTH → ¬ isZeroEntry (st.ledConfigs i)) →
       (updateLedCount st).ledCount = MAX_LED_STRIP_LENGTH)) ∧
    (∀ (adjacent : Nat → List Char) (k : Nat), k < MAX_LED_STRIP_LENGTH →
      (parseLedStripConfig adjacent st k "0,0::".toList).1 = true ∧
      (parseLedStripConfig adjacent st k "0,0::".toList).2.ledConfigs k = ⟨0, 0⟩ ∧
      (parseLedStripConfig adjacent st k "0,0::".toList).2.ledCount ≤ k ∧
      ((∀ i, i < k → ¬ isZeroEntry (st.ledConfigs i)) →
        (parseLedStripConfig adjacent st k "0,0::".toList).2.ledCount = k)) := by
  constructor
  · obtain ⟨a1, a2, a3⟩ := updateLedCount_spec st
    refine ⟨a1, a2, a3, ?_⟩
    intro hall
    by_contra hne
    have hlt : (updateLedCount st).ledCount < MAX_LED_STRIP_LENGTH := by omega
    exact hall _ hlt (a3 hlt)
  · intro adjacent k hk
    have hn : ¬ k ≥ MAX_LED_STRIP_LENGTH := by omega
    have hd : descriptorFields "0,0::".toList = some (['0'], ['0'], [], []) := by decide
    have hl := parseLoop_short_fields adjacent "0,0::".toList ['0'] ['0'] [] [] hd (by decide)
      (by decide)
    have hentry : (⟨(((0 ||| CALCULATE_LED_X (toUint8 (atoi ['0']))) % 256) |||
            CALCULATE_LED_Y (toUint8 (atoi ['0']))) % 256,
         ([] : List Char).foldl (fun flags c => applyMapping functionCodes functionMappings c flags)
          (([] : List Char).foldl
            (fun flags c => applyMapping directionCodes directionMappings c flags) 0)⟩ :
          ledConfig_t) = ⟨0, 0⟩ := by decide
    rw [hentry] at hl
    have hres : parseLedStripConfig adjacent st k "0,0::".toList =
        (true, reevalulateLedConfig
          { st with ledConfigs := setEntry st.ledConfigs k ⟨0, 0⟩ }) := by
      simp only [parseLedStripConfig, hn, if_false, hl, if_true]
    rw [hres]
    obtain ⟨a1, a2, a3⟩ := updateLedCount_spec
      { st with ledConfigs := setEntry st.ledConfigs k ⟨0, 0⟩ }
    simp only [reevalulateLedConfig_ledCount, reevalulateLedConfig_ledConfigs]
    have hzero : isZeroEntry (setEntry st.ledConfigs k (⟨0, 0⟩ : ledConfig_t) k) := by
      simp [setEntry, isZeroEntry]
    have hle : (updateLedCount { st with ledConfigs := setEntry st.ledConfigs k ⟨0, 0⟩ }).ledCount
        ≤ k := by
      by_contra hgt
      exact a2 k (by omega) hzero
    refine ⟨trivial, by simp [setEntry], hle, ?_⟩
    intro hbefore
    by_contra hne
    have hlt : (updateLedCount { st with ledConfigs := setEntry st.ledConfigs k ⟨0, 0⟩ }).ledCount
        < k := by omega
    have hz := a3 (by omega)
    have hsame : setEntry st.ledConfigs k (⟨0, 0⟩ : ledConfig_t)
        (updateLedCount { st with ledConfigs := setEntry st.ledConfigs k ⟨0, 0⟩ }).ledCount =
        st.ledConfigs
          (updateLedCount { st with ledConfigs := setEntry st.ledConfigs k ⟨0, 0⟩ }).ledCount := by
      simp only [setEntry]
      rw [if_neg (by omega)]
    simp only at hz
    rw [hsame] at hz
    exact hbefore _ hlt hz

/-- Witness of C20: the default strip counts 12 LEDs; after `0,0::` is parsed
for LED 5 it counts 5. -/
theorem updateLedCount_leading_entries_witness :
    (updateLedCount stateAfterInit).ledCount = 12 ∧
    (parseLedStripConfig noAdjacent defaultState 5 "0,0::".toList).1 = true ∧
    (parseLedStripConfig noAdjacent defaultState 5 "0,0::".toList).2.ledCount = 5 :=
  ⟨by decide,
   ((updateLedCount_leading_entries defaultState).2 noAdjacent 5 (by decide)).1,
   ((updateLedCount_leading_entries defaultState).2 noAdjacent 5 (by decide)).2.2.2
     (by decide)⟩

/-- C21: for every active LED that lacks the FlightMode flag,
`applyLedModeLayer` leaves the LED green when it carries the ArmState flag
and the craft is disarmed, blue when it carries the ArmState flag and the
craft is armed, and black when it carries neither flag, whatever colour the
LED had before and whatever direction bits it carries. -/
theorem applyLedModeLayer_arm_state (inp : ModeInputs) (st : LedState)
    (leds : Nat → hsvColor_t) (i : Nat) (hi : i < st.ledCount)
    (hf : (st.ledConfigs i).flags &&& LED_FUNCTION_FLIGHT_MODE = 0) :
    ((st.ledConfigs i).flags &&& LED_FUNCTION_ARM_STATE ≠ 0 → inp.ARMED = false →
      applyLedModeLayer inp st leds i = hsv_green) ∧
    ((st.ledConfigs i).flags &&& LED_FUNCTION_ARM_STATE ≠ 0 → inp.ARMED = true →
      applyLedModeLayer inp st leds i = hsv_blue) ∧
    ((st.ledConfigs i).flags &&& LED_FUNCTION_ARM_STATE = 0 →
      applyLedModeLayer inp st leds i = hsv_black) := by
  have hmain : applyLedModeLayer inp st leds i =
      if (st.ledConfigs i).flags &&& LED_FUNCTION_ARM_STATE ≠ 0
      then (if inp.ARMED = true then hsv_blue else hsv_green) else hsv_black := by
    unfold applyLedModeLayer
    rw [applyLedModeLayerLoop_spec, if_pos ⟨Nat.zero_le _, by omega⟩]
    exact applyLedModeLayerStep_armState inp st leds i hf
  rw [hmain]
  refine ⟨?_, ?_, ?_⟩
  · intro ha hr; rw [if_pos ha, if_neg (by simp [hr])]
  · intro ha hr; rw [if_pos ha, if_pos hr]
  · intro ha; rw [if_neg (not_not_intro ha)]

/-- Witness of C21: LED 0 of the default strip carries ArmState and the
direction bits south and east but not FlightMode: armed, it ends blue from a
buffer of another colour.  The LED of the throttle strip carries neither
FlightMode nor ArmState and ends black. -/
theorem applyLedModeLayer_arm_state_witness :
    applyLedModeLayer (lowBatteryFrame 0).mode defaultState (fun _ => ⟨7, 7, 7⟩) 0 = hsv_blue ∧
    applyLedModeLayer (lowBatteryFrame 0).mode throttleStripState (fun _ => ⟨7, 7, 7⟩) 0
      = hsv_black :=
  ⟨(applyLedModeLayer_arm_state (lowBatteryFrame 0).mode defaultState (fun _ => ⟨7, 7, 7⟩) 0
      (by decide) (by decide)).2.1 (by decide) rfl,
   (applyLedModeLayer_arm_state (lowBatteryFrame 0).mode throttleStripState
      (fun _ => ⟨7, 7, 7⟩) 0 (by decide) (by decide)).2.2 (by decide)⟩

/-- C22: for every 32-bit clock value `t` and every interval `k` with
0 < k < 2^31, a deadline set to `t + k` modulo 2^32 is reported not elapsed
by the comparison of `updateLedStrip` at every time `t + j` with 0 <= j < k,
and elapsed at every time `t + j` with k <= j < k + 2^31, the times taken
modulo 2^32, so also when the clock wraps between `t` and the deadline. -/
theorem deadlineElapsed_wraparound_safe (t k j : Nat) (_ht : t < 4294967296) (hk0 : 0 < k)
    (hk : k < 2147483648) :
    (j < k →
      deadlineElapsed ((t + j) % 4294967296) ((t + k) % 4294967296) = false) ∧
    (k ≤ j → j < k + 2147483648 →
      deadlineElapsed ((t + j) % 4294967296) ((t + k) % 4294967296) = true) := by
  have hiff := deadlineElapsed_iff ((t + j) % 4294967296) ((t + k) % 4294967296)
    (Nat.mod_lt _ (by decide)) (Nat.mod_lt _ (by decide))
  constructor
  · intro hj
    cases hv : deadlineElapsed ((t + j) % 4294967296) ((t + k) % 4294967296)
    · rfl
    · have := hiff.1 hv
      omega
  · intro h1 h2
    apply hiff.2
    omega

/-- Witness of C22: a deadline 100000 microseconds after 4294967000 lies behind
the wrap of the clock, at 99704; it has not elapsed at 4294967200 nor at 500
and has elapsed at 99704 and at 100000. -/
theorem deadlineElapsed_wraparound_safe_witness :
    (4294967000 + 100000) % 4294967296 = 99704 ∧
    deadlineElapsed 4294967200 99704 = false ∧
    deadlineElapsed 500 99704 = false ∧
    deadlineElapsed 99704 99704 = true ∧
    deadlineElapsed 100000 99704 = true :=
  ⟨by decide,
   (deadlineElapsed_wraparound_safe 4294967000 100000 200 (by decide) (by decide)
      (by decide)).1 (by decide),
   (deadlineElapsed_wraparound_safe 4294967000 100000 796 (by decide) (by decide)
      (by decide)).1 (by decide),
   (deadlineElapsed_wraparound_safe 4294967000 100000 100000 (by decide) (by decide)
      (by decide)).2 (by decide) (by decide),
   (deadlineElapsed_wraparound_safe 4294967000 100000 100296 (by decide) (by decide)
      (by decide)).2 (by decide) (by decide)⟩

/-- C23 (code at the failing input): `ledStripEnable` on a configuration array
of all-zero entries leaves no active LED and a grid height of 0.  The first
frame, at 1000 microseconds, finds the animation deadline 0 elapsed and runs
`updateLedAnimationState`, which takes the remainder of a division by
`animationFrames` = 0: the call has no defined result. -/
theorem updateLedStrip_animation_remainder_by_zero :
    enabledEmptyStripState.led.ledCount = 0 ∧
    enabledEmptyStripState.led.ledGridHeight = 0 ∧
    deadlineElapsed 1000 enabledEmptyStripState.nextAnimationUpdateAt = true ∧
    (updateLedAnimationState enabledEmptyStripState).isNone = true ∧
    (updateLedStrip (lowBatteryFrame 1000) enabledEmptyStripState).isNone = true := by
  decide

/-- C24: after reevaluation of any configuration no active LED passes both the
north test and the south test, and none passes both the west test and the
east test; hence an active LED lies in at most one of the four quadrants.
This includes the grids of width or height 1, where the north or west
boundary is 255. -/
theorem reevalulateLedConfig_halves_disjoint (st : LedState) (i : Nat)
    (hi : i < (reevalulateLedConfig st).ledCount) :
    ¬ (GET_LED_Y ((reevalulateLedConfig st).ledConfigs i) ≤
          (reevalulateLedConfig st).highestYValueForNorth ∧
       GET_LED_Y ((reevalulateLedConfig st).ledConfigs i) ≥
          (reevalulateLedConfig st).lowestYValueForSouth) ∧
    ¬ (GET_LED_X ((reevalulateLedConfig st).ledConfigs i) ≤
          (reevalulateLedConfig st).highestXValueForWest ∧
       GET_LED_X ((reevalulateLedConfig st).ledConfigs i) ≥
          (reevalulateLedConfig st).lowestXValueForEast) ∧
    (∀ q1 q2 : quadrant_e,
      inQuadrant (reevalulateLedConfig st) ((reevalulateLedConfig st).ledConfigs i) q1 = true →
      inQuadrant (reevalulateLedConfig st) ((reevalulateLedConfig st).ledConfigs i) q2 = true →
      q1 = q2) := by
  obtain ⟨hy, hx⟩ := reevalulateLedConfig_disjoint st i hi
  rw [reevalulateLedConfig_ledConfigs]
  refine ⟨hy, hx, ?_⟩
  intro q1 q2 h1 h2
  cases q1 <;> cases q2 <;> simp only [inQuadrant, decide_eq_true_eq] at h1 h2 <;>
    first
    | rfl
    | exact (hy (And.intro h1.1 h2.1)).elim
    | exact (hy (And.intro h2.1 h1.1)).elim
    | exact (hx (And.intro h1.2 h2.2)).elim
    | exact (hx (And.intro h2.2 h1.2)).elim

/-- Witness of C24: the strip of one row and one column has the north boundary
255 and the south boundary 1; its LED at (0,0) passes the north test and not
the south test.  LED 8 of the default strip, in the centre of the 3 by 3
grid, passes none of the four tests. -/
theorem reevalulateLedConfig_halves_disjoint_witness :
    (reevalulateLedConfig oneRowState).highestYValueForNorth = 255 ∧
    (reevalulateLedConfig oneRowState).lowestYValueForSouth = 1 ∧
    ¬ (GET_LED_Y ((reevalulateLedConfig oneRowState).ledConfigs 0) ≤
          (reevalulateLedConfig oneRowState).highestYValueForNorth ∧
       GET_LED_Y ((reevalulateLedConfig oneRowState).ledConfigs 0) ≥
          (reevalulateLedConfig oneRowState).lowestYValueForSouth) ∧
    ¬ (GET_LED_X ((reevalulateLedConfig stateAfterInit).ledConfigs 8) ≤
          (reevalulateLedConfig stateAfterInit).highestXValueForWest ∧
       GET_LED_X ((reevalulateLedConfig stateAfterInit).ledConfigs 8) ≥
          (reevalulateLedConfig stateAfterInit).lowestXValueForEast) :=
  ⟨by decide, by decide,
   (reevalulateLedConfig_halves_disjoint oneRowState 0 (by decide)).1,
   (reevalulateLedConfig_halves_disjoint stateAfterInit 8 (by decide)).2.1⟩

end Ledstrip
